import Mathlib

/-!
# Vulkan-Template-C: swapchain lifecycle and frame synchronisation

A shallow embedding of `src/util.c` and of the swapchain and frame-loop
functions of `src/main.c`.

* `uint32_t` values are natural numbers; arithmetic that can wrap is reduced
  modulo `2^32` explicitly, and the C casts `(uint32_t) x` of an `int` or a
  `long` are `to_u32`.
* `VkResult`, `VkFormat`, `VkColorSpaceKHR`, `VkPresentModeKHR` and
  `VkSharingMode` are the integers of the Vulkan headers; the enumerants the
  program names are given with their header values.
* Calls into Vulkan and GLFW are recorded, in program order, in a call trace;
  what those calls answer is an explicit input of each function.
-/

namespace VulkanTemplate

/-! ## Machine integers and Vulkan enumerants -/

/-- Value of `UINT32_MAX`. -/
def UINT32_MAX : Nat := 4294967295

/-- Conversion of a signed C integer to `uint32_t`. -/
def to_u32 (x : Int) : Nat := (x % 4294967296).toNat

/-- Sum of two `uint32_t` values, which wraps. -/
def add_u32 (a b : Nat) : Nat := (a + b) % 4294967296

def VK_SUCCESS : Int := 0
def VK_SUBOPTIMAL_KHR : Int := 1000001003
def VK_ERROR_OUT_OF_DATE_KHR : Int := -1000001004
def VK_ERROR_DEVICE_LOST : Int := -4

def VK_FORMAT_B8G8R8A8_SRGB : Nat := 50
def VK_COLOR_SPACE_SRGB_NONLINEAR_KHR : Nat := 0

def VK_PRESENT_MODE_MAILBOX_KHR : Nat := 1
def VK_PRESENT_MODE_FIFO_KHR : Nat := 2

def VK_SHARING_MODE_EXCLUSIVE : Nat := 0
def VK_SHARING_MODE_CONCURRENT : Nat := 1

def VK_PIPELINE_STAGE_COLOR_ATTACHMENT_OUTPUT_BIT : Nat := 1024

def VK_BUFFER_USAGE_TRANSFER_SRC_BIT : Nat := 1
def VK_BUFFER_USAGE_TRANSFER_DST_BIT : Nat := 2
def VK_BUFFER_USAGE_INDEX_BUFFER_BIT : Nat := 64
def VK_BUFFER_USAGE_VERTEX_BUFFER_BIT : Nat := 128

def VK_MEMORY_PROPERTY_DEVICE_LOCAL_BIT : Nat := 1
def VK_MEMORY_PROPERTY_HOST_VISIBLE_BIT : Nat := 2
def VK_MEMORY_PROPERTY_HOST_COHERENT_BIT : Nat := 4

/-- Capacity of the fixed arrays `swap_chain_imgs`, `swap_chain_img_views`
and `swap_chain_framebuffers`. -/
def MAX_SWAP_CHAIN_IMGS : Nat := 10

def MAX_FRAMES_IN_FLIGHT : Nat := 2

/-! ## `src/util.c` -/

/-- Function `clamp_u32` of `src/util.c`. -/
def clamp_u32 (value min max : Nat) : Nat :=
  if value < min then min
  else if value > max then max
  else value

/-! ## Surface records -/

structure VkExtent2D where
  width : Nat
  height : Nat
  deriving DecidableEq, Repr

/-- The fields of `VkSurfaceCapabilitiesKHR` the program reads. -/
structure VkSurfaceCapabilitiesKHR where
  minImageCount : Nat
  maxImageCount : Nat
  currentExtent : VkExtent2D
  minImageExtent : VkExtent2D
  maxImageExtent : VkExtent2D
  currentTransform : Nat
  deriving DecidableEq, Repr

structure VkSurfaceFormatKHR where
  format : Nat
  colorSpace : Nat
  deriving DecidableEq, Repr

/-- The global `queue_indices`; both fields are C `long`s. -/
structure QueueFamilyIndices where
  graphics_index : Int
  presentation_index : Int
  deriving DecidableEq, Repr

/-! ## Swapchain configuration choices -/

/-- Function `choose_swap_extent`. The pair `fb` is what
`glfwGetFramebufferSize` writes into the two `int`s `width` and `height`; it
is read only on the `else` branch. -/
def choose_swap_extent (capabilities : VkSurfaceCapabilitiesKHR) (fb : Int × Int) :
    VkExtent2D :=
  if capabilities.currentExtent.width ≠ UINT32_MAX then
    capabilities.currentExtent
  else
    let actual_extent : VkExtent2D := { width := to_u32 fb.1, height := to_u32 fb.2 }
    { width := clamp_u32 actual_extent.width capabilities.minImageExtent.width
        capabilities.maxImageExtent.width,
      height := clamp_u32 actual_extent.height capabilities.minImageExtent.height
        capabilities.maxImageExtent.height }

/-- The test of the loop body of `choose_swap_format`. -/
def is_bgra_srgb (f : VkSurfaceFormatKHR) : Prop :=
  f.format = VK_FORMAT_B8G8R8A8_SRGB ∧ f.colorSpace = VK_COLOR_SPACE_SRGB_NONLINEAR_KHR

instance (f : VkSurfaceFormatKHR) : Decidable (is_bgra_srgb f) := by
  unfold is_bgra_srgb; infer_instance

/-- The `for` loop of `choose_swap_format` over the entries not yet visited:
the entry it returns from, or `none` when it runs to the end. -/
def choose_swap_format_loop : List VkSurfaceFormatKHR → Option VkSurfaceFormatKHR
  | [] => none
  | f :: rest => if is_bgra_srgb f then some f else choose_swap_format_loop rest

/-- Function `choose_swap_format`; the array and its `format_count` are a
list. Reading `formats[0]` of an empty array has no value. -/
def choose_swap_format (formats : List VkSurfaceFormatKHR) : Option VkSurfaceFormatKHR :=
  match choose_swap_format_loop formats with
  | some f => some f
  | none => formats.head?

/-- The `for` loop of `choose_swap_present_mode`. -/
def choose_swap_present_mode_loop : List Nat → Option Nat
  | [] => none
  | m :: rest =>
    if m = VK_PRESENT_MODE_MAILBOX_KHR then some m else choose_swap_present_mode_loop rest

/-- Function `choose_swap_present_mode`. -/
def choose_swap_present_mode (present_modes : List Nat) : Nat :=
  match choose_swap_present_mode_loop present_modes with
  | some m => m
  | none => VK_PRESENT_MODE_FIFO_KHR

/-! ## Queue families and memory types -/

def VK_QUEUE_GRAPHICS_BIT : Nat := 1

/-- One queue family of a physical device as `find_queue_indices` sees it:
the `queueFlags` of its `VkQueueFamilyProperties` and what
`vkGetPhysicalDeviceSurfaceSupportKHR` answers for it and the surface. -/
structure QueueFamily where
  queueFlags : Nat
  presentation_support : Bool
  deriving DecidableEq, Repr

/-- The first test of the loop body of `find_queue_indices`. -/
def QueueFamily.has_graphics (f : QueueFamily) : Prop :=
  f.queueFlags &&& VK_QUEUE_GRAPHICS_BIT ≠ 0

instance (f : QueueFamily) : Decidable f.has_graphics := by
  unfold QueueFamily.has_graphics; infer_instance

/-- The `for` loop of `find_queue_indices` over the families from index `i`
on, with `queue_indices` as it stands. The body has no `break`. -/
def find_queue_indices_loop : List QueueFamily → Nat → QueueFamilyIndices → QueueFamilyIndices
  | [], _, queue_indices => queue_indices
  | f :: rest, i, queue_indices =>
    let queue_indices :=
      if f.has_graphics then { queue_indices with graphics_index := (i : Int) }
      else queue_indices
    let queue_indices :=
      if f.presentation_support = true then
        { queue_indices with presentation_index := (i : Int) }
      else queue_indices
    find_queue_indices_loop rest (i + 1) queue_indices

/-- Function `find_queue_indices`: the value it leaves in the global
`queue_indices` for the queue families `queue_families` of the device. -/
def find_queue_indices (queue_families : List QueueFamily) : QueueFamilyIndices :=
  find_queue_indices_loop queue_families 0 { graphics_index := -1, presentation_index := -1 }

/-- The test of the memory-type loop of `create_buffer` for index `i` and a
type with property flags `propertyFlags`:
`(type_filter & (1 << i)) && (propertyFlags & mem_flags) == mem_flags`, with
`1 << i` converted to the `uint32_t` of `type_filter`. That is the C value
for `i < 32`, the indices of the 32-element array `memoryTypes`. -/
def memory_type_matches (type_filter mem_flags i propertyFlags : Nat) : Prop :=
  type_filter &&& ((1 <<< i) % 4294967296) ≠ 0 ∧ propertyFlags &&& mem_flags = mem_flags

instance (type_filter mem_flags i propertyFlags : Nat) :
    Decidable (memory_type_matches type_filter mem_flags i propertyFlags) := by
  unfold memory_type_matches; infer_instance

/-- The memory-type loop of `create_buffer` over the types from index `i`
on, each given by its `propertyFlags`: `some mem_index` when it leaves by
`break` with `found` set, `none` when it runs to `memoryTypeCount`. -/
def find_memory_type_loop (type_filter mem_flags : Nat) : List Nat → Nat → Option Nat
  | [], _ => none
  | propertyFlags :: rest, i =>
    if memory_type_matches type_filter mem_flags i propertyFlags then some i
    else find_memory_type_loop type_filter mem_flags rest (i + 1)

/-- The memory-type selection of `create_buffer`; `memory_types` are the
property flags of the first `memoryTypeCount` entries of `memoryTypes`. -/
def find_memory_type (type_filter mem_flags : Nat) (memory_types : List Nat) : Option Nat :=
  find_memory_type_loop type_filter mem_flags memory_types 0

/-! ## Program state, call trace and outcomes -/

/-- The fields of `VkSwapchainCreateInfoKHR` that `create_swap_chain` fills
from run-time values, and `imageArrayLayers`. A field the designated
initialiser leaves out is zero (`NULL` for the pointer). -/
structure VkSwapchainCreateInfoKHR where
  minImageCount : Nat
  imageFormat : Nat
  imageColorSpace : Nat
  imageExtent : VkExtent2D
  imageArrayLayers : Nat
  preTransform : Nat
  presentMode : Nat
  imageSharingMode : Nat
  queueFamilyIndexCount : Nat
  pQueueFamilyIndices : Option (List Nat)
  deriving DecidableEq, Repr

/-- The lines the program writes to `stderr`. -/
inductive Diagnostic where
  | error_create_instance
  | error_create_surface
  | error_no_gpu
  | error_no_graphics_queue
  | error_no_presentation_queue
  | error_create_device
  | error_create_render_pass
  | error_create_vertex_shader_module
  | error_create_fragment_shader_module
  | error_create_pipeline_layout
  | error_create_pipeline
  | error_create_command_pool
  | error_allocate_command_buffers
  | error_create_sync_prims
  | error_create_buffer
  | error_memory_type
  | error_allocate_memory
  | error_create_swap_chain
  | error_create_image_view (i : Nat)
  | error_create_framebuffer
  | warning_acquire
  | warning_begin_recording
  | warning_record
  | warning_submit
  | warning_present
  deriving DecidableEq, Repr

/-- The buffers of the program: the local `staging_buffer` of
`create_vertex_buffer` or `create_index_buffer`, and the globals
`vertex_buffer` and `index_buffer`, each with its memory. -/
inductive Buf where
  | staging_buffer
  | vertex_buffer
  | index_buffer
  deriving DecidableEq, Repr

/-- The calls that only start-up makes: the creation of the objects that
live as long as the device, and the upload of the vertex and index data. The
calls named `copy_...` are the calls of `copy_buffer` on its own one-time
command buffer. -/
inductive InitCall where
  | vkCreateInstance
  | glfwCreateWindowSurface
  | vkEnumeratePhysicalDevices
  | vkCreateDevice (graphics_family presentation_family : Nat)
  | vkGetDeviceQueue (family : Nat)
  | vkCreateRenderPass
  | vkCreateShaderModule (fragment : Bool)
  | vkDestroyShaderModule (fragment : Bool)
  | vkCreatePipelineLayout
  | vkCreateGraphicsPipelines
  | vkCreateCommandPool (family : Nat)
  | vkAllocateCommandBuffers (count : Nat)
  | vkCreateSemaphore (render_finished : Bool) (i : Nat)
  | vkCreateFence (i : Nat)
  | vkCreateBuffer (buffer : Buf) (size usage : Nat)
  | vkGetBufferMemoryRequirements (buffer : Buf)
  | vkGetPhysicalDeviceMemoryProperties
  | vkAllocateMemory (buffer : Buf) (allocationSize memoryTypeIndex : Nat)
  | vkBindBufferMemory (buffer : Buf)
  | vkMapMemory (buffer : Buf) (size : Nat)
  | memcpy (buffer : Buf) (size : Nat)
  | vkUnmapMemory (buffer : Buf)
  | copy_vkAllocateCommandBuffers
  | copy_vkBeginCommandBuffer
  | vkCmdCopyBuffer (src dst : Buf) (srcOffset dstOffset size : Nat)
  | copy_vkEndCommandBuffer
  | copy_vkQueueSubmit
  | vkQueueWaitIdle
  | vkFreeCommandBuffers
  | vkDestroyBuffer (buffer : Buf)
  | vkFreeMemory (buffer : Buf)
  deriving DecidableEq, Repr

/-- One entry of the call trace. An argument that is an element of one of the
program's global arrays is given by its index in that array:
`img_available_semaphores`, `render_finished_semaphores`, `in_flight_fences`
and `command_buffers` by frame slot, `swap_chain_img_views` and
`swap_chain_framebuffers` by image. `enter_recreate_swap_chain` records that
`recreate_swap_chain` was called; `init` holds a call of start-up. -/
inductive Call where
  | glfwGetFramebufferSize (width height : Int)
  | glfwWaitEvents
  | vkGetPhysicalDeviceSurfaceCapabilitiesKHR
  | vkGetPhysicalDeviceSurfaceFormatsKHR
  | vkGetPhysicalDeviceSurfacePresentModesKHR
  | vkDeviceWaitIdle
  | vkDestroyFramebuffer (i : Nat)
  | vkDestroyImageView (i : Nat)
  | vkDestroySwapchainKHR
  | vkCreateSwapchainKHR (create_info : VkSwapchainCreateInfoKHR)
  | vkGetSwapchainImagesKHR (img_count : Nat) (store : Bool)
  | vkCreateImageView (i : Nat)
  | vkCreateFramebuffer (i : Nat)
  | vkWaitForFences (in_flight_fence : Nat)
  | vkAcquireNextImageKHR (img_available_semaphore : Nat)
  | vkResetFences (in_flight_fence : Nat)
  | vkResetCommandBuffer (command_buffer : Nat)
  | vkBeginCommandBuffer (command_buffer : Nat)
  | vkCmdBeginRenderPass (command_buffer framebuffer : Nat) (extent : VkExtent2D)
  | vkCmdBindPipeline (command_buffer : Nat)
  | vkCmdSetViewport (command_buffer : Nat) (extent : VkExtent2D)
  | vkCmdSetScissor (command_buffer : Nat) (extent : VkExtent2D)
  | vkCmdBindVertexBuffers (command_buffer : Nat)
  | vkCmdBindIndexBuffer (command_buffer : Nat)
  | vkCmdDrawIndexed (command_buffer index_count : Nat)
  | vkCmdEndRenderPass (command_buffer : Nat)
  | vkEndCommandBuffer (command_buffer : Nat)
  | vkQueueSubmit (wait_img_available wait_stage command_buffer signal_render_finished
      in_flight_fence : Nat)
  | vkQueuePresentKHR (wait_render_finished img_index : Nat)
  | fprintf (line : Diagnostic)
  | enter_recreate_swap_chain
  | init (call : InitCall)
  deriving DecidableEq, Repr

/-- What the program can observe of a fence, and whether a queue submission
stands behind it: `signaled`; `pending`, unsignaled and passed to a queue
submission that succeeded, which signals it when the GPU finishes; `dead`,
unsignaled (by `vkResetFences`) with no submission that will signal it. -/
inductive FenceState where
  | signaled
  | pending
  | dead
  deriving DecidableEq, Repr

/-- The globals of `src/main.c` the modelled functions read or write,
`current_frame` (the `static` local of `draw_frame`), the state of the
fences and the call trace. `swap_chain_imgs` is the whole fixed array. The
three buffer fields hold the bytes of each buffer that exists, `none` for a
buffer not created yet or destroyed. -/
structure State where
  queue_indices : QueueFamilyIndices
  format : VkSurfaceFormatKHR
  present_mode : Nat
  swap_chain_img_count : Nat
  swap_chain_imgs : List Nat
  swap_chain_img_format : Nat
  swap_chain_extent : VkExtent2D
  framebuffer_resized : Bool
  current_frame : Nat
  in_flight_fences : Nat → FenceState
  trace : List Call
  staging_buffer : Option (List Nat) := none
  vertex_buffer : Option (List Nat) := none
  index_buffer : Option (List Nat) := none

/-- How a call of a modelled function ends: it returns; the process ends in
`exit(code)`; an `assert` fails; the function is still polling for a
non-empty window when the fuel of the model runs out; or it waits on a fence
that nothing will signal. Each carries the state reached. -/
inductive Outcome where
  | returned (s : State)
  | exited (code : Nat) (s : State)
  | aborted (s : State)
  | stalled (s : State)
  | hung (s : State)

def Outcome.state : Outcome → State
  | .returned s => s
  | .exited _ s => s
  | .aborted s => s
  | .stalled s => s
  | .hung s => s

/-- Sequencing: the rest of the function runs only after a return. -/
def Outcome.bind (o : Outcome) (rest : State → Outcome) : Outcome :=
  match o with
  | .returned s => rest s
  | other => other

/-- Appends calls to the trace. -/
def State.log (s : State) (calls : List Call) : State :=
  { s with trace := s.trace ++ calls }

/-- The calls a function appended to the trace of the state it started from. -/
def added_calls (s : State) (o : Outcome) : List Call :=
  o.state.trace.drop s.trace.length

/-! ## Swapchain build -/

/-- What the surface, the window and the device answer during one call of
`create_swap_chain`: the surface capabilities, formats and present modes, the
framebuffer size, the result of `vkCreateSwapchainKHR`, and the images of the
swapchain that `vkGetSwapchainImagesKHR` reports. -/
structure SwapEnv where
  capabilities : VkSurfaceCapabilitiesKHR
  formats : List VkSurfaceFormatKHR
  present_modes : List Nat
  fb : Int × Int
  create_result : Int
  images : List Nat

/-- The `create_info` of `create_swap_chain` at the call of
`vkCreateSwapchainKHR`: the designated initialiser, then the `if` on the two
queue family indices. -/
def swap_chain_create_info (queue_indices : QueueFamilyIndices)
    (capabilities : VkSurfaceCapabilitiesKHR) (format : VkSurfaceFormatKHR)
    (present_mode : Nat) (extent : VkExtent2D) : VkSwapchainCreateInfoKHR :=
  let img_count := add_u32 capabilities.minImageCount 1
  let queue_family_indices :=
    [to_u32 queue_indices.graphics_index, to_u32 queue_indices.presentation_index]
  let create_info : VkSwapchainCreateInfoKHR :=
    { minImageCount := img_count,
      imageFormat := format.format,
      imageColorSpace := format.colorSpace,
      imageExtent := extent,
      imageArrayLayers := 1,
      preTransform := capabilities.currentTransform,
      presentMode := present_mode,
      imageSharingMode := 0,
      queueFamilyIndexCount := 0,
      pQueueFamilyIndices := none }
  if queue_indices.graphics_index ≠ queue_indices.presentation_index then
    { create_info with
      imageSharingMode := VK_SHARING_MODE_CONCURRENT,
      queueFamilyIndexCount := 2,
      pQueueFamilyIndices := some queue_family_indices }
  else
    { create_info with imageSharingMode := VK_SHARING_MODE_EXCLUSIVE }

/-- Writing `imgs` from element 0 on into an array. -/
def store_from_zero (imgs array : List Nat) : List Nat :=
  imgs ++ array.drop imgs.length

/-- Function `create_swap_chain`. -/
def create_swap_chain (env : SwapEnv) (s : State) : Outcome :=
  let capabilities := env.capabilities
  let s := s.log [.vkGetPhysicalDeviceSurfaceCapabilitiesKHR,
    .vkGetPhysicalDeviceSurfaceFormatsKHR]
  if ¬ (env.formats.length > 0) then .aborted s else
  let s := s.log [.vkGetPhysicalDeviceSurfaceFormatsKHR,
    .vkGetPhysicalDeviceSurfacePresentModesKHR]
  if ¬ (env.present_modes.length > 0) then .aborted s else
  let s := s.log [.vkGetPhysicalDeviceSurfacePresentModesKHR]
  let s := s.log (if capabilities.currentExtent.width ≠ UINT32_MAX then []
    else [.glfwGetFramebufferSize env.fb.1 env.fb.2])
  let extent := choose_swap_extent capabilities env.fb
  match choose_swap_format env.formats with
  | none => .aborted s
  | some format =>
    let s := { s with format := format }
    let present_mode := choose_swap_present_mode env.present_modes
    let s := { s with present_mode := present_mode }
    let create_info :=
      swap_chain_create_info s.queue_indices capabilities format present_mode extent
    let s := s.log [.vkCreateSwapchainKHR create_info]
    if env.create_result ≠ VK_SUCCESS then
      .exited 1 (s.log [.fprintf .error_create_swap_chain])
    else
      let img_count := env.images.length
      let s := s.log [.vkGetSwapchainImagesKHR img_count false]
      if ¬ (img_count < MAX_SWAP_CHAIN_IMGS) then .aborted s else
      let s := s.log [.vkGetSwapchainImagesKHR img_count true]
      .returned { s with
        swap_chain_imgs := store_from_zero env.images s.swap_chain_imgs,
        swap_chain_img_format := format.format,
        swap_chain_extent := extent,
        swap_chain_img_count := img_count }

/-- The `for` loop of `create_img_views`: `n` iterations from index `i` on;
`results j` is what `vkCreateImageView` returns for image `j`. -/
def create_img_views_loop (results : Nat → Int) : Nat → Nat → State → Outcome
  | 0, _, s => .returned s
  | n + 1, i, s =>
    let s := s.log [.vkCreateImageView i]
    if results i ≠ VK_SUCCESS then
      .exited 1 (s.log [.fprintf (.error_create_image_view i)])
    else create_img_views_loop results n (i + 1) s

/-- Function `create_img_views`. -/
def create_img_views (results : Nat → Int) (s : State) : Outcome :=
  create_img_views_loop results s.swap_chain_img_count 0 s

/-- The `for` loop of `create_framebuffers`. -/
def create_framebuffers_loop (results : Nat → Int) : Nat → Nat → State → Outcome
  | 0, _, s => .returned s
  | n + 1, i, s =>
    let s := s.log [.vkCreateFramebuffer i]
    if results i ≠ VK_SUCCESS then
      .exited 1 (s.log [.fprintf .error_create_framebuffer])
    else create_framebuffers_loop results n (i + 1) s

/-- Function `create_framebuffers`. -/
def create_framebuffers (results : Nat → Int) (s : State) : Outcome :=
  create_framebuffers_loop results s.swap_chain_img_count 0 s

/-- Function `cleanup_swap_chain`: its two `for` loops over
`swap_chain_img_count`, then the swapchain. -/
def cleanup_swap_chain (s : State) : State :=
  let s := s.log ((List.range s.swap_chain_img_count).map .vkDestroyFramebuffer)
  let s := s.log ((List.range s.swap_chain_img_count).map .vkDestroyImageView)
  s.log [.vkDestroySwapchainKHR]

/-- Function `handle_framebuffer_resize`, the framebuffer-size callback
registered in `init_window`. GLFW runs it inside the two calls that process
window events: `glfwPollEvents` in `main_loop` and `glfwWaitEvents` in
`recreate_swap_chain`. -/
def handle_framebuffer_resize (s : State) : State :=
  { s with framebuffer_resized := true }

/-- What the environment answers during one call of `recreate_swap_chain`:
`sizes q` is the framebuffer size the `q`-th call of `glfwGetFramebufferSize`
made by `recreate_swap_chain` itself reports (counted from 0); `resized q`
tells whether the call of `glfwWaitEvents` that follows the `q`-th size query
ran the resize callback; the rest answers the build that follows. -/
structure RebuildEnv where
  sizes : Nat → Int × Int
  resized : Nat → Bool
  swap : SwapEnv
  img_view_results : Nat → Int
  framebuffer_results : Nat → Int

/-- The `while` loop of `recreate_swap_chain` with `width` and `height` as
they stand at the loop test and `q` size queries made so far. Each iteration
queries the size and then waits for events, and the wait runs the resize
callback when a resize is delivered. The loop has no bound in the source; the
model gives it `fuel` iterations and is `stalled` when the test still holds
after them. -/
def recreate_swap_chain_wait (sizes : Nat → Int × Int) (resized : Nat → Bool) :
    Nat → Nat → Int → Int → State → Outcome
  | 0, _, width, height, s =>
    if width = 0 ∨ height = 0 then .stalled s else .returned s
  | fuel + 1, q, width, height, s =>
    if width = 0 ∨ height = 0 then
      let s := s.log [.glfwGetFramebufferSize (sizes q).1 (sizes q).2, .glfwWaitEvents]
      let s := if resized q then handle_framebuffer_resize s else s
      recreate_swap_chain_wait sizes resized fuel (q + 1) (sizes q).1 (sizes q).2 s
    else .returned s

/-- Function `recreate_swap_chain`. -/
def recreate_swap_chain (fuel : Nat) (env : RebuildEnv) (s : State) : Outcome :=
  let s := s.log [.enter_recreate_swap_chain]
  let s := s.log [.glfwGetFramebufferSize (env.sizes 0).1 (env.sizes 0).2]
  (recreate_swap_chain_wait env.sizes env.resized fuel 1 (env.sizes 0).1 (env.sizes 0).2
    s).bind fun s =>
  let s := s.log [.vkDeviceWaitIdle]
  let s := cleanup_swap_chain s
  (create_swap_chain env.swap s).bind fun s =>
  (create_img_views env.img_view_results s).bind fun s =>
  create_framebuffers env.framebuffer_results s

/-! ## Frame loop -/

/-- The calls of `record_command_buffer`, in order; `begin_result` and
`end_result` are what `vkBeginCommandBuffer` and `vkEndCommandBuffer` return,
`index` is the image index and `extent` the global `swap_chain_extent`. -/
def record_command_buffer_calls (begin_result end_result : Int)
    (command_buffer index : Nat) (extent : VkExtent2D) : List Call :=
  [.vkBeginCommandBuffer command_buffer] ++
  if begin_result ≠ VK_SUCCESS then [.fprintf .warning_begin_recording]
  else
    [.vkCmdBeginRenderPass command_buffer index extent,
     .vkCmdBindPipeline command_buffer,
     .vkCmdSetViewport command_buffer extent,
     .vkCmdSetScissor command_buffer extent,
     .vkCmdBindVertexBuffers command_buffer,
     .vkCmdBindIndexBuffer command_buffer,
     .vkCmdDrawIndexed command_buffer 6,
     .vkCmdEndRenderPass command_buffer,
     .vkEndCommandBuffer command_buffer] ++
    if end_result ≠ VK_SUCCESS then [.fprintf .warning_record] else []

/-- Function `record_command_buffer`: it writes none of the globals. -/
def record_command_buffer (begin_result end_result : Int) (command_buffer index : Nat)
    (s : State) : State :=
  s.log (record_command_buffer_calls begin_result end_result command_buffer index
    s.swap_chain_extent)

/-- What the environment answers during one iteration of `main_loop`: whether
`glfwPollEvents` ran the resize callback, the result and image index of
`vkAcquireNextImageKHR`, the results of the two recording calls, of
`vkQueueSubmit` and of `vkQueuePresentKHR`, and the answers to a rebuild
should `draw_frame` call one. -/
structure FrameEnv where
  resized : Bool
  acquire_result : Int
  img_index : Nat
  begin_result : Int
  end_result : Int
  submit_result : Int
  present_result : Int
  rebuild : RebuildEnv

/-- Sets one fence of `in_flight_fences`. -/
def State.set_fence (s : State) (k : Nat) (f : FenceState) : State :=
  { s with in_flight_fences := Function.update s.in_flight_fences k f }

/-- The part of `draw_frame` from the call of `vkQueuePresentKHR` to the end;
`img_index` is the image acquired. -/
def draw_frame_present (fuel : Nat) (env : FrameEnv) (img_index : Nat) (s : State) :
    Outcome :=
  let s := s.log [.vkQueuePresentKHR s.current_frame img_index]
  let result := env.present_result
  if result = VK_ERROR_OUT_OF_DATE_KHR ∨ result = VK_SUBOPTIMAL_KHR ∨
      s.framebuffer_resized = true then
    let s := { s with framebuffer_resized := false }
    (recreate_swap_chain fuel env.rebuild s).bind fun s =>
    .returned { s with current_frame := (s.current_frame + 1) % MAX_FRAMES_IN_FLIGHT }
  else if result ≠ VK_SUCCESS then
    .returned (s.log [.fprintf .warning_present])
  else
    .returned { s with current_frame := (s.current_frame + 1) % MAX_FRAMES_IN_FLIGHT }

/-- The part of `draw_frame` from `vkResetFences` to `vkQueueSubmit`,
entered when the acquire result is `VK_SUCCESS` or `VK_SUBOPTIMAL_KHR`. A
submission that succeeds takes the fence with it; one that fails is reported
and the function goes on. -/
def draw_frame_record_submit (env : FrameEnv) (s : State) : State :=
  let s := (s.log [.vkResetFences s.current_frame]).set_fence s.current_frame .dead
  let s := s.log [.vkResetCommandBuffer s.current_frame]
  let s := record_command_buffer env.begin_result env.end_result s.current_frame
    env.img_index s
  let s := s.log [.vkQueueSubmit s.current_frame
    VK_PIPELINE_STAGE_COLOR_ATTACHMENT_OUTPUT_BIT s.current_frame s.current_frame
    s.current_frame]
  if env.submit_result ≠ VK_SUCCESS then s.log [.fprintf .warning_submit]
  else s.set_fence s.current_frame .pending

/-- Function `draw_frame`. `vkWaitForFences` has the timeout `UINT64_MAX`:
it returns once the fence is signaled, at once on a signaled fence and after
the GPU has finished on a pending one, and does not return on a dead one. -/
def draw_frame (fuel : Nat) (env : FrameEnv) (s : State) : Outcome :=
  let s := s.log [.vkWaitForFences s.current_frame]
  if s.in_flight_fences s.current_frame = .dead then .hung s else
  let s := s.set_fence s.current_frame .signaled
  let s := s.log [.vkAcquireNextImageKHR s.current_frame]
  let result := env.acquire_result
  if result = VK_ERROR_OUT_OF_DATE_KHR then
    recreate_swap_chain fuel env.rebuild s
  else if result ≠ VK_SUCCESS ∧ result ≠ VK_SUBOPTIMAL_KHR then
    .returned (s.log [.fprintf .warning_acquire])
  else
    draw_frame_present fuel env env.img_index (draw_frame_record_submit env s)

/-- One iteration of the `while` loop of `main_loop`: `glfwPollEvents`, which
runs the resize callback when a resize is waiting, then `draw_frame`. -/
def main_loop_iteration (fuel : Nat) (env : FrameEnv) (s : State) : Outcome :=
  let s := if env.resized then handle_framebuffer_resize s else s
  draw_frame fuel env s

/-- Successive iterations of `main_loop`, one per element of `envs`, as long
as the window is not closed and `draw_frame` returns. -/
def main_loop_iterations (fuel : Nat) : List FrameEnv → State → Outcome
  | [], s => .returned s
  | env :: envs, s => (main_loop_iteration fuel env s).bind (main_loop_iterations fuel envs)

/-- The state `init_vulkan` leaves behind as far as the frame loop reads it:
the fences created signaled by `create_sync_prims`, `current_frame = 0`, the
resize flag clear, and an empty trace. -/
def initial_state (queue_indices : QueueFamilyIndices) (img_count : Nat)
    (extent : VkExtent2D) : State :=
  { queue_indices := queue_indices,
    format := { format := 0, colorSpace := 0 },
    present_mode := 0,
    swap_chain_img_count := img_count,
    swap_chain_imgs := List.replicate MAX_SWAP_CHAIN_IMGS 0,
    swap_chain_img_format := 0,
    swap_chain_extent := extent,
    framebuffer_resized := false,
    current_frame := 0,
    in_flight_fences := fun _ => .signaled,
    trace := [] }

/-! ## Buffers and upload -/

/-- The bytes of a buffer, those of the memory bound to it; `none` when the
buffer does not exist or has no memory bound to it. -/
def State.buffer (s : State) : Buf → Option (List Nat)
  | .staging_buffer => s.staging_buffer
  | .vertex_buffer => s.vertex_buffer
  | .index_buffer => s.index_buffer

def State.set_buffer (s : State) (buffer : Buf) (bytes : Option (List Nat)) : State :=
  match buffer with
  | .staging_buffer => { s with staging_buffer := bytes }
  | .vertex_buffer => { s with vertex_buffer := bytes }
  | .index_buffer => { s with index_buffer := bytes }

/-- What the device answers during one call of `create_buffer`: the result of
`vkCreateBuffer`, the `size` and `memoryTypeBits` of the memory requirements,
the result of `vkAllocateMemory`, the byte the memory allocated holds at each
offset, and the result of `vkBindBufferMemory`. -/
structure BufferEnv where
  create_result : Int
  mem_size : Nat
  memoryTypeBits : Nat
  alloc_result : Int
  initial_bytes : Nat → Nat
  bind_result : Int

/-- Function `create_buffer` for the buffer `buffer` and its memory;
`memory_types` are the property flags of the device's memory types. The
program does not read the result of `vkBindBufferMemory` and returns whatever
it is: on `VK_SUCCESS` the buffer has the first `size` bytes of the memory
allocated, of no meaning until written; otherwise no memory is bound to the
buffer. -/
def create_buffer (memory_types : List Nat) (env : BufferEnv)
    (size usage_flags mem_flags : Nat) (buffer : Buf) (s : State) : Outcome :=
  let s := s.log [.init (.vkCreateBuffer buffer size usage_flags)]
  if env.create_result ≠ VK_SUCCESS then
    .exited 1 (s.log [.fprintf .error_create_buffer])
  else
    let s := s.log [.init (.vkGetBufferMemoryRequirements buffer),
      .init .vkGetPhysicalDeviceMemoryProperties]
    let type_filter := env.memoryTypeBits
    match find_memory_type type_filter mem_flags memory_types with
    | none => .exited 1 (s.log [.fprintf .error_memory_type])
    | some mem_index =>
      let s := s.log [.init (.vkAllocateMemory buffer env.mem_size mem_index)]
      if env.alloc_result ≠ VK_SUCCESS then
        .exited 1 (s.log [.fprintf .error_allocate_memory])
      else
        let s := s.log [.init (.vkBindBufferMemory buffer)]
        .returned (s.set_buffer buffer
          (if env.bind_result = VK_SUCCESS then some ((List.range size).map env.initial_bytes)
            else none))

/-- The effect of one `VkBufferCopy` region on the bytes of the destination. -/
def copy_region (srcOffset dstOffset size : Nat) (src dst : List Nat) : List Nat :=
  dst.take dstOffset ++ (src.drop srcOffset).take size ++ dst.drop (dstOffset + size)

/-- The results of the calls of `copy_buffer` that return one:
`vkAllocateCommandBuffers`, `vkBeginCommandBuffer`, `vkEndCommandBuffer`,
`vkQueueSubmit` and `vkQueueWaitIdle`. -/
structure CopyEnv where
  alloc_result : Int
  begin_result : Int
  end_result : Int
  submit_result : Int
  wait_idle_result : Int
  deriving DecidableEq, Repr

/-- Function `copy_buffer`. The program reads none of the results of its
calls and makes every call whatever they are. The region has the `size` given
and, by the designated initialiser, source and destination offset 0. When
the five results are all `VK_SUCCESS`, the copy has been carried out when
`vkQueueWaitIdle` returns; when one of them is not, the commands were not
recorded, not submitted or not known to have completed, and the destination
is left as it was. -/
def copy_buffer (env : CopyEnv) (src_buffer dst_buffer : Buf) (size : Nat) (s : State) :
    State :=
  let s := s.log [.init .copy_vkAllocateCommandBuffers, .init .copy_vkBeginCommandBuffer,
    .init (.vkCmdCopyBuffer src_buffer dst_buffer 0 0 size), .init .copy_vkEndCommandBuffer,
    .init .copy_vkQueueSubmit, .init .vkQueueWaitIdle]
  let s :=
    if env.alloc_result = VK_SUCCESS ∧ env.begin_result = VK_SUCCESS ∧
        env.end_result = VK_SUCCESS ∧ env.submit_result = VK_SUCCESS ∧
        env.wait_idle_result = VK_SUCCESS then
      match s.buffer src_buffer, s.buffer dst_buffer with
      | some src, some dst => s.set_buffer dst_buffer (some (copy_region 0 0 size src dst))
      | _, _ => s
    else s
  s.log [.init .vkFreeCommandBuffers]

/-- What the device answers during `create_vertex_buffer` or
`create_index_buffer`: its memory types, the answers to the two calls of
`create_buffer`, the result of `vkMapMemory` and the results of the calls of
`copy_buffer`. -/
structure UploadEnv where
  memory_types : List Nat
  staging : BufferEnv
  map_result : Int
  dest : BufferEnv
  copy : CopyEnv

/-- The part of `create_vertex_buffer` and `create_index_buffer` between the
two calls of `create_buffer`: map the staging memory, `memcpy` the `data` of
`buffer_size` bytes into it, unmap. The program does not read `map_result`,
the result of `vkMapMemory`, and calls `memcpy` whatever it is. On
`VK_SUCCESS` the bytes go to the staging memory. Otherwise `vkMapMemory` has
not set the pointer `memcpy` writes through; the model then leaves the staging
memory as it was and lets the program go on. -/
def fill_staging_buffer (map_result : Int) (data : List Nat) (buffer_size : Nat)
    (s : State) : State :=
  let s := s.log [.init (.vkMapMemory .staging_buffer buffer_size)]
  let s :=
    if map_result = VK_SUCCESS then
      s.set_buffer .staging_buffer
        ((s.buffer .staging_buffer).map (store_from_zero (data.take buffer_size)))
    else s
  s.log [.init (.memcpy .staging_buffer buffer_size), .init (.vkUnmapMemory .staging_buffer)]

/-- The end of `create_vertex_buffer` and `create_index_buffer`: destroy the
staging buffer and free its memory. -/
def destroy_staging_buffer (s : State) : State :=
  let s := s.log [.init (.vkDestroyBuffer .staging_buffer),
    .init (.vkFreeMemory .staging_buffer)]
  s.set_buffer .staging_buffer none

/-- Function `create_vertex_buffer`; `vertices` are the bytes of the array
`vertices`, so that `sizeof(vertices)` is their number. -/
def create_vertex_buffer (vertices : List Nat) (env : UploadEnv) (s : State) : Outcome :=
  let buffer_size := vertices.length
  (create_buffer env.memory_types env.staging buffer_size VK_BUFFER_USAGE_TRANSFER_SRC_BIT
    (VK_MEMORY_PROPERTY_HOST_VISIBLE_BIT ||| VK_MEMORY_PROPERTY_HOST_COHERENT_BIT)
    .staging_buffer s).bind fun s =>
  let s := fill_staging_buffer env.map_result vertices buffer_size s
  (create_buffer env.memory_types env.dest buffer_size
    (VK_BUFFER_USAGE_TRANSFER_DST_BIT ||| VK_BUFFER_USAGE_VERTEX_BUFFER_BIT)
    VK_MEMORY_PROPERTY_DEVICE_LOCAL_BIT .vertex_buffer s).bind fun s =>
  let s := copy_buffer env.copy .staging_buffer .vertex_buffer buffer_size s
  .returned (destroy_staging_buffer s)

/-- Function `create_index_buffer`; `indices` are the bytes of the array
`indices`. -/
def create_index_buffer (indices : List Nat) (env : UploadEnv) (s : State) : Outcome :=
  let buffer_size := indices.length
  (create_buffer env.memory_types env.staging buffer_size VK_BUFFER_USAGE_TRANSFER_SRC_BIT
    (VK_MEMORY_PROPERTY_HOST_VISIBLE_BIT ||| VK_MEMORY_PROPERTY_HOST_COHERENT_BIT)
    .staging_buffer s).bind fun s =>
  let s := fill_staging_buffer env.map_result indices buffer_size s
  (create_buffer env.memory_types env.dest buffer_size
    (VK_BUFFER_USAGE_TRANSFER_DST_BIT ||| VK_BUFFER_USAGE_INDEX_BUFFER_BIT)
    VK_MEMORY_PROPERTY_DEVICE_LOCAL_BIT .index_buffer s).bind fun s =>
  let s := copy_buffer env.copy .staging_buffer .index_buffer buffer_size s
  .returned (destroy_staging_buffer s)

/-- The body that `create_vertex_buffer` and `create_index_buffer` have in
common, for the data `data`, the destination buffer `dst` and its usage
`target_usage` besides transfer-destination. -/
def upload_buffer (data : List Nat) (target_usage : Nat) (dst : Buf) (env : UploadEnv)
    (s : State) : Outcome :=
  let buffer_size := data.length
  (create_buffer env.memory_types env.staging buffer_size VK_BUFFER_USAGE_TRANSFER_SRC_BIT
    (VK_MEMORY_PROPERTY_HOST_VISIBLE_BIT ||| VK_MEMORY_PROPERTY_HOST_COHERENT_BIT)
    .staging_buffer s).bind fun s =>
  let s := fill_staging_buffer env.map_result data buffer_size s
  (create_buffer env.memory_types env.dest buffer_size
    (VK_BUFFER_USAGE_TRANSFER_DST_BIT ||| target_usage)
    VK_MEMORY_PROPERTY_DEVICE_LOCAL_BIT dst s).bind fun s =>
  let s := copy_buffer env.copy .staging_buffer dst buffer_size s
  .returned (destroy_staging_buffer s)

/-- The calls of an upload that returns, in order: the staging buffer of
`size` bytes with its memory of type `i`, the filling of it, the destination
buffer `dst` of `size` bytes with usage transfer-destination and
`target_usage` and its memory of type `j`, the copy of `size` bytes from
offset 0 to offset 0 with the wait for the queue, and the destruction of the
staging buffer and its memory. -/
def upload_calls (dst : Buf) (target_usage size : Nat) (staging_mem_size i : Nat)
    (dest_mem_size j : Nat) : List Call :=
  [.init (.vkCreateBuffer .staging_buffer size VK_BUFFER_USAGE_TRANSFER_SRC_BIT),
   .init (.vkGetBufferMemoryRequirements .staging_buffer),
   .init .vkGetPhysicalDeviceMemoryProperties,
   .init (.vkAllocateMemory .staging_buffer staging_mem_size i),
   .init (.vkBindBufferMemory .staging_buffer),
   .init (.vkMapMemory .staging_buffer size),
   .init (.memcpy .staging_buffer size),
   .init (.vkUnmapMemory .staging_buffer),
   .init (.vkCreateBuffer dst size (VK_BUFFER_USAGE_TRANSFER_DST_BIT ||| target_usage)),
   .init (.vkGetBufferMemoryRequirements dst),
   .init .vkGetPhysicalDeviceMemoryProperties,
   .init (.vkAllocateMemory dst dest_mem_size j),
   .init (.vkBindBufferMemory dst),
   .init .copy_vkAllocateCommandBuffers,
   .init .copy_vkBeginCommandBuffer,
   .init (.vkCmdCopyBuffer .staging_buffer dst 0 0 size),
   .init .copy_vkEndCommandBuffer,
   .init .copy_vkQueueSubmit,
   .init .vkQueueWaitIdle,
   .init .vkFreeCommandBuffers,
   .init (.vkDestroyBuffer .staging_buffer),
   .init (.vkFreeMemory .staging_buffer)]

/-! ## Start-up -/

/-- Function `create_instance`, built without `DEBUG`. -/
def create_instance (result : Int) (s : State) : Outcome :=
  let s := s.log [.init .vkCreateInstance]
  if result ≠ VK_SUCCESS then .exited 1 (s.log [.fprintf .error_create_instance])
  else .returned s

/-- Function `create_surface`. -/
def create_surface (result : Int) (s : State) : Outcome :=
  let s := s.log [.init .glfwCreateWindowSurface]
  if result ≠ VK_SUCCESS then .exited 1 (s.log [.fprintf .error_create_surface])
  else .returned s

/-- Function `select_physical_device`; it takes `devices[0]` and does not look
at the queue families of the device. -/
def select_physical_device (device_count : Nat) (s : State) : Outcome :=
  let s := s.log [.init .vkEnumeratePhysicalDevices]
  if device_count = 0 then .exited 1 (s.log [.fprintf .error_no_gpu])
  else .returned (s.log [.init .vkEnumeratePhysicalDevices])

/-- Function `create_logical_device`; `result` is what `vkCreateDevice`
returns. A failure of `vkCreateDevice` is reported and the function goes on. -/
def create_logical_device (result : Int) (s : State) : Outcome :=
  if s.queue_indices.graphics_index < 0 then
    .exited 1 (s.log [.fprintf .error_no_graphics_queue])
  else if s.queue_indices.presentation_index < 0 then
    .exited 1 (s.log [.fprintf .error_no_presentation_queue])
  else
    let s := s.log [.init (.vkCreateDevice (to_u32 s.queue_indices.graphics_index)
      (to_u32 s.queue_indices.presentation_index))]
    let s := if result ≠ VK_SUCCESS then s.log [.fprintf .error_create_device] else s
    .returned (s.log [.init (.vkGetDeviceQueue (to_u32 s.queue_indices.graphics_index)),
      .init (.vkGetDeviceQueue (to_u32 s.queue_indices.presentation_index))])

/-- Function `create_render_pass`. -/
def create_render_pass (result : Int) (s : State) : Outcome :=
  let s := s.log [.init .vkCreateRenderPass]
  if result ≠ VK_SUCCESS then .exited 1 (s.log [.fprintf .error_create_render_pass])
  else .returned s

/-- The results of the four creation calls of `create_graphics_pipeline`. -/
structure PipelineEnv where
  vert_module_result : Int
  frag_module_result : Int
  layout_result : Int
  pipeline_result : Int
  deriving DecidableEq, Repr

/-- Function `create_graphics_pipeline`, from the first `vkCreateShaderModule`
on (the two shader files are read before that). -/
def create_graphics_pipeline (env : PipelineEnv) (s : State) : Outcome :=
  let s := s.log [.init (.vkCreateShaderModule false)]
  if env.vert_module_result ≠ VK_SUCCESS then
    .exited 1 (s.log [.fprintf .error_create_vertex_shader_module]) else
  let s := s.log [.init (.vkCreateShaderModule true)]
  if env.frag_module_result ≠ VK_SUCCESS then
    .exited 1 (s.log [.fprintf .error_create_fragment_shader_module]) else
  let s := s.log [.init .vkCreatePipelineLayout]
  if env.layout_result ≠ VK_SUCCESS then
    .exited 1 (s.log [.fprintf .error_create_pipeline_layout]) else
  let s := s.log [.init .vkCreateGraphicsPipelines]
  if env.pipeline_result ≠ VK_SUCCESS then
    .exited 1 (s.log [.fprintf .error_create_pipeline]) else
  .returned (s.log [.init (.vkDestroyShaderModule true), .init (.vkDestroyShaderModule false)])

/-- Function `create_command_pool`. -/
def create_command_pool (result : Int) (s : State) : Outcome :=
  let s := s.log [.init (.vkCreateCommandPool (to_u32 s.queue_indices.graphics_index))]
  if result ≠ VK_SUCCESS then .exited 1 (s.log [.fprintf .error_create_command_pool])
  else .returned s

/-- Function `create_command_buffers`. -/
def create_command_buffers (result : Int) (s : State) : Outcome :=
  let s := s.log [.init (.vkAllocateCommandBuffers MAX_FRAMES_IN_FLIGHT)]
  if result ≠ VK_SUCCESS then .exited 1 (s.log [.fprintf .error_allocate_command_buffers])
  else .returned s

/-- The results of the creation calls of `create_sync_prims` for each frame
slot. -/
structure SyncEnv where
  img_available_results : Nat → Int
  render_finished_results : Nat → Int
  fence_results : Nat → Int

/-- The `for` loop of `create_sync_prims`: `n` iterations from slot `i` on.
The three creations are the operands of `||`, so a failure skips the later
ones; a fence is created signaled. -/
def create_sync_prims_loop (env : SyncEnv) : Nat → Nat → State → Outcome
  | 0, _, s => .returned s
  | n + 1, i, s =>
    let s := s.log [.init (.vkCreateSemaphore false i)]
    if env.img_available_results i ≠ VK_SUCCESS then
      .exited 1 (s.log [.fprintf .error_create_sync_prims]) else
    let s := s.log [.init (.vkCreateSemaphore true i)]
    if env.render_finished_results i ≠ VK_SUCCESS then
      .exited 1 (s.log [.fprintf .error_create_sync_prims]) else
    let s := s.log [.init (.vkCreateFence i)]
    if env.fence_results i ≠ VK_SUCCESS then
      .exited 1 (s.log [.fprintf .error_create_sync_prims]) else
    create_sync_prims_loop env n (i + 1) (s.set_fence i .signaled)

/-- Function `create_sync_prims`. -/
def create_sync_prims (env : SyncEnv) (s : State) : Outcome :=
  create_sync_prims_loop env MAX_FRAMES_IN_FLIGHT 0 s

/-- What the environment answers during `init_vulkan`. `queue_families` are
the queue families of the device that `select_physical_device` takes;
`vertices` and `indices` are the bytes of the two arrays of that name. -/
structure InitEnv where
  queue_families : List QueueFamily
  instance_result : Int
  surface_result : Int
  device_count : Nat
  device_result : Int
  swap : SwapEnv
  img_view_results : Nat → Int
  render_pass_result : Int
  pipeline : PipelineEnv
  framebuffer_results : Nat → Int
  command_pool_result : Int
  vertices : List Nat
  vertex_upload : UploadEnv
  indices : List Nat
  index_upload : UploadEnv
  command_buffers_result : Int
  sync : SyncEnv

/-- Function `init_vulkan`. No function it calls is `find_queue_indices`, so
nothing reads `env.queue_families`. -/
def init_vulkan (env : InitEnv) (s : State) : Outcome :=
  (create_instance env.instance_result s).bind fun s =>
  (create_surface env.surface_result s).bind fun s =>
  (select_physical_device env.device_count s).bind fun s =>
  (create_logical_device env.device_result s).bind fun s =>
  (create_swap_chain env.swap s).bind fun s =>
  (create_img_views env.img_view_results s).bind fun s =>
  (create_render_pass env.render_pass_result s).bind fun s =>
  (create_graphics_pipeline env.pipeline s).bind fun s =>
  (create_framebuffers env.framebuffer_results s).bind fun s =>
  (create_command_pool env.command_pool_result s).bind fun s =>
  (create_vertex_buffer env.vertices env.vertex_upload s).bind fun s =>
  (create_index_buffer env.indices env.index_upload s).bind fun s =>
  (create_command_buffers env.command_buffers_result s).bind fun s =>
  create_sync_prims env.sync s

/-- The globals when `main` starts: objects with static storage are zero, so
`queue_indices` is `{0, 0}`; `framebuffer_resized` is `false`; no fence exists
yet. -/
def program_start : State :=
  { queue_indices := { graphics_index := 0, presentation_index := 0 },
    format := { format := 0, colorSpace := 0 },
    present_mode := 0,
    swap_chain_img_count := 0,
    swap_chain_imgs := List.replicate MAX_SWAP_CHAIN_IMGS 0,
    swap_chain_img_format := 0,
    swap_chain_extent := { width := 0, height := 0 },
    framebuffer_resized := false,
    current_frame := 0,
    in_flight_fences := fun _ => .dead,
    trace := [] }

/-- Function `main` for a run in which the window is closed after the
iterations `frames` of `main_loop`: `init_vulkan`, the frame loop, and then
`cleanup` and `return 0`, which end the model in `returned`. -/
def main (fuel : Nat) (env : InitEnv) (frames : List FrameEnv) : Outcome :=
  (init_vulkan env program_start).bind (main_loop_iterations fuel frames)

/-- The exit code of the process, when it ends: 0 when `main` returns, the
argument of `exit` otherwise. -/
def Outcome.exit_code : Outcome → Option Nat
  | .returned _ => some 0
  | .exited code _ => some code
  | _ => none

/-! ## Vocabulary of the statements -/

/-- How an outcome ended, without the state. -/
inductive Ending where
  | returned
  | exited (code : Nat)
  | aborted
  | stalled
  | hung
  deriving DecidableEq, Repr

def Outcome.ending : Outcome → Ending
  | .returned _ => .returned
  | .exited code _ => .exited code
  | .aborted _ => .aborted
  | .stalled _ => .stalled
  | .hung _ => .hung

/-- The calls of the rebuild protocol: the device-idle wait and the calls that
destroy or create a swapchain, an image view or a framebuffer. -/
def Call.is_lifecycle : Call → Bool
  | .vkDeviceWaitIdle => true
  | .vkDestroyFramebuffer _ => true
  | .vkDestroyImageView _ => true
  | .vkDestroySwapchainKHR => true
  | .vkCreateSwapchainKHR _ => true
  | .vkCreateImageView _ => true
  | .vkCreateFramebuffer _ => true
  | _ => false

/-- The calls `draw_frame` makes between the acquire and the end of the
iteration: the fence reset, the reset and the recording of the command buffer,
the queue submission and the present. -/
def Call.is_frame_work : Call → Bool
  | .vkResetFences _ => true
  | .vkResetCommandBuffer _ => true
  | .vkBeginCommandBuffer _ => true
  | .vkCmdBeginRenderPass _ _ _ => true
  | .vkCmdBindPipeline _ => true
  | .vkCmdSetViewport _ _ => true
  | .vkCmdSetScissor _ _ => true
  | .vkCmdBindVertexBuffers _ => true
  | .vkCmdBindIndexBuffer _ => true
  | .vkCmdDrawIndexed _ _ => true
  | .vkCmdEndRenderPass _ => true
  | .vkEndCommandBuffer _ => true
  | .vkQueueSubmit _ _ _ _ _ => true
  | .vkQueuePresentKHR _ _ => true
  | _ => false

/-- The calls a swapchain build or teardown is made of: window and surface
queries, the calls of the rebuild protocol, the image query and error lines. -/
def Call.is_build_call : Call → Bool
  | .glfwGetFramebufferSize _ _ => true
  | .glfwWaitEvents => true
  | .vkGetPhysicalDeviceSurfaceCapabilitiesKHR => true
  | .vkGetPhysicalDeviceSurfaceFormatsKHR => true
  | .vkGetPhysicalDeviceSurfacePresentModesKHR => true
  | .vkGetSwapchainImagesKHR _ _ => true
  | .fprintf _ => true
  | c => c.is_lifecycle

/-- The frame slots whose objects a call is given: the indices at which it
reads `in_flight_fences`, `img_available_semaphores`,
`render_finished_semaphores` or `command_buffers`. -/
def Call.slot_indices : Call → List Nat
  | .vkWaitForFences f => [f]
  | .vkAcquireNextImageKHR sem => [sem]
  | .vkResetFences f => [f]
  | .vkResetCommandBuffer cb => [cb]
  | .vkBeginCommandBuffer cb => [cb]
  | .vkCmdBeginRenderPass cb _ _ => [cb]
  | .vkCmdBindPipeline cb => [cb]
  | .vkCmdSetViewport cb _ => [cb]
  | .vkCmdSetScissor cb _ => [cb]
  | .vkCmdBindVertexBuffers cb => [cb]
  | .vkCmdBindIndexBuffer cb => [cb]
  | .vkCmdDrawIndexed cb _ => [cb]
  | .vkCmdEndRenderPass cb => [cb]
  | .vkEndCommandBuffer cb => [cb]
  | .vkQueueSubmit w _ cb sig f => [w, cb, sig, f]
  | .vkQueuePresentKHR w _ => [w]
  | .init (.vkCreateSemaphore _ i) => [i]
  | .init (.vkCreateFence i) => [i]
  | _ => []

/-- The lines written to the diagnostic stream. -/
def Call.is_diagnostic : Call → Bool
  | .fprintf _ => true
  | _ => false

/-- Every call of an upload whose result the program does not read succeeds:
the two calls of `vkBindBufferMemory`, `vkMapMemory`, and the five calls of
`copy_buffer` that return a result. -/
def UploadEnv.unread_results_succeed (env : UploadEnv) : Prop :=
  env.staging.bind_result = VK_SUCCESS ∧ env.map_result = VK_SUCCESS ∧
  env.dest.bind_result = VK_SUCCESS ∧ env.copy.alloc_result = VK_SUCCESS ∧
  env.copy.begin_result = VK_SUCCESS ∧ env.copy.end_result = VK_SUCCESS ∧
  env.copy.submit_result = VK_SUCCESS ∧ env.copy.wait_idle_result = VK_SUCCESS

/-- State `s` with `framebuffer_resized` set to `b`. -/
def State.set_framebuffer_resized (s : State) (b : Bool) : State :=
  { s with framebuffer_resized := b }

/-- The resize callback runs during the `while` loop of a call of
`recreate_swap_chain`: for some `q` from 1 on, within the fuel, the size
queries 0 to `q - 1` all reported an empty size, so that the loop made its
`q`-th size query and the call of `glfwWaitEvents` after it, and that call
ran the callback. -/
def RebuildEnv.resized_while_waiting (env : RebuildEnv) (fuel : Nat) : Prop :=
  ∃ q, 1 ≤ q ∧ q ≤ fuel ∧
    (∀ j, j < q → (env.sizes j).1 = 0 ∨ (env.sizes j).2 = 0) ∧ env.resized q = true

/-- The order of the rebuild protocol: wait for the device to be idle, destroy
every framebuffer, destroy every image view, destroy the swapchain, create the
swapchain, create the image views, create the framebuffers; `old_count` images
before the rebuild and `new_count` after it. -/
def rebuild_protocol (old_count : Nat) (create_info : VkSwapchainCreateInfoKHR)
    (new_count : Nat) : List Call :=
  [.vkDeviceWaitIdle] ++
  (List.range old_count).map .vkDestroyFramebuffer ++
  (List.range old_count).map .vkDestroyImageView ++
  [.vkDestroySwapchainKHR] ++
  [.vkCreateSwapchainKHR create_info] ++
  (List.range new_count).map .vkCreateImageView ++
  (List.range new_count).map .vkCreateFramebuffer

/-- State `s'` is `s` with `calls` appended to the trace and with the
variables of the frame loop (`framebuffer_resized`, `current_frame`, the
fences) and `queue_indices` as they were. -/
def State.steps_to (s : State) (calls : List Call) (s' : State) : Prop :=
  s'.trace = s.trace ++ calls ∧
  s'.framebuffer_resized = s.framebuffer_resized ∧
  s'.current_frame = s.current_frame ∧
  s'.in_flight_fences = s.in_flight_fences ∧
  s'.queue_indices = s.queue_indices

/-! ## Concrete inputs -/

/-- A surface with the fixed current extent 800x600, extents from 1x1 to
4096x4096 and 2 to 8 images. -/
def caps_fixed_800x600 : VkSurfaceCapabilitiesKHR :=
  { minImageCount := 2, maxImageCount := 8,
    currentExtent := { width := 800, height := 600 },
    minImageExtent := { width := 1, height := 1 },
    maxImageExtent := { width := 4096, height := 4096 },
    currentTransform := 1 }

/-- The same surface with the undefined current extent. -/
def caps_undefined_extent : VkSurfaceCapabilitiesKHR :=
  { caps_fixed_800x600 with
    currentExtent := { width := UINT32_MAX, height := UINT32_MAX } }

/-- A surface that reports exactly 2 images, as minimum and as maximum. -/
def caps_two_images : VkSurfaceCapabilitiesKHR :=
  { caps_fixed_800x600 with minImageCount := 2, maxImageCount := 2 }

/-- Answers of a surface with capabilities `caps`, one BGRA sRGB format and
FIFO only, a framebuffer of size `fb`, a swapchain creation that succeeds and
a swapchain of `n` images. -/
def swap_env (caps : VkSurfaceCapabilitiesKHR) (fb : Int × Int) (n : Nat) : SwapEnv :=
  { capabilities := caps,
    formats := [{ format := VK_FORMAT_B8G8R8A8_SRGB,
                  colorSpace := VK_COLOR_SPACE_SRGB_NONLINEAR_KHR }],
    present_modes := [VK_PRESENT_MODE_FIFO_KHR],
    fb := fb,
    create_result := VK_SUCCESS,
    images := (List.range n).map (· + 100) }

/-- A state after start-up with graphics family `g`, presentation family `p`
and a swapchain of 3 images of 800x600. -/
def started (g p : Int) : State :=
  initial_state { graphics_index := g, presentation_index := p } 3
    { width := 800, height := 600 }

/-- Answers to a rebuild of a window that is minimized for the first two
size queries and is 800x600 afterwards, with no resize callback during the
waits; every creation succeeds and the new swapchain has 3 images. -/
def minimized_then_restored : RebuildEnv :=
  { sizes := fun q => if q < 2 then (0, 0) else (800, 600),
    resized := fun _ => false,
    swap := swap_env caps_fixed_800x600 (800, 600) 3,
    img_view_results := fun _ => VK_SUCCESS,
    framebuffer_results := fun _ => VK_SUCCESS }

/-- Answers to a rebuild of a window that stays minimized. -/
def always_minimized : RebuildEnv :=
  { minimized_then_restored with sizes := fun _ => (0, 0) }

/-- Answers to a rebuild of a window that is minimized for the first two
size queries and is 800x600 afterwards, where the second call of
`glfwWaitEvents` runs the resize callback. -/
def restored_with_resize : RebuildEnv :=
  { minimized_then_restored with resized := fun q => decide (q = 2) }

/-- Answers to an iteration in which nothing fails: image `j` is acquired and
every call succeeds. -/
def frame_ok (j : Nat) : FrameEnv :=
  { resized := false,
    acquire_result := VK_SUCCESS,
    img_index := j,
    begin_result := VK_SUCCESS,
    end_result := VK_SUCCESS,
    submit_result := VK_SUCCESS,
    present_result := VK_SUCCESS,
    rebuild := minimized_then_restored }

/-- Answers to an iteration in which `vkQueueSubmit` fails with
`VK_ERROR_DEVICE_LOST` and every other call succeeds. -/
def frame_submit_fails (j : Nat) : FrameEnv :=
  { frame_ok j with submit_result := VK_ERROR_DEVICE_LOST }

/-- A device with two queue families, both with graphics capability and
presentation support. -/
def two_capable_families : List QueueFamily :=
  [{ queueFlags := 7, presentation_support := true },
   { queueFlags := 1, presentation_support := true }]

/-- A device with three queue families: graphics without presentation,
compute and transfer with presentation, transfer only. -/
def split_families : List QueueFamily :=
  [{ queueFlags := 7, presentation_support := false },
   { queueFlags := 6, presentation_support := true },
   { queueFlags := 4, presentation_support := false }]

/-- A device whose only queue family has neither graphics capability nor
presentation support. -/
def compute_only_families : List QueueFamily :=
  [{ queueFlags := 6, presentation_support := false }]

/-- Memory types of a device with one device-local type and one
host-visible, host-coherent type. -/
def two_memory_types : List Nat :=
  [VK_MEMORY_PROPERTY_DEVICE_LOCAL_BIT,
   VK_MEMORY_PROPERTY_HOST_VISIBLE_BIT ||| VK_MEMORY_PROPERTY_HOST_COHERENT_BIT]

/-- Answers to a `create_buffer` that succeeds, for a buffer that may live in
either memory type and needs `mem_size` bytes; the memory allocated holds the
byte 170 at every offset. -/
def buffer_ok (mem_size : Nat) : BufferEnv :=
  { create_result := VK_SUCCESS, mem_size := mem_size, memoryTypeBits := 3,
    alloc_result := VK_SUCCESS, initial_bytes := fun _ => 170,
    bind_result := VK_SUCCESS }

/-- Results of a `copy_buffer` in which every call succeeds. -/
def copy_ok : CopyEnv :=
  { alloc_result := VK_SUCCESS, begin_result := VK_SUCCESS, end_result := VK_SUCCESS,
    submit_result := VK_SUCCESS, wait_idle_result := VK_SUCCESS }

/-- Answers to an upload in which every call succeeds. -/
def upload_ok (mem_size : Nat) : UploadEnv :=
  { memory_types := two_memory_types, staging := buffer_ok mem_size,
    map_result := VK_SUCCESS, dest := buffer_ok mem_size, copy := copy_ok }

/-- Answers to an upload in which the `vkQueueSubmit` of `copy_buffer` fails
with `VK_ERROR_DEVICE_LOST` and every other call succeeds. -/
def upload_submit_fails (mem_size : Nat) : UploadEnv :=
  { upload_ok mem_size with copy := { copy_ok with submit_result := VK_ERROR_DEVICE_LOST } }

/-- The 12 bytes of the array `indices` on a little-endian machine. -/
def indices_le : List Nat := [0, 0, 1, 0, 2, 0, 2, 0, 3, 0, 0, 0]

/-- The 80 bytes of the array `vertices` on a little-endian machine with
IEEE 754 single-precision `float`s. -/
def vertices_le : List Nat :=
  [0, 0, 0, 191, 0, 0, 0, 191, 0, 0, 128, 63, 0, 0, 0, 0, 0, 0, 0, 0,
   0, 0, 0, 63, 0, 0, 0, 191, 0, 0, 0, 0, 0, 0, 128, 63, 0, 0, 0, 0,
   0, 0, 0, 63, 0, 0, 0, 63, 0, 0, 0, 0, 0, 0, 0, 0, 0, 0, 128, 63,
   0, 0, 0, 191, 0, 0, 0, 63, 0, 0, 128, 63, 0, 0, 128, 63, 0, 0, 128, 63]

/-- Answers to a start-up in which every call succeeds, on a device with the
queue families `queue_families`, a surface of 800x600 and 3 swapchain
images. -/
def init_ok (queue_families : List QueueFamily) : InitEnv :=
  { queue_families := queue_families,
    instance_result := VK_SUCCESS,
    surface_result := VK_SUCCESS,
    device_count := 1,
    device_result := VK_SUCCESS,
    swap := swap_env caps_fixed_800x600 (800, 600) 3,
    img_view_results := fun _ => VK_SUCCESS,
    render_pass_result := VK_SUCCESS,
    pipeline := { vert_module_result := VK_SUCCESS, frag_module_result := VK_SUCCESS,
                  layout_result := VK_SUCCESS, pipeline_result := VK_SUCCESS },
    framebuffer_results := fun _ => VK_SUCCESS,
    command_pool_result := VK_SUCCESS,
    vertices := vertices_le,
    vertex_upload := upload_ok 80,
    indices := indices_le,
    index_upload := upload_ok 12,
    command_buffers_result := VK_SUCCESS,
    sync := { img_available_results := fun _ => VK_SUCCESS,
              render_finished_results := fun _ => VK_SUCCESS,
              fence_results := fun _ => VK_SUCCESS } }

def VK_ERROR_INITIALIZATION_FAILED : Int := -3

/-! ## Theorems -/

/-! ### Trace and state bookkeeping -/

@[simp] theorem State.log_trace (s : State) (c : List Call) :
    (s.log c).trace = s.trace ++ c := rfl

@[simp] theorem State.log_queue_indices (s : State) (c : List Call) :
    (s.log c).queue_indices = s.queue_indices := rfl

@[simp] theorem State.log_swap_chain_img_count (s : State) (c : List Call) :
    (s.log c).swap_chain_img_count = s.swap_chain_img_count := rfl

@[simp] theorem State.log_swap_chain_imgs (s : State) (c : List Call) :
    (s.log c).swap_chain_imgs = s.swap_chain_imgs := rfl

@[simp] theorem State.log_swap_chain_extent (s : State) (c : List Call) :
    (s.log c).swap_chain_extent = s.swap_chain_extent := rfl

@[simp] theorem State.log_framebuffer_resized (s : State) (c : List Call) :
    (s.log c).framebuffer_resized = s.framebuffer_resized := rfl

@[simp] theorem State.log_current_frame (s : State) (c : List Call) :
    (s.log c).current_frame = s.current_frame := rfl

@[simp] theorem State.log_in_flight_fences (s : State) (c : List Call) :
    (s.log c).in_flight_fences = s.in_flight_fences := rfl

theorem State.log_log (s : State) (a b : List Call) : (s.log a).log b = s.log (a ++ b) := by
  simp [State.log, List.append_assoc]

theorem State.log_nil (s : State) : s.log [] = s := by
  simp [State.log]

theorem added_calls_of_append (s : State) (o : Outcome) (added : List Call)
    (h : o.state.trace = s.trace ++ added) : added_calls s o = added := by
  simp [added_calls, h]


/-! ### Extent selection -/

/-- Function `clamp_u32` case by case: below the range it gives `min`, above
it `max`, inside it the value; for a range with `min ≤ max` the result lies
in the range. -/
theorem clamp_u32_cases (value min max : Nat) :
    clamp_u32 value min max =
      (if value < min then min else if max < value then max else value) ∧
    (value < min → clamp_u32 value min max = min) ∧
    (min ≤ value → max < value → clamp_u32 value min max = max) ∧
    (min ≤ value → value ≤ max → clamp_u32 value min max = value) ∧
    (min ≤ max → min ≤ clamp_u32 value min max ∧ clamp_u32 value min max ≤ max) := by
  unfold clamp_u32
  refine ⟨rfl, ?_, ?_, ?_, ?_⟩
  · intro h
    rw [if_pos h]
  · intro h0 h1
    rw [if_neg (by omega), if_pos h1]
  · intro h0 h1
    rw [if_neg (by omega), if_neg (by omega)]
  · intro h
    split_ifs <;> omega

theorem to_u32_of_le (x : Int) (h0 : 0 ≤ x) (h1 : x ≤ UINT32_MAX) : (to_u32 x : Int) = x := by
  unfold to_u32
  unfold UINT32_MAX at h1
  omega

/-- C1: `choose_swap_extent` returns the surface's current extent, both
fields unchanged, when that extent is not the undefined sentinel (the code
recognises the sentinel by `currentExtent.width = UINT32_MAX`); otherwise it
returns the framebuffer size converted to `uint32_t` and clamped by
`clamp_u32`, the width against the width bounds and the height against the
height bounds: a value below the minimum gives the minimum, a value above the
maximum gives the maximum, a value in between is kept, so each field lies
within its own bounds whenever they are ordered, and a framebuffer size
within the bounds is returned as it is. -/
theorem choose_swap_extent_spec (capabilities : VkSurfaceCapabilitiesKHR) (w h : Int) :
    (capabilities.currentExtent.width ≠ UINT32_MAX →
        choose_swap_extent capabilities (w, h) = capabilities.currentExtent ∧
        (choose_swap_extent capabilities (w, h)).width = capabilities.currentExtent.width ∧
        (choose_swap_extent capabilities (w, h)).height = capabilities.currentExtent.height) ∧
    (capabilities.currentExtent.width = UINT32_MAX →
        choose_swap_extent capabilities (w, h) =
          { width := clamp_u32 (to_u32 w) capabilities.minImageExtent.width
              capabilities.maxImageExtent.width,
            height := clamp_u32 (to_u32 h) capabilities.minImageExtent.height
              capabilities.maxImageExtent.height } ∧
        (choose_swap_extent capabilities (w, h)).width =
          (if to_u32 w < capabilities.minImageExtent.width then
            capabilities.minImageExtent.width
          else if capabilities.maxImageExtent.width < to_u32 w then
            capabilities.maxImageExtent.width
          else to_u32 w) ∧
        (choose_swap_extent capabilities (w, h)).height =
          (if to_u32 h < capabilities.minImageExtent.height then
            capabilities.minImageExtent.height
          else if capabilities.maxImageExtent.height < to_u32 h then
            capabilities.maxImageExtent.height
          else to_u32 h) ∧
        (capabilities.minImageExtent.width ≤ capabilities.maxImageExtent.width →
          capabilities.minImageExtent.width ≤ (choose_swap_extent capabilities (w, h)).width ∧
          (choose_swap_extent capabilities (w, h)).width ≤
            capabilities.maxImageExtent.width) ∧
        (capabilities.minImageExtent.height ≤ capabilities.maxImageExtent.height →
          capabilities.minImageExtent.height ≤
            (choose_swap_extent capabilities (w, h)).height ∧
          (choose_swap_extent capabilities (w, h)).height ≤
            capabilities.maxImageExtent.height) ∧
        ((capabilities.minImageExtent.width : Int) ≤ w →
          w ≤ capabilities.maxImageExtent.width →
          capabilities.maxImageExtent.width ≤ UINT32_MAX →
          ((choose_swap_extent capabilities (w, h)).width : Int) = w) ∧
        ((capabilities.minImageExtent.height : Int) ≤ h →
          h ≤ capabilities.maxImageExtent.height →
          capabilities.maxImageExtent.height ≤ UINT32_MAX →
          ((choose_swap_extent capabilities (w, h)).height : Int) = h)) := by
  constructor
  · intro hdef
    simp [choose_swap_extent, hdef]
  · intro hundef
    have heq : choose_swap_extent capabilities (w, h) =
        { width := clamp_u32 (to_u32 w) capabilities.minImageExtent.width
            capabilities.maxImageExtent.width,
          height := clamp_u32 (to_u32 h) capabilities.minImageExtent.height
            capabilities.maxImageExtent.height } := by
      simp [choose_swap_extent, hundef]
    obtain ⟨hw1, _, _, hw4, hw5⟩ := clamp_u32_cases (to_u32 w)
      capabilities.minImageExtent.width capabilities.maxImageExtent.width
    obtain ⟨hh1, _, _, hh4, hh5⟩ := clamp_u32_cases (to_u32 h)
      capabilities.minImageExtent.height capabilities.maxImageExtent.height
    rw [heq]
    refine ⟨rfl, hw1, hh1, hw5, hh5, ?_, ?_⟩
    · intro h0 h1 h2
      have hu : (to_u32 w : Int) = w := to_u32_of_le w (by omega) (by omega)
      show ((clamp_u32 (to_u32 w) capabilities.minImageExtent.width
        capabilities.maxImageExtent.width : Nat) : Int) = w
      rw [hw4 (by omega) (by omega)]
      exact hu
    · intro h0 h1 h2
      have hu : (to_u32 h : Int) = h := to_u32_of_le h (by omega) (by omega)
      show ((clamp_u32 (to_u32 h) capabilities.minImageExtent.height
        capabilities.maxImageExtent.height : Nat) : Int) = h
      rw [hh4 (by omega) (by omega)]
      exact hu

theorem choose_swap_extent_defined (capabilities : VkSurfaceCapabilitiesKHR) (fb : Int × Int)
    (h : capabilities.currentExtent.width ≠ UINT32_MAX) :
    choose_swap_extent capabilities fb = capabilities.currentExtent := by
  simp [choose_swap_extent, h]

theorem choose_swap_extent_undefined (capabilities : VkSurfaceCapabilitiesKHR) (fb : Int × Int)
    (h : capabilities.currentExtent.width = UINT32_MAX) :
    choose_swap_extent capabilities fb =
      { width := clamp_u32 (to_u32 fb.1) capabilities.minImageExtent.width
          capabilities.maxImageExtent.width,
        height := clamp_u32 (to_u32 fb.2) capabilities.minImageExtent.height
          capabilities.maxImageExtent.height } := by
  simp [choose_swap_extent, h]

theorem clamp_u32_of_mem (value min max : Nat) (h0 : min ≤ value) (h1 : value ≤ max) :
    clamp_u32 value min max = value := by
  unfold clamp_u32
  rw [if_neg (by omega), if_neg (by omega)]

/-- C1 applied once on each branch: a surface with the current extent 800x600
and a 1920x1080 framebuffer, and a surface with the undefined extent and the
bounds 1 and 4096 on both axes with a framebuffer of 5000x0, whose width is
clamped down to 4096 and whose height is clamped up to 1. -/
theorem choose_swap_extent_spec_witness :
    choose_swap_extent caps_fixed_800x600 (1920, 1080) = { width := 800, height := 600 } ∧
    (choose_swap_extent caps_undefined_extent (5000, 0)).width = 4096 ∧
    (choose_swap_extent caps_undefined_extent (5000, 0)).height = 1 ∧
    ((choose_swap_extent caps_undefined_extent (1920, 1080)).width : Int) = 1920 :=
  ⟨((choose_swap_extent_spec caps_fixed_800x600 1920 1080).1 (by decide)).1,
   ((choose_swap_extent_spec caps_undefined_extent 5000 0).2 (by decide)).2.1,
   ((choose_swap_extent_spec caps_undefined_extent 5000 0).2 (by decide)).2.2.1,
   ((choose_swap_extent_spec caps_undefined_extent 1920 1080).2 (by decide)).2.2.2.2.2.1
     (by decide) (by decide) (by decide)⟩

/-! ### Format selection -/

theorem choose_swap_format_loop_some (formats : List VkSurfaceFormatKHR)
    (f : VkSurfaceFormatKHR) (hf : choose_swap_format_loop formats = some f) :
    is_bgra_srgb f ∧
      ∃ pre post, formats = pre ++ f :: post ∧ ∀ e ∈ pre, ¬ is_bgra_srgb e := by
  induction formats with
  | nil => simp [choose_swap_format_loop] at hf
  | cons g rest ih =>
    by_cases hg : is_bgra_srgb g
    · have hfg : g = f := by simpa [choose_swap_format_loop, hg] using hf
      subst hfg
      exact ⟨hg, [], rest, rfl, by simp⟩
    · have hrest : choose_swap_format_loop rest = some f := by
        simpa [choose_swap_format_loop, hg] using hf
      obtain ⟨hpref, pre, post, hsplit, hpre⟩ := ih hrest
      refine ⟨hpref, g :: pre, post, by simp [hsplit], ?_⟩
      intro e he
      rcases List.mem_cons.mp he with rfl | he
      · exact hg
      · exact hpre e he

theorem choose_swap_format_loop_none (formats : List VkSurfaceFormatKHR) :
    choose_swap_format_loop formats = none ↔ ∀ e ∈ formats, ¬ is_bgra_srgb e := by
  induction formats with
  | nil => simp [choose_swap_format_loop]
  | cons g rest ih =>
    by_cases hg : is_bgra_srgb g
    · simp [choose_swap_format_loop, hg]
    · simp [choose_swap_format_loop, hg, ih]

/-- C3: for a non-empty list of supported formats `choose_swap_format`
returns a member of the list; when some entry is B8G8R8A8_SRGB with the
SRGB_NONLINEAR colour space the result is such an entry and no entry before it
in the list is one (it is the first); when no entry is, the result is the
first entry of the list. The result is a function of the list alone. -/
theorem choose_swap_format_spec (formats : List VkSurfaceFormatKHR) (hne : formats ≠ []) :
    ∃ f, choose_swap_format formats = some f ∧ f ∈ formats ∧
      ((∃ e ∈ formats, is_bgra_srgb e) →
        is_bgra_srgb f ∧
          ∃ pre post, formats = pre ++ f :: post ∧ ∀ e ∈ pre, ¬ is_bgra_srgb e) ∧
      ((∀ e ∈ formats, ¬ is_bgra_srgb e) → formats.head? = some f) ∧
      (∀ formats', formats' = formats → choose_swap_format formats' = some f) := by
  cases hloop : choose_swap_format_loop formats with
  | some f =>
    obtain ⟨hpref, pre, post, hsplit, hpre⟩ := choose_swap_format_loop_some formats f hloop
    refine ⟨f, by simp [choose_swap_format, hloop], ?_, ?_, ?_, ?_⟩
    · rw [hsplit]; simp
    · intro _
      exact ⟨hpref, pre, post, hsplit, hpre⟩
    · intro hnone
      have hmem : f ∈ formats := by rw [hsplit]; simp
      exact absurd hpref (hnone f hmem)
    · intro formats' h
      subst h
      simp [choose_swap_format, hloop]
  | none =>
    have hnone := (choose_swap_format_loop_none formats).mp hloop
    cases formats with
    | nil => exact absurd rfl hne
    | cons g rest =>
      refine ⟨g, by simp [choose_swap_format, hloop], by simp, ?_, ?_, ?_⟩
      · rintro ⟨e, he, hpref⟩
        exact absurd hpref (hnone e he)
      · intro _
        rfl
      · intro formats' h
        subst h
        simp [choose_swap_format, hloop]

theorem choose_swap_format_spec_witness :
    ∃ f, choose_swap_format
        [{ format := 44, colorSpace := 0 }, { format := 50, colorSpace := 0 },
         { format := 50, colorSpace := 0 }] = some f ∧
      f ∈ ([{ format := 44, colorSpace := 0 }, { format := 50, colorSpace := 0 },
         { format := 50, colorSpace := 0 }] : List VkSurfaceFormatKHR) ∧
      is_bgra_srgb f := by
  obtain ⟨f, hf, hmem, hfirst, _, _⟩ := choose_swap_format_spec
    [{ format := 44, colorSpace := 0 }, { format := 50, colorSpace := 0 },
     { format := 50, colorSpace := 0 }] (by simp)
  exact ⟨f, hf, hmem, (hfirst ⟨{ format := 50, colorSpace := 0 }, by simp, by decide⟩).1⟩

/-! ### Swapchain build -/

theorem choose_swap_format_some (formats : List VkSurfaceFormatKHR) (hne : formats ≠ []) :
    ∃ f, choose_swap_format formats = some f := by
  cases hloop : choose_swap_format_loop formats with
  | some f => exact ⟨f, by simp [choose_swap_format, hloop]⟩
  | none =>
    cases formats with
    | nil => exact absurd rfl hne
    | cons g rest => exact ⟨g, by simp [choose_swap_format, hloop]⟩

/-- Every way `create_swap_chain` can end, with the state it ends in. -/
theorem create_swap_chain_cases (env : SwapEnv) (s : State) :
    (env.formats = [] ∧
      create_swap_chain env s = .aborted (s.log [.vkGetPhysicalDeviceSurfaceCapabilitiesKHR,
        .vkGetPhysicalDeviceSurfaceFormatsKHR])) ∨
    (env.formats ≠ [] ∧ env.present_modes = [] ∧
      create_swap_chain env s = .aborted (s.log [.vkGetPhysicalDeviceSurfaceCapabilitiesKHR,
        .vkGetPhysicalDeviceSurfaceFormatsKHR, .vkGetPhysicalDeviceSurfaceFormatsKHR,
        .vkGetPhysicalDeviceSurfacePresentModesKHR])) ∨
    (env.formats ≠ [] ∧ env.present_modes ≠ [] ∧
      ∃ (f : VkSurfaceFormatKHR) (s' : State), choose_swap_format env.formats = some f ∧
        s'.trace = s.trace ++ ([.vkGetPhysicalDeviceSurfaceCapabilitiesKHR,
          .vkGetPhysicalDeviceSurfaceFormatsKHR, .vkGetPhysicalDeviceSurfaceFormatsKHR,
          .vkGetPhysicalDeviceSurfacePresentModesKHR,
          .vkGetPhysicalDeviceSurfacePresentModesKHR] ++
          (if env.capabilities.currentExtent.width ≠ UINT32_MAX then []
            else [.glfwGetFramebufferSize env.fb.1 env.fb.2]) ++
          [.vkCreateSwapchainKHR (swap_chain_create_info s.queue_indices env.capabilities f
            (choose_swap_present_mode env.present_modes)
            (choose_swap_extent env.capabilities env.fb))]) ∧
        s'.queue_indices = s.queue_indices ∧
        s'.framebuffer_resized = s.framebuffer_resized ∧
        s'.current_frame = s.current_frame ∧
        s'.in_flight_fences = s.in_flight_fences ∧
        s'.swap_chain_imgs = s.swap_chain_imgs ∧
        s'.swap_chain_img_count = s.swap_chain_img_count ∧
        s'.swap_chain_extent = s.swap_chain_extent ∧
        ((env.create_result ≠ VK_SUCCESS ∧
            create_swap_chain env s = .exited 1 (s'.log [.fprintf .error_create_swap_chain])) ∨
         (env.create_result = VK_SUCCESS ∧ ¬ env.images.length < MAX_SWAP_CHAIN_IMGS ∧
            create_swap_chain env s =
              .aborted (s'.log [.vkGetSwapchainImagesKHR env.images.length false])) ∨
         (env.create_result = VK_SUCCESS ∧ env.images.length < MAX_SWAP_CHAIN_IMGS ∧
            create_swap_chain env s =
              .returned { s'.log [.vkGetSwapchainImagesKHR env.images.length false,
                  .vkGetSwapchainImagesKHR env.images.length true] with
                swap_chain_imgs := store_from_zero env.images s.swap_chain_imgs,
                swap_chain_img_format := f.format,
                swap_chain_extent := choose_swap_extent env.capabilities env.fb,
                swap_chain_img_count := env.images.length }))) := by
  by_cases hf : env.formats = []
  · left
    exact ⟨hf, by simp [create_swap_chain, hf]⟩
  · right
    have hf' : 0 < env.formats.length := List.length_pos.mpr hf
    by_cases hm : env.present_modes = []
    · left
      exact ⟨hf, hm, by simp [create_swap_chain, hf', hm, State.log_log]⟩
    · right
      have hm' : 0 < env.present_modes.length := List.length_pos.mpr hm
      obtain ⟨f, hfmt⟩ := choose_swap_format_some env.formats hf
      refine ⟨hf, hm, f,
        { (((s.log [.vkGetPhysicalDeviceSurfaceCapabilitiesKHR,
            .vkGetPhysicalDeviceSurfaceFormatsKHR]).log
            [.vkGetPhysicalDeviceSurfaceFormatsKHR,
             .vkGetPhysicalDeviceSurfacePresentModesKHR]).log
            [.vkGetPhysicalDeviceSurfacePresentModesKHR]).log
            ((if env.capabilities.currentExtent.width ≠ UINT32_MAX then []
              else [.glfwGetFramebufferSize env.fb.1 env.fb.2]) ++
            [.vkCreateSwapchainKHR (swap_chain_create_info s.queue_indices env.capabilities f
              (choose_swap_present_mode env.present_modes)
              (choose_swap_extent env.capabilities env.fb))]) with
          format := f, present_mode := choose_swap_present_mode env.present_modes },
        hfmt, by simp, rfl, rfl, rfl, rfl, rfl, rfl, rfl, ?_⟩
      by_cases hr : env.create_result = VK_SUCCESS
      · right
        by_cases hn : env.images.length < MAX_SWAP_CHAIN_IMGS
        · right
          refine ⟨hr, hn, ?_⟩
          simp only [create_swap_chain, hfmt]
          simp [hf', hm', hr, hn, State.log]
        · left
          refine ⟨hr, hn, ?_⟩
          simp only [create_swap_chain, hfmt]
          simp [hf', hm', hr, hn, State.log]
      · left
        refine ⟨hr, ?_⟩
        simp only [create_swap_chain, hfmt]
        simp [hf', hm', hr, State.log]

theorem create_swap_chain_returned (env : SwapEnv) (s s' : State)
    (h : create_swap_chain env s = .returned s') :
    s'.swap_chain_extent = choose_swap_extent env.capabilities env.fb ∧
    s'.swap_chain_img_count = env.images.length ∧
    s'.swap_chain_imgs = store_from_zero env.images s.swap_chain_imgs ∧
    env.images.length < MAX_SWAP_CHAIN_IMGS := by
  rcases create_swap_chain_cases env s with
    ⟨_, h1⟩ | ⟨_, _, h1⟩ |
    ⟨_, _, f, s1, _, _, _, _, _, _, _, _, _, hend⟩
  · rw [h1] at h; cases h
  · rw [h1] at h; cases h
  · rcases hend with ⟨_, h1⟩ | ⟨_, _, h1⟩ | ⟨_, hn, h1⟩
    · rw [h1] at h; cases h
    · rw [h1] at h; cases h
    · rw [h1] at h
      cases h
      exact ⟨rfl, rfl, rfl, hn⟩

theorem create_swap_chain_ending_returned (env : SwapEnv) (s : State)
    (hf : env.formats ≠ []) (hm : env.present_modes ≠ [])
    (hr : env.create_result = VK_SUCCESS) (hn : env.images.length < MAX_SWAP_CHAIN_IMGS) :
    ∃ s', create_swap_chain env s = .returned s' := by
  rcases create_swap_chain_cases env s with
    ⟨hf', _⟩ | ⟨_, hm', _⟩ | ⟨_, _, f, s1, _, _, _, _, _, _, _, _, _, hend⟩
  · exact absurd hf' hf
  · exact absurd hm' hm
  · rcases hend with ⟨hr', _⟩ | ⟨_, hn', _⟩ | ⟨_, _, h1⟩
    · exact absurd hr hr'
    · exact absurd hn hn'
    · exact ⟨_, h1⟩

/-- The `create_info` of every `vkCreateSwapchainKHR` call that
`create_swap_chain` makes, and that it makes one once the surface has
reported a format and a present mode. -/
theorem create_swap_chain_create_info (env : SwapEnv) (s : State) :
    (∀ info, Call.vkCreateSwapchainKHR info ∈ added_calls s (create_swap_chain env s) →
      ∃ f, choose_swap_format env.formats = some f ∧
        info = swap_chain_create_info s.queue_indices env.capabilities f
          (choose_swap_present_mode env.present_modes)
          (choose_swap_extent env.capabilities env.fb)) ∧
    (env.formats ≠ [] → env.present_modes ≠ [] →
      ∃ info, Call.vkCreateSwapchainKHR info ∈ added_calls s (create_swap_chain env s)) := by
  rcases create_swap_chain_cases env s with
    ⟨hf', h1⟩ | ⟨_, hm', h1⟩ |
    ⟨_, _, f, s1, hfmt, htr, _, _, _, _, _, _, _, hend⟩
  · have hadd := added_calls_of_append s (create_swap_chain env s) _ (by rw [h1]; rfl)
    rw [hadd]
    exact ⟨by simp, fun hf => absurd hf' hf⟩
  · have hadd := added_calls_of_append s (create_swap_chain env s) _ (by rw [h1]; rfl)
    rw [hadd]
    exact ⟨by simp, fun _ hm => absurd hm' hm⟩
  · have hadd : ∃ tail, added_calls s (create_swap_chain env s) =
        ([.vkGetPhysicalDeviceSurfaceCapabilitiesKHR,
          .vkGetPhysicalDeviceSurfaceFormatsKHR, .vkGetPhysicalDeviceSurfaceFormatsKHR,
          .vkGetPhysicalDeviceSurfacePresentModesKHR,
          .vkGetPhysicalDeviceSurfacePresentModesKHR] ++
          (if env.capabilities.currentExtent.width ≠ UINT32_MAX then []
            else [.glfwGetFramebufferSize env.fb.1 env.fb.2]) ++
          [.vkCreateSwapchainKHR (swap_chain_create_info s.queue_indices env.capabilities f
            (choose_swap_present_mode env.present_modes)
            (choose_swap_extent env.capabilities env.fb))]) ++ tail ∧
        ∀ info, Call.vkCreateSwapchainKHR info ∉ tail := by
      rcases hend with ⟨_, h1⟩ | ⟨_, _, h1⟩ | ⟨_, _, h1⟩
      · exact ⟨[.fprintf .error_create_swap_chain],
          added_calls_of_append _ _ _ (by rw [h1]; simp [Outcome.state, htr]), by simp⟩
      · exact ⟨[.vkGetSwapchainImagesKHR env.images.length false],
          added_calls_of_append _ _ _ (by rw [h1]; simp [Outcome.state, htr]), by simp⟩
      · exact ⟨[.vkGetSwapchainImagesKHR env.images.length false,
            .vkGetSwapchainImagesKHR env.images.length true],
          added_calls_of_append _ _ _ (by rw [h1]; simp [Outcome.state, htr]), by simp⟩
    obtain ⟨tail, hadd, htail⟩ := hadd
    rw [hadd]
    constructor
    · intro info hmem
      refine ⟨f, hfmt, ?_⟩
      have hnot := htail info
      by_cases hw : env.capabilities.currentExtent.width = UINT32_MAX
      · simpa [hw, hnot] using hmem
      · simpa [hw, hnot] using hmem
    · intro _ _
      exact ⟨swap_chain_create_info s.queue_indices env.capabilities f
        (choose_swap_present_mode env.present_modes)
        (choose_swap_extent env.capabilities env.fb), by simp⟩

/-- C2 (counterexample): the framebuffer size 1920x1080 lies within the
surface's extent range 1x1 to 4096x4096, yet the swapchain build of a surface
whose current extent is 800x600 chooses and stores 800x600. -/
theorem swap_extent_differs_from_framebuffer_size :
    ((caps_fixed_800x600.minImageExtent.width : Int) ≤ 1920 ∧
      (1920 : Int) ≤ caps_fixed_800x600.maxImageExtent.width) ∧
    ((caps_fixed_800x600.minImageExtent.height : Int) ≤ 1080 ∧
      (1080 : Int) ≤ caps_fixed_800x600.maxImageExtent.height) ∧
    choose_swap_extent caps_fixed_800x600 (1920, 1080) ≠ { width := 1920, height := 1080 } ∧
    (create_swap_chain (swap_env caps_fixed_800x600 (1920, 1080) 3) (started 0 0)).ending =
      .returned ∧
    (create_swap_chain (swap_env caps_fixed_800x600 (1920, 1080) 3)
      (started 0 0)).state.swap_chain_extent = { width := 800, height := 600 } := by
  decide

/-- C2 (amended): for every framebuffer size `(w, h)` within the surface's
extent range (whose bounds are `uint32_t`s), when the surface's current extent
is undefined the extent `choose_swap_extent` returns, and the
`swap_chain_extent` a returning `create_swap_chain` stores, is `(w, h)`
exactly; when the current extent is defined both are the current extent. The
build returns whenever the surface has a format and a present mode, the
swapchain is created and it has fewer than `MAX_SWAP_CHAIN_IMGS` images. -/
theorem swap_extent_eq_framebuffer_size (env : SwapEnv) (s : State) (w h : Int)
    (hfb : env.fb = (w, h))
    (hmaxw : env.capabilities.maxImageExtent.width ≤ UINT32_MAX)
    (hmaxh : env.capabilities.maxImageExtent.height ≤ UINT32_MAX)
    (hw : (env.capabilities.minImageExtent.width : Int) ≤ w ∧
      w ≤ env.capabilities.maxImageExtent.width)
    (hh : (env.capabilities.minImageExtent.height : Int) ≤ h ∧
      h ≤ env.capabilities.maxImageExtent.height) :
    (env.capabilities.currentExtent.width = UINT32_MAX →
      ((choose_swap_extent env.capabilities (w, h)).width : Int) = w ∧
      ((choose_swap_extent env.capabilities (w, h)).height : Int) = h ∧
      ∀ s', create_swap_chain env s = .returned s' →
        (s'.swap_chain_extent.width : Int) = w ∧ (s'.swap_chain_extent.height : Int) = h) ∧
    (env.capabilities.currentExtent.width ≠ UINT32_MAX →
      choose_swap_extent env.capabilities (w, h) = env.capabilities.currentExtent ∧
      ∀ s', create_swap_chain env s = .returned s' →
        s'.swap_chain_extent = env.capabilities.currentExtent) ∧
    (env.formats ≠ [] → env.present_modes ≠ [] → env.create_result = VK_SUCCESS →
      env.images.length < MAX_SWAP_CHAIN_IMGS →
      (create_swap_chain env s).ending = .returned) := by
  have hw0 : (to_u32 w : Int) = w := to_u32_of_le w (by omega) (by omega)
  have hh0 : (to_u32 h : Int) = h := to_u32_of_le h (by omega) (by omega)
  have hcw : clamp_u32 (to_u32 w) env.capabilities.minImageExtent.width
      env.capabilities.maxImageExtent.width = to_u32 w :=
    clamp_u32_of_mem _ _ _ (by omega) (by omega)
  have hch : clamp_u32 (to_u32 h) env.capabilities.minImageExtent.height
      env.capabilities.maxImageExtent.height = to_u32 h :=
    clamp_u32_of_mem _ _ _ (by omega) (by omega)
  refine ⟨?_, ?_, ?_⟩
  · intro hundef
    have hext := choose_swap_extent_undefined env.capabilities (w, h) hundef
    simp only [hcw, hch] at hext
    refine ⟨by rw [hext]; exact hw0, by rw [hext]; exact hh0, ?_⟩
    intro s' hret
    have hs := (create_swap_chain_returned env s s' hret).1
    rw [hfb, hext] at hs
    rw [hs]
    exact ⟨hw0, hh0⟩
  · intro hdef
    have hext := choose_swap_extent_defined env.capabilities (w, h) hdef
    refine ⟨hext, ?_⟩
    intro s' hret
    have hs := (create_swap_chain_returned env s s' hret).1
    rw [hfb, hext] at hs
    exact hs
  · intro hf hm hr hn
    obtain ⟨s', hs'⟩ := create_swap_chain_ending_returned env s hf hm hr hn
    rw [hs']
    rfl

/-- C2 (amended) at the scenario of the specification: current extent
undefined, framebuffer 1920x1080, extents from 1x1 to 4096x4096. -/
theorem swap_extent_eq_framebuffer_size_witness :
    ((choose_swap_extent caps_undefined_extent (1920, 1080)).width : Int) = 1920 ∧
    ((choose_swap_extent caps_undefined_extent (1920, 1080)).height : Int) = 1080 ∧
    (create_swap_chain (swap_env caps_undefined_extent (1920, 1080) 3) (started 0 0)).ending =
      .returned :=
  have h := swap_extent_eq_framebuffer_size
    (swap_env caps_undefined_extent (1920, 1080) 3) (started 0 0) 1920 1080 rfl
    (by decide) (by decide) (by decide) (by decide)
  ⟨(h.1 rfl).1, (h.1 rfl).2.1, h.2.2 (by decide) (by decide) rfl (by decide)⟩

/-! ### Sharing mode, image count and capacity -/

/-- C4: in every `vkCreateSwapchainKHR` call of `create_swap_chain` the
sharing fields follow from `queue_indices` alone. When the graphics and the
presentation index differ: `VK_SHARING_MODE_CONCURRENT`, index count 2 and
the index array holding the two indices converted to `uint32_t`, which are
the indices themselves, in the order graphics, presentation, when they are
family indices (within `0 .. UINT32_MAX`). When they are equal:
`VK_SHARING_MODE_EXCLUSIVE`, with the count and the array left zero. -/
theorem sharing_mode_spec (env : SwapEnv) (s : State) (info : VkSwapchainCreateInfoKHR)
    (hcall : Call.vkCreateSwapchainKHR info ∈ added_calls s (create_swap_chain env s)) :
    (s.queue_indices.graphics_index ≠ s.queue_indices.presentation_index →
      info.imageSharingMode = VK_SHARING_MODE_CONCURRENT ∧
      info.queueFamilyIndexCount = 2 ∧
      info.pQueueFamilyIndices =
        some [to_u32 s.queue_indices.graphics_index,
              to_u32 s.queue_indices.presentation_index] ∧
      (0 ≤ s.queue_indices.graphics_index → s.queue_indices.graphics_index ≤ UINT32_MAX →
        0 ≤ s.queue_indices.presentation_index →
        s.queue_indices.presentation_index ≤ UINT32_MAX →
        info.pQueueFamilyIndices.map (List.map Int.ofNat) =
          some [s.queue_indices.graphics_index, s.queue_indices.presentation_index])) ∧
    (s.queue_indices.graphics_index = s.queue_indices.presentation_index →
      info.imageSharingMode = VK_SHARING_MODE_EXCLUSIVE ∧
      info.queueFamilyIndexCount = 0 ∧
      info.pQueueFamilyIndices = none) := by
  obtain ⟨f, _, hinfo⟩ := (create_swap_chain_create_info env s).1 info hcall
  subst hinfo
  constructor
  · intro hne
    refine ⟨by simp [swap_chain_create_info, hne], by simp [swap_chain_create_info, hne],
      by simp [swap_chain_create_info, hne], ?_⟩
    intro hg0 hg1 hp0 hp1
    have hg := to_u32_of_le _ hg0 hg1
    have hp := to_u32_of_le _ hp0 hp1
    simp only [swap_chain_create_info, hne, ne_eq, not_false_eq_true, if_true, Option.map_some',
      List.map_cons, List.map_nil]
    simp only [Int.ofNat_eq_coe, hg, hp]
  · intro heq
    simp [swap_chain_create_info, heq, VK_SHARING_MODE_EXCLUSIVE]

/-- C4 at the scenario of the specification: graphics family 0 and
presentation family 2 give concurrent sharing across `[0, 2]`; graphics and
presentation family both 0 give exclusive sharing. -/
theorem sharing_mode_spec_witness :
    (swap_chain_create_info (started 0 2).queue_indices caps_fixed_800x600
        { format := 50, colorSpace := 0 } 2 { width := 800, height := 600 }).imageSharingMode
      = VK_SHARING_MODE_CONCURRENT ∧
    (swap_chain_create_info (started 0 2).queue_indices caps_fixed_800x600
        { format := 50, colorSpace := 0 } 2 { width := 800, height := 600 }).pQueueFamilyIndices
      = some [0, 2] ∧
    (swap_chain_create_info (started 0 0).queue_indices caps_fixed_800x600
        { format := 50, colorSpace := 0 } 2 { width := 800, height := 600 }).imageSharingMode
      = VK_SHARING_MODE_EXCLUSIVE :=
  have h02 := sharing_mode_spec (swap_env caps_fixed_800x600 (800, 600) 3) (started 0 2)
    (swap_chain_create_info (started 0 2).queue_indices caps_fixed_800x600
      { format := 50, colorSpace := 0 } 2 { width := 800, height := 600 }) (by decide)
  have h00 := sharing_mode_spec (swap_env caps_fixed_800x600 (800, 600) 3) (started 0 0)
    (swap_chain_create_info (started 0 0).queue_indices caps_fixed_800x600
      { format := 50, colorSpace := 0 } 2 { width := 800, height := 600 }) (by decide)
  ⟨(h02.1 (by decide)).1, (h02.1 (by decide)).2.2.1, (h00.2 rfl).1⟩

/-- C5 (counterexample): for a surface reporting minimum 2 and maximum 2
images, `create_swap_chain` requests 3 images, more than the maximum. -/
theorem requested_image_count_exceeds_maximum :
    ∃ info, Call.vkCreateSwapchainKHR info ∈
        added_calls (started 0 0)
          (create_swap_chain (swap_env caps_two_images (800, 600) 3) (started 0 0)) ∧
      info.minImageCount = 3 ∧ caps_two_images.maxImageCount = 2 ∧
      ¬ info.minImageCount ≤ caps_two_images.maxImageCount :=
  ⟨swap_chain_create_info (started 0 0).queue_indices caps_two_images
      { format := 50, colorSpace := 0 } 2 { width := 800, height := 600 },
    by decide, by decide, by decide, by decide⟩

/-- C5 (amended): the image count of every `vkCreateSwapchainKHR` call of
`create_swap_chain` is the reported minimum plus one in 32-bit unsigned
arithmetic, whatever the reported maximum `M` is; it lies within
`[m + 1, M]` when `m + 1 ≤ M` for a `uint32_t` `M`. The call is made once the
surface has reported a format and a present mode. -/
theorem requested_image_count (env : SwapEnv) (s : State) :
    (∀ info, Call.vkCreateSwapchainKHR info ∈ added_calls s (create_swap_chain env s) →
      info.minImageCount = (env.capabilities.minImageCount + 1) % 4294967296 ∧
      (env.capabilities.minImageCount + 1 ≤ env.capabilities.maxImageCount →
        env.capabilities.maxImageCount ≤ UINT32_MAX →
        env.capabilities.minImageCount + 1 ≤ info.minImageCount ∧
        info.minImageCount ≤ env.capabilities.maxImageCount)) ∧
    (env.formats ≠ [] → env.present_modes ≠ [] →
      ∃ info, Call.vkCreateSwapchainKHR info ∈ added_calls s (create_swap_chain env s)) := by
  refine ⟨?_, (create_swap_chain_create_info env s).2⟩
  intro info hcall
  obtain ⟨f, _, hinfo⟩ := (create_swap_chain_create_info env s).1 info hcall
  subst hinfo
  have hcount : (swap_chain_create_info s.queue_indices env.capabilities f
      (choose_swap_present_mode env.present_modes)
      (choose_swap_extent env.capabilities env.fb)).minImageCount =
      (env.capabilities.minImageCount + 1) % 4294967296 := by
    unfold swap_chain_create_info
    by_cases hq : s.queue_indices.graphics_index = s.queue_indices.presentation_index
    · simp [hq, add_u32]
    · simp [hq, add_u32]
  refine ⟨hcount, ?_⟩
  intro hle hmax
  rw [hcount]
  unfold UINT32_MAX at hmax
  omega

/-- C5 (amended) on a surface that reports 2 to 8 images: 3 are requested. -/
theorem requested_image_count_witness :
    ∃ info, Call.vkCreateSwapchainKHR info ∈
        added_calls (started 0 0)
          (create_swap_chain (swap_env caps_fixed_800x600 (800, 600) 3) (started 0 0)) ∧
      info.minImageCount = 3 := by
  have h := requested_image_count (swap_env caps_fixed_800x600 (800, 600) 3) (started 0 0)
  obtain ⟨info, hinfo⟩ := h.2 (by decide) (by decide)
  exact ⟨info, hinfo, (h.1 info hinfo).1⟩

/-- The capacity check of `create_swap_chain` on a swapchain that was created
with `n` images: for `n < MAX_SWAP_CHAIN_IMGS` the build returns with the `n`
images stored from element 0 on and `swap_chain_img_count = n`; for
`n ≥ MAX_SWAP_CHAIN_IMGS` the `assert` fails before anything is stored. -/
theorem create_swap_chain_capacity (env : SwapEnv) (s : State)
    (hf : env.formats ≠ []) (hm : env.present_modes ≠ [])
    (hr : env.create_result = VK_SUCCESS) :
    (env.images.length < MAX_SWAP_CHAIN_IMGS →
      ∃ s', create_swap_chain env s = .returned s' ∧
        s'.swap_chain_img_count = env.images.length ∧
        s'.swap_chain_imgs = store_from_zero env.images s.swap_chain_imgs) ∧
    (MAX_SWAP_CHAIN_IMGS ≤ env.images.length →
      ∃ s', create_swap_chain env s = .aborted s' ∧
        s'.swap_chain_img_count = s.swap_chain_img_count ∧
        s'.swap_chain_imgs = s.swap_chain_imgs) := by
  rcases create_swap_chain_cases env s with
    ⟨hf', _⟩ | ⟨_, hm', _⟩ | ⟨_, _, f, s1, _, _, _, _, _, _, himgs, hcount, _, hend⟩
  · exact absurd hf' hf
  · exact absurd hm' hm
  · rcases hend with ⟨hr', _⟩ | ⟨_, hn', h1⟩ | ⟨_, hn', h1⟩
    · exact absurd hr hr'
    · exact ⟨fun hn => absurd hn hn', fun _ => ⟨_, h1, by simpa using hcount, by simpa using himgs⟩⟩
    · exact ⟨fun _ => ⟨_, h1, rfl, rfl⟩, fun hn => absurd hn' (by omega)⟩

/-- C6 (evaluation at the failing input): a swapchain of exactly
`MAX_SWAP_CHAIN_IMGS = 10` images fits the fixed arrays of 10 elements, yet
`create_swap_chain` ends in the failed `assert`, with no image stored and
`swap_chain_img_count` unchanged; with 9 images it returns and stores them. -/
theorem create_swap_chain_ten_images :
    ((swap_env caps_fixed_800x600 (800, 600) 10).images.length = MAX_SWAP_CHAIN_IMGS ∧
      (started 0 0).swap_chain_imgs.length = MAX_SWAP_CHAIN_IMGS) ∧
    (create_swap_chain (swap_env caps_fixed_800x600 (800, 600) 10) (started 0 0)).ending =
      .aborted ∧
    (create_swap_chain (swap_env caps_fixed_800x600 (800, 600) 10)
      (started 0 0)).state.swap_chain_imgs = (started 0 0).swap_chain_imgs ∧
    (create_swap_chain (swap_env caps_fixed_800x600 (800, 600) 10)
      (started 0 0)).state.swap_chain_img_count = 3 ∧
    (create_swap_chain (swap_env caps_fixed_800x600 (800, 600) 9) (started 0 0)).ending =
      .returned ∧
    (create_swap_chain (swap_env caps_fixed_800x600 (800, 600) 9)
      (started 0 0)).state.swap_chain_img_count = 9 := by
  decide

/-! ### Rebuild -/

@[simp] theorem State.set_framebuffer_resized_trace (s : State) (b : Bool) :
    (s.set_framebuffer_resized b).trace = s.trace := rfl

@[simp] theorem State.set_framebuffer_resized_flag (s : State) (b : Bool) :
    (s.set_framebuffer_resized b).framebuffer_resized = b := rfl

@[simp] theorem State.set_framebuffer_resized_current_frame (s : State) (b : Bool) :
    (s.set_framebuffer_resized b).current_frame = s.current_frame := rfl

@[simp] theorem State.set_framebuffer_resized_in_flight_fences (s : State) (b : Bool) :
    (s.set_framebuffer_resized b).in_flight_fences = s.in_flight_fences := rfl

@[simp] theorem State.set_framebuffer_resized_queue_indices (s : State) (b : Bool) :
    (s.set_framebuffer_resized b).queue_indices = s.queue_indices := rfl

@[simp] theorem State.set_framebuffer_resized_swap_chain_img_count (s : State) (b : Bool) :
    (s.set_framebuffer_resized b).swap_chain_img_count = s.swap_chain_img_count := rfl

theorem State.set_framebuffer_resized_self (s : State) :
    s.set_framebuffer_resized s.framebuffer_resized = s := rfl

/-- The `while` loop of `recreate_swap_chain` only queries the framebuffer
size and waits for events; it ends returned or stalled; when it returns, the
size it last read has nonzero width and height; and it writes no variable but
`framebuffer_resized`, which is set exactly when it was set before or one of
the waits ran the resize callback. -/
theorem recreate_swap_chain_wait_shape (sizes : Nat → Int × Int) (resized : Nat → Bool)
    (fuel : Nat) :
    ∀ (q : Nat) (w h : Int) (s : State),
      ∃ (polls : List Call) (b : Bool),
        (∀ c ∈ polls, c = .glfwWaitEvents ∨ ∃ w' h', c = .glfwGetFramebufferSize w' h') ∧
        (b = true ↔ s.framebuffer_resized = true ∨
          ((w = 0 ∨ h = 0) ∧ ∃ i, i < fuel ∧
            (∀ j, j < i → (sizes (q + j)).1 = 0 ∨ (sizes (q + j)).2 = 0) ∧
            resized (q + i) = true)) ∧
        ((recreate_swap_chain_wait sizes resized fuel q w h s =
              .returned ((s.log polls).set_framebuffer_resized b) ∧
            ((w ≠ 0 ∧ h ≠ 0 ∧ polls = []) ∨
              ∃ w' h', Call.glfwGetFramebufferSize w' h' ∈ polls ∧ w' ≠ 0 ∧ h' ≠ 0)) ∨
          recreate_swap_chain_wait sizes resized fuel q w h s =
            .stalled ((s.log polls).set_framebuffer_resized b)) := by
  induction fuel with
  | zero =>
    intro q w h s
    refine ⟨[], s.framebuffer_resized, by simp, by simp, ?_⟩
    rw [State.log_nil, State.set_framebuffer_resized_self]
    by_cases hz : w = 0 ∨ h = 0
    · right
      simp [recreate_swap_chain_wait, hz]
    · left
      refine ⟨by simp [recreate_swap_chain_wait, hz], Or.inl ?_⟩
      exact ⟨fun hw => hz (Or.inl hw), fun hh => hz (Or.inr hh), rfl⟩
  | succ fuel ih =>
    intro q w h s
    by_cases hz : w = 0 ∨ h = 0
    · obtain ⟨polls, b, hpolls, hb, hend⟩ := ih (q + 1) (sizes q).1 (sizes q).2
        (if resized q then handle_framebuffer_resize
            (s.log [.glfwGetFramebufferSize (sizes q).1 (sizes q).2, .glfwWaitEvents])
          else s.log [.glfwGetFramebufferSize (sizes q).1 (sizes q).2, .glfwWaitEvents])
      have hstate : ((if resized q then handle_framebuffer_resize
            (s.log [.glfwGetFramebufferSize (sizes q).1 (sizes q).2, .glfwWaitEvents])
          else s.log [.glfwGetFramebufferSize (sizes q).1 (sizes q).2,
            .glfwWaitEvents]).log polls).set_framebuffer_resized b =
          (s.log ([.glfwGetFramebufferSize (sizes q).1 (sizes q).2, .glfwWaitEvents] ++
            polls)).set_framebuffer_resized b := by
        rw [← State.log_log]
        cases resized q <;> rfl
      have hflag : (if resized q then handle_framebuffer_resize
            (s.log [.glfwGetFramebufferSize (sizes q).1 (sizes q).2, .glfwWaitEvents])
          else s.log [.glfwGetFramebufferSize (sizes q).1 (sizes q).2,
            .glfwWaitEvents]).framebuffer_resized = true ↔
          s.framebuffer_resized = true ∨ resized q = true := by
        cases resized q <;> simp [handle_framebuffer_resize]
      refine ⟨[.glfwGetFramebufferSize (sizes q).1 (sizes q).2, .glfwWaitEvents] ++ polls, b,
        ?_, ?_, ?_⟩
      · intro c hc
        rcases List.mem_append.mp hc with hc | hc
        · rcases List.mem_cons.mp hc with rfl | hc
          · exact Or.inr ⟨_, _, rfl⟩
          · left
            simpa using hc
        · exact hpolls c hc
      · rw [hb, hflag]
        constructor
        · rintro ((hs | hr) | ⟨hz', i, hi, hall, hri⟩)
          · exact Or.inl hs
          · exact Or.inr ⟨hz, 0, by omega, by intro j hj; omega, hr⟩
          · refine Or.inr ⟨hz, i + 1, by omega, ?_, ?_⟩
            · intro j hj
              cases j with
              | zero => exact hz'
              | succ j =>
                rw [show q + (j + 1) = q + 1 + j by omega]
                exact hall j (by omega)
            · rw [show q + (i + 1) = q + 1 + i by omega]
              exact hri
        · rintro (hs | ⟨_, i, hi, hall, hri⟩)
          · exact Or.inl (Or.inl hs)
          · cases i with
            | zero => exact Or.inl (Or.inr hri)
            | succ i =>
              refine Or.inr ⟨hall 0 (by omega), i, by omega, ?_, ?_⟩
              · intro j hj
                rw [show q + 1 + j = q + (j + 1) by omega]
                exact hall (j + 1) (by omega)
              · rw [show q + 1 + i = q + (i + 1) by omega]
                exact hri
      · rw [hstate] at hend
        rcases hend with ⟨hret, hnz⟩ | hst
        · left
          refine ⟨by simp only [recreate_swap_chain_wait, hz, if_true]; exact hret, Or.inr ?_⟩
          rcases hnz with ⟨hw, hh, _⟩ | ⟨w', h', hmem, hw, hh⟩
          · exact ⟨_, _, by simp, hw, hh⟩
          · exact ⟨w', h', List.mem_append_right _ hmem, hw, hh⟩
        · right
          simp only [recreate_swap_chain_wait, hz, if_true]
          exact hst
    · refine ⟨[], s.framebuffer_resized, by simp, by simp [hz], ?_⟩
      rw [State.log_nil, State.set_framebuffer_resized_self]
      refine Or.inl ⟨?_, Or.inl ?_⟩
      · simp [recreate_swap_chain_wait, hz]
      · exact ⟨fun hw => hz (Or.inl hw), fun hh => hz (Or.inr hh), rfl⟩

/-- The loop returns at once, whatever the fuel, on a nonzero size. -/
theorem recreate_swap_chain_wait_nonzero (sizes : Nat → Int × Int) (resized : Nat → Bool)
    (fuel q : Nat) (w h : Int) (s : State) (hw : w ≠ 0) (hh : h ≠ 0) :
    recreate_swap_chain_wait sizes resized fuel q w h s = .returned s := by
  cases fuel <;> simp [recreate_swap_chain_wait, hw, hh]

/-- Enough fuel: the loop returns when one of the next `fuel` size queries
reports a nonzero width and height. -/
theorem recreate_swap_chain_wait_returns (sizes : Nat → Int × Int) (resized : Nat → Bool)
    (fuel : Nat) :
    ∀ (q n : Nat) (w h : Int) (s : State), n < fuel →
      (sizes (q + n)).1 ≠ 0 → (sizes (q + n)).2 ≠ 0 →
      (recreate_swap_chain_wait sizes resized fuel q w h s).ending = .returned := by
  induction fuel with
  | zero => intro q n w h s hn; omega
  | succ fuel ih =>
    intro q n w h s hn hw hh
    by_cases hz : w = 0 ∨ h = 0
    · simp only [recreate_swap_chain_wait, hz, if_true]
      cases n with
      | zero =>
        rw [recreate_swap_chain_wait_nonzero sizes resized fuel (q + 1) _ _ _
          (by simpa using hw) (by simpa using hh)]
        rfl
      | succ n =>
        exact ih (q + 1) n _ _ _ (by omega) (by rw [show q + 1 + n = q + (n + 1) by omega]; exact hw)
          (by rw [show q + 1 + n = q + (n + 1) by omega]; exact hh)
    · simp [recreate_swap_chain_wait, hz, Outcome.ending]

/-- Not enough: the loop is stalled when the size it starts from and the next
`fuel` sizes all have a zero width or height. -/
theorem recreate_swap_chain_wait_stalls (sizes : Nat → Int × Int) (resized : Nat → Bool)
    (fuel : Nat) :
    ∀ (q : Nat) (w h : Int) (s : State), (w = 0 ∨ h = 0) →
      (∀ n, n < fuel → (sizes (q + n)).1 = 0 ∨ (sizes (q + n)).2 = 0) →
      (recreate_swap_chain_wait sizes resized fuel q w h s).ending = .stalled := by
  induction fuel with
  | zero => intro q w h s hz _; simp [recreate_swap_chain_wait, hz, Outcome.ending]
  | succ fuel ih =>
    intro q w h s hz hall
    simp only [recreate_swap_chain_wait, hz, if_true]
    refine ih (q + 1) _ _ _ (by simpa using hall 0 (by omega)) ?_
    intro n hn
    rw [show q + 1 + n = q + (n + 1) by omega]
    exact hall (n + 1) (by omega)

theorem State.steps_to_log (s : State) (calls : List Call) : s.steps_to calls (s.log calls) :=
  ⟨rfl, rfl, rfl, rfl, rfl⟩

theorem State.steps_to_trans (s s1 s2 : State) (a b : List Call)
    (h1 : s.steps_to a s1) (h2 : s1.steps_to b s2) : s.steps_to (a ++ b) s2 := by
  obtain ⟨ht1, hr1, hc1, hf1, hq1⟩ := h1
  obtain ⟨ht2, hr2, hc2, hf2, hq2⟩ := h2
  exact ⟨by rw [ht2, ht1, List.append_assoc], hr2.trans hr1, hc2.trans hc1, hf2.trans hf1,
    hq2.trans hq1⟩

theorem map_range'_initial_segment (mk : Nat → Call) (i k n : Nat) (h : k ≤ n) :
    (List.range' i k).map mk <+: (List.range' i n).map mk := by
  obtain ⟨d, rfl⟩ := Nat.exists_eq_add_of_le h
  refine ⟨(List.range' (i + k) d).map mk, ?_⟩
  rw [← List.map_append]
  congr 1
  rw [List.range'_append_1, Nat.add_comm d k]

/-- The loop of `create_img_views` from index `i` on: it returns after
creating the views `i, ..., i + n - 1` in order, or exits after a creation
that failed. -/
theorem create_img_views_loop_shape (results : Nat → Int) (n : Nat) :
    ∀ (i : Nat) (s : State),
      create_img_views_loop results n i s =
          .returned (s.log ((List.range' i n).map .vkCreateImageView)) ∨
      ∃ k, k < n ∧ create_img_views_loop results n i s =
          .exited 1 (s.log ((List.range' i (k + 1)).map .vkCreateImageView ++
            [.fprintf (.error_create_image_view (i + k))])) := by
  induction n with
  | zero => intro i s; left; simp [create_img_views_loop, State.log_nil]
  | succ n ih =>
    intro i s
    by_cases hr : results i = VK_SUCCESS
    · rcases ih (i + 1) (s.log [.vkCreateImageView i]) with hret | ⟨k, hk, hex⟩
      · left
        simp only [create_img_views_loop, hr, ne_eq, not_true_eq_false, if_false]
        rw [hret, State.log_log]
        simp [List.range'_succ]
      · right
        refine ⟨k + 1, by omega, ?_⟩
        simp only [create_img_views_loop, hr, ne_eq, not_true_eq_false, if_false]
        rw [hex, State.log_log]
        simp [List.range'_succ, Nat.add_assoc, Nat.add_comm 1 k]
    · right
      refine ⟨0, by omega, ?_⟩
      simp [create_img_views_loop, hr, State.log_log, List.range'_succ]

/-- The loop of `create_framebuffers` from index `i` on. -/
theorem create_framebuffers_loop_shape (results : Nat → Int) (n : Nat) :
    ∀ (i : Nat) (s : State),
      create_framebuffers_loop results n i s =
          .returned (s.log ((List.range' i n).map .vkCreateFramebuffer)) ∨
      ∃ k, k < n ∧ create_framebuffers_loop results n i s =
          .exited 1 (s.log ((List.range' i (k + 1)).map .vkCreateFramebuffer ++
            [.fprintf .error_create_framebuffer])) := by
  induction n with
  | zero => intro i s; left; simp [create_framebuffers_loop, State.log_nil]
  | succ n ih =>
    intro i s
    by_cases hr : results i = VK_SUCCESS
    · rcases ih (i + 1) (s.log [.vkCreateFramebuffer i]) with hret | ⟨k, hk, hex⟩
      · left
        simp only [create_framebuffers_loop, hr, ne_eq, not_true_eq_false, if_false]
        rw [hret, State.log_log]
        simp [List.range'_succ]
      · right
        refine ⟨k + 1, by omega, ?_⟩
        simp only [create_framebuffers_loop, hr, ne_eq, not_true_eq_false, if_false]
        rw [hex, State.log_log]
        simp [List.range'_succ]
    · right
      refine ⟨0, by omega, ?_⟩
      simp [create_framebuffers_loop, hr, State.log_log, List.range'_succ]

theorem filter_lifecycle_map (mk : Nat → Call) (l : List Nat)
    (h : ∀ i, (mk i).is_lifecycle = true) :
    (l.map mk).filter Call.is_lifecycle = l.map mk := by
  apply List.filter_eq_self.mpr
  intro c hc
  obtain ⟨i, _, rfl⟩ := List.mem_map.mp hc
  exact h i

theorem is_build_call_map (mk : Nat → Call) (l : List Nat)
    (h : ∀ i, (mk i).is_build_call = true) :
    ∀ c ∈ l.map mk, c.is_build_call = true := by
  intro c hc
  obtain ⟨i, _, rfl⟩ := List.mem_map.mp hc
  exact h i

/-- Function `create_img_views` appends, in order, the creation of the views
`0, ..., k - 1` for some `k ≤ swap_chain_img_count`, all of them when it
returns, and otherwise exits with code 1. -/
theorem create_img_views_steps (results : Nat → Int) (s : State) :
    ∃ (calls : List Call) (k : Nat), k ≤ s.swap_chain_img_count ∧
      (∀ c ∈ calls, c.is_build_call = true) ∧
      calls.filter Call.is_lifecycle = (List.range k).map .vkCreateImageView ∧
      ((create_img_views results s = .returned (s.log calls) ∧ k = s.swap_chain_img_count) ∨
        create_img_views results s = .exited 1 (s.log calls)) := by
  rcases create_img_views_loop_shape results s.swap_chain_img_count 0 s with hret | ⟨k, hk, hex⟩
  · refine ⟨(List.range' 0 s.swap_chain_img_count).map Call.vkCreateImageView,
      s.swap_chain_img_count, le_refl _,
      is_build_call_map Call.vkCreateImageView _ (fun _ => rfl), ?_, Or.inl ⟨hret, rfl⟩⟩
    rw [filter_lifecycle_map Call.vkCreateImageView _ (fun _ => rfl), List.range_eq_range']
  · refine ⟨(List.range' 0 (k + 1)).map Call.vkCreateImageView ++
        [Call.fprintf (Diagnostic.error_create_image_view (0 + k))], k + 1, hk, ?_, ?_,
        Or.inr hex⟩
    · intro c hc
      rcases List.mem_append.mp hc with hc | hc
      · exact is_build_call_map Call.vkCreateImageView _ (fun _ => rfl) c hc
      · rw [List.mem_singleton.mp hc]; rfl
    · rw [List.filter_append, filter_lifecycle_map Call.vkCreateImageView _ (fun _ => rfl),
        List.range_eq_range']
      simp [Call.is_lifecycle]

/-- Function `create_framebuffers`, in the same way. -/
theorem create_framebuffers_steps (results : Nat → Int) (s : State) :
    ∃ (calls : List Call) (k : Nat), k ≤ s.swap_chain_img_count ∧
      (∀ c ∈ calls, c.is_build_call = true) ∧
      calls.filter Call.is_lifecycle = (List.range k).map .vkCreateFramebuffer ∧
      ((create_framebuffers results s = .returned (s.log calls) ∧
          k = s.swap_chain_img_count) ∨
        create_framebuffers results s = .exited 1 (s.log calls)) := by
  rcases create_framebuffers_loop_shape results s.swap_chain_img_count 0 s with
    hret | ⟨k, hk, hex⟩
  · refine ⟨(List.range' 0 s.swap_chain_img_count).map Call.vkCreateFramebuffer,
      s.swap_chain_img_count, le_refl _,
      is_build_call_map Call.vkCreateFramebuffer _ (fun _ => rfl), ?_, Or.inl ⟨hret, rfl⟩⟩
    rw [filter_lifecycle_map Call.vkCreateFramebuffer _ (fun _ => rfl), List.range_eq_range']
  · refine ⟨(List.range' 0 (k + 1)).map Call.vkCreateFramebuffer ++
        [Call.fprintf Diagnostic.error_create_framebuffer], k + 1, hk, ?_, ?_, Or.inr hex⟩
    · intro c hc
      rcases List.mem_append.mp hc with hc | hc
      · exact is_build_call_map Call.vkCreateFramebuffer _ (fun _ => rfl) c hc
      · rw [List.mem_singleton.mp hc]; rfl
    · rw [List.filter_append, filter_lifecycle_map Call.vkCreateFramebuffer _ (fun _ => rfl),
        List.range_eq_range']
      simp [Call.is_lifecycle]

theorem map_range_initial_segment (mk : Nat → Call) (k n : Nat) (h : k ≤ n) :
    (List.range k).map mk <+: (List.range n).map mk := by
  rw [List.range_eq_range', List.range_eq_range']
  exact map_range'_initial_segment mk 0 k n h

/-- The surface queries of `create_swap_chain` before `vkCreateSwapchainKHR`
are build calls and none of them is a call of the rebuild protocol. -/
theorem create_swap_chain_queries (env : SwapEnv) :
    ∀ c ∈ ([Call.vkGetPhysicalDeviceSurfaceCapabilitiesKHR,
      Call.vkGetPhysicalDeviceSurfaceFormatsKHR, Call.vkGetPhysicalDeviceSurfaceFormatsKHR,
      Call.vkGetPhysicalDeviceSurfacePresentModesKHR,
      Call.vkGetPhysicalDeviceSurfacePresentModesKHR] : List Call) ++
      (if env.capabilities.currentExtent.width ≠ UINT32_MAX then []
        else [Call.glfwGetFramebufferSize env.fb.1 env.fb.2]),
      c.is_build_call = true ∧ c.is_lifecycle = false := by
  intro c hc
  by_cases hw : env.capabilities.currentExtent.width = UINT32_MAX
  · simp only [hw, ne_eq, not_true_eq_false, if_false, List.mem_append, List.mem_cons,
      List.mem_singleton, List.not_mem_nil, or_false] at hc
    rcases hc with (rfl | rfl | rfl | rfl | rfl) | rfl <;> exact ⟨rfl, rfl⟩
  · simp only [hw, ne_eq, not_false_eq_true, if_true, List.append_nil, List.mem_cons,
      List.mem_singleton, List.not_mem_nil, or_false] at hc
    rcases hc with rfl | rfl | rfl | rfl | rfl <;> exact ⟨rfl, rfl⟩

theorem create_swap_chain_queries_filter (env : SwapEnv) :
    (([Call.vkGetPhysicalDeviceSurfaceCapabilitiesKHR,
      Call.vkGetPhysicalDeviceSurfaceFormatsKHR, Call.vkGetPhysicalDeviceSurfaceFormatsKHR,
      Call.vkGetPhysicalDeviceSurfacePresentModesKHR,
      Call.vkGetPhysicalDeviceSurfacePresentModesKHR] : List Call) ++
      (if env.capabilities.currentExtent.width ≠ UINT32_MAX then []
        else [Call.glfwGetFramebufferSize env.fb.1 env.fb.2])).filter Call.is_lifecycle
      = [] := by
  apply List.filter_eq_nil_iff.mpr
  intro c hc
  simp [(create_swap_chain_queries env c hc).2]

/-- The build that ends `recreate_swap_chain`, from a state `s`:
`create_swap_chain`, then `create_img_views`, then `create_framebuffers`. It
appends build calls only and leaves the variables of the frame loop alone;
its calls of the rebuild protocol are, in order, a beginning of: create the
swapchain, create the views `0 .. n - 1`, create the framebuffers
`0 .. n - 1` (`n` the image count of the new swapchain), and all of it when
the build returns; it never stalls or hangs. -/
theorem rebuild_tail_shape (env : RebuildEnv) (s : State) :
    ∃ calls : List Call,
      s.steps_to calls ((create_swap_chain env.swap s).bind fun s =>
        (create_img_views env.img_view_results s).bind fun s =>
          create_framebuffers env.framebuffer_results s).state ∧
      (∀ c ∈ calls, c.is_build_call = true) ∧
      (∃ info, calls.filter Call.is_lifecycle <+:
        [Call.vkCreateSwapchainKHR info] ++
          (List.range env.swap.images.length).map Call.vkCreateImageView ++
          (List.range env.swap.images.length).map Call.vkCreateFramebuffer) ∧
      (((create_swap_chain env.swap s).bind fun s =>
        (create_img_views env.img_view_results s).bind fun s =>
          create_framebuffers env.framebuffer_results s).ending = .returned →
        ∃ info, calls.filter Call.is_lifecycle =
          [Call.vkCreateSwapchainKHR info] ++
            (List.range env.swap.images.length).map Call.vkCreateImageView ++
            (List.range env.swap.images.length).map Call.vkCreateFramebuffer) ∧
      ((create_swap_chain env.swap s).bind fun s =>
        (create_img_views env.img_view_results s).bind fun s =>
          create_framebuffers env.framebuffer_results s).ending ≠ .stalled ∧
      ((create_swap_chain env.swap s).bind fun s =>
        (create_img_views env.img_view_results s).bind fun s =>
          create_framebuffers env.framebuffer_results s).ending ≠ .hung := by
  have hdefault : ∃ info : VkSwapchainCreateInfoKHR, ([] : List Call) <+:
      [Call.vkCreateSwapchainKHR info] ++
        (List.range env.swap.images.length).map Call.vkCreateImageView ++
        (List.range env.swap.images.length).map Call.vkCreateFramebuffer :=
    ⟨swap_chain_create_info s.queue_indices env.swap.capabilities
      { format := 0, colorSpace := 0 } 0 { width := 0, height := 0 }, List.nil_prefix⟩
  rcases create_swap_chain_cases env.swap s with
    ⟨_, h1⟩ | ⟨_, _, h1⟩ |
    ⟨_, _, f, s1, hfmt, htr, hq, hr, hc, hfen, _, _, _, hend⟩
  · rw [h1]
    refine ⟨[Call.vkGetPhysicalDeviceSurfaceCapabilitiesKHR,
      Call.vkGetPhysicalDeviceSurfaceFormatsKHR], State.steps_to_log _ _, ?_, ?_, ?_, ?_, ?_⟩
    · intro c hc
      simp only [List.mem_cons, List.mem_singleton, List.not_mem_nil, or_false] at hc
      rcases hc with rfl | rfl <;> rfl
    · simpa [Call.is_lifecycle] using hdefault
    · intro h; simp [Outcome.bind, Outcome.ending] at h
    · simp [Outcome.bind, Outcome.ending]
    · simp [Outcome.bind, Outcome.ending]
  · rw [h1]
    refine ⟨[Call.vkGetPhysicalDeviceSurfaceCapabilitiesKHR,
      Call.vkGetPhysicalDeviceSurfaceFormatsKHR, Call.vkGetPhysicalDeviceSurfaceFormatsKHR,
      Call.vkGetPhysicalDeviceSurfacePresentModesKHR], State.steps_to_log _ _,
      ?_, ?_, ?_, ?_, ?_⟩
    · intro c hc
      simp only [List.mem_cons, List.mem_singleton, List.not_mem_nil, or_false] at hc
      rcases hc with rfl | rfl | rfl | rfl <;> rfl
    · simpa [Call.is_lifecycle] using hdefault
    · intro h; simp [Outcome.bind, Outcome.ending] at h
    · simp [Outcome.bind, Outcome.ending]
    · simp [Outcome.bind, Outcome.ending]
  · have hs1 : s.steps_to
        (([Call.vkGetPhysicalDeviceSurfaceCapabilitiesKHR,
          Call.vkGetPhysicalDeviceSurfaceFormatsKHR, Call.vkGetPhysicalDeviceSurfaceFormatsKHR,
          Call.vkGetPhysicalDeviceSurfacePresentModesKHR,
          Call.vkGetPhysicalDeviceSurfacePresentModesKHR] ++
          (if env.swap.capabilities.currentExtent.width ≠ UINT32_MAX then []
            else [Call.glfwGetFramebufferSize env.swap.fb.1 env.swap.fb.2])) ++
          [Call.vkCreateSwapchainKHR (swap_chain_create_info s.queue_indices
            env.swap.capabilities f (choose_swap_present_mode env.swap.present_modes)
            (choose_swap_extent env.swap.capabilities env.swap.fb))]) s1 :=
      ⟨htr, hr, hc, hfen, hq⟩
    generalize hA : (([Call.vkGetPhysicalDeviceSurfaceCapabilitiesKHR,
          Call.vkGetPhysicalDeviceSurfaceFormatsKHR, Call.vkGetPhysicalDeviceSurfaceFormatsKHR,
          Call.vkGetPhysicalDeviceSurfacePresentModesKHR,
          Call.vkGetPhysicalDeviceSurfacePresentModesKHR] ++
          (if env.swap.capabilities.currentExtent.width ≠ UINT32_MAX then []
            else [Call.glfwGetFramebufferSize env.swap.fb.1 env.swap.fb.2])) ++
          [Call.vkCreateSwapchainKHR (swap_chain_create_info s.queue_indices
            env.swap.capabilities f (choose_swap_present_mode env.swap.present_modes)
            (choose_swap_extent env.swap.capabilities env.swap.fb))]) = A at hs1
    generalize hinfo : swap_chain_create_info s.queue_indices
            env.swap.capabilities f (choose_swap_present_mode env.swap.present_modes)
            (choose_swap_extent env.swap.capabilities env.swap.fb) = info at hA
    have hAf : A.filter Call.is_lifecycle = [Call.vkCreateSwapchainKHR info] := by
      rw [← hA, List.filter_append, create_swap_chain_queries_filter]
      simp [Call.is_lifecycle]
    have hAb : ∀ c ∈ A, c.is_build_call = true := by
      intro c hc
      rw [← hA] at hc
      rcases List.mem_append.mp hc with hc | hc
      · exact (create_swap_chain_queries env.swap c hc).1
      · rw [List.mem_singleton.mp hc]; rfl
    have hpre1 : [Call.vkCreateSwapchainKHR info] <+:
        [Call.vkCreateSwapchainKHR info] ++
          (List.range env.swap.images.length).map Call.vkCreateImageView ++
          (List.range env.swap.images.length).map Call.vkCreateFramebuffer := by
      rw [List.append_assoc]
      exact List.prefix_append _ _
    rcases hend with ⟨_, h1⟩ | ⟨_, _, h1⟩ | ⟨_, _, h1⟩
    · rw [h1]
      refine ⟨A ++ [Call.fprintf Diagnostic.error_create_swap_chain],
        State.steps_to_trans _ _ _ _ _ hs1 (State.steps_to_log _ _), ?_, ⟨info, ?_⟩, ?_, ?_, ?_⟩
      · intro c hc
        rcases List.mem_append.mp hc with hc | hc
        · exact hAb c hc
        · rw [List.mem_singleton.mp hc]; rfl
      · rw [List.filter_append, hAf]
        simp [Call.is_lifecycle]
      · intro h; simp [Outcome.bind, Outcome.ending] at h
      · simp [Outcome.bind, Outcome.ending]
      · simp [Outcome.bind, Outcome.ending]
    · rw [h1]
      refine ⟨A ++ [Call.vkGetSwapchainImagesKHR env.swap.images.length false],
        State.steps_to_trans _ _ _ _ _ hs1 (State.steps_to_log _ _), ?_, ⟨info, ?_⟩, ?_, ?_, ?_⟩
      · intro c hc
        rcases List.mem_append.mp hc with hc | hc
        · exact hAb c hc
        · rw [List.mem_singleton.mp hc]; rfl
      · rw [List.filter_append, hAf]
        simp [Call.is_lifecycle]
      · intro h; simp [Outcome.bind, Outcome.ending] at h
      · simp [Outcome.bind, Outcome.ending]
      · simp [Outcome.bind, Outcome.ending]
    · obtain ⟨s3, hs3, hs3steps, hs3count⟩ : ∃ s3, create_swap_chain env.swap s = .returned s3 ∧
          s1.steps_to [Call.vkGetSwapchainImagesKHR env.swap.images.length false,
            Call.vkGetSwapchainImagesKHR env.swap.images.length true] s3 ∧
          s3.swap_chain_img_count = env.swap.images.length :=
        ⟨_, h1, ⟨rfl, rfl, rfl, rfl, rfl⟩, rfl⟩
      have hG : ∀ c ∈ [Call.vkGetSwapchainImagesKHR env.swap.images.length false,
          Call.vkGetSwapchainImagesKHR env.swap.images.length true],
          c.is_build_call = true := by
        intro c hc
        simp only [List.mem_cons, List.mem_singleton, List.not_mem_nil, or_false] at hc
        rcases hc with rfl | rfl <;> rfl
      have hGf : ([Call.vkGetSwapchainImagesKHR env.swap.images.length false,
          Call.vkGetSwapchainImagesKHR env.swap.images.length true]).filter
          Call.is_lifecycle = [] := by
        simp [Call.is_lifecycle]
      have hs3' := State.steps_to_trans _ _ _ _ _ hs1 hs3steps
      obtain ⟨cv, kv, hkv, hbv, hfv, hv⟩ := create_img_views_steps env.img_view_results s3
      rw [hs3count] at hkv
      rw [hs3]
      simp only [Outcome.bind]
      rcases hv with ⟨hv, hkv'⟩ | hv
      · rw [hs3count] at hkv'
        subst hkv'
        obtain ⟨cf, kf, hkf, hbf, hff, hf⟩ :=
          create_framebuffers_steps env.framebuffer_results (s3.log cv)
        rw [State.log_swap_chain_img_count, hs3count] at hkf
        have hs4 := State.steps_to_trans _ _ _ _ _
          (State.steps_to_trans _ _ _ _ _ hs3' (State.steps_to_log s3 cv))
          (State.steps_to_log (s3.log cv) cf)
        have hb4 : ∀ c ∈ A ++ [Call.vkGetSwapchainImagesKHR env.swap.images.length false,
            Call.vkGetSwapchainImagesKHR env.swap.images.length true] ++ cv ++ cf,
            c.is_build_call = true := by
          intro c hc
          rcases List.mem_append.mp hc with hc | hc
          · rcases List.mem_append.mp hc with hc | hc
            · rcases List.mem_append.mp hc with hc | hc
              · exact hAb c hc
              · exact hG c hc
            · exact hbv c hc
          · exact hbf c hc
        have hf4 : (A ++ [Call.vkGetSwapchainImagesKHR env.swap.images.length false,
            Call.vkGetSwapchainImagesKHR env.swap.images.length true] ++ cv ++ cf).filter
            Call.is_lifecycle = [Call.vkCreateSwapchainKHR info] ++
              (List.range env.swap.images.length).map Call.vkCreateImageView ++
              (List.range kf).map Call.vkCreateFramebuffer := by
          rw [List.filter_append, List.filter_append, List.filter_append, hAf, hGf, hfv, hff,
            List.append_nil]
        rw [hv]
        simp only [Outcome.bind]
        rcases hf with ⟨hf, hkf'⟩ | hf
        · rw [State.log_swap_chain_img_count, hs3count] at hkf'
          subst hkf'
          rw [hf]
          exact ⟨_, hs4, hb4, ⟨info, by rw [hf4]⟩, fun _ => ⟨info, hf4⟩,
            by simp [Outcome.ending], by simp [Outcome.ending]⟩
        · rw [hf]
          refine ⟨_, hs4, hb4, ⟨info, ?_⟩, ?_, by simp [Outcome.ending],
            by simp [Outcome.ending]⟩
          · rw [hf4]
            exact (List.prefix_append_right_inj _).mpr (map_range_initial_segment _ _ _ hkf)
          · intro h; simp [Outcome.ending] at h
      · rw [hv]
        simp only [Outcome.bind]
        refine ⟨A ++ [Call.vkGetSwapchainImagesKHR env.swap.images.length false,
            Call.vkGetSwapchainImagesKHR env.swap.images.length true] ++ cv,
          State.steps_to_trans _ _ _ _ _ hs3' (State.steps_to_log s3 cv), ?_, ⟨info, ?_⟩, ?_,
          by simp [Outcome.ending], by simp [Outcome.ending]⟩
        · intro c hc
          rcases List.mem_append.mp hc with hc | hc
          · rcases List.mem_append.mp hc with hc | hc
            · exact hAb c hc
            · exact hG c hc
          · exact hbv c hc
        · rw [List.filter_append, List.filter_append, hAf, hGf, hfv, List.append_nil,
            List.append_assoc]
          exact (List.prefix_append_right_inj _).mpr
            ((map_range_initial_segment _ _ _ hkv).trans (List.prefix_append _ _))
        · intro h; simp [Outcome.ending] at h

theorem rebuild_protocol_eq (n : Nat) (info : VkSwapchainCreateInfoKHR) (m : Nat) :
    rebuild_protocol n info m =
      ([Call.vkDeviceWaitIdle] ++ (List.range n).map Call.vkDestroyFramebuffer ++
        (List.range n).map Call.vkDestroyImageView ++ [Call.vkDestroySwapchainKHR]) ++
      ([Call.vkCreateSwapchainKHR info] ++ (List.range m).map Call.vkCreateImageView ++
        (List.range m).map Call.vkCreateFramebuffer) := by
  simp [rebuild_protocol, List.append_assoc]

theorem teardown_calls (n : Nat) :
    (∀ c ∈ [Call.vkDeviceWaitIdle] ++ (List.range n).map Call.vkDestroyFramebuffer ++
        (List.range n).map Call.vkDestroyImageView ++ [Call.vkDestroySwapchainKHR],
      c.is_lifecycle = true ∧ c.is_build_call = true) := by
  intro c hc
  rcases List.mem_append.mp hc with hc | hc
  · rcases List.mem_append.mp hc with hc | hc
    · rcases List.mem_append.mp hc with hc | hc
      · rw [List.mem_singleton.mp hc]; exact ⟨rfl, rfl⟩
      · obtain ⟨i, _, rfl⟩ := List.mem_map.mp hc; exact ⟨rfl, rfl⟩
    · obtain ⟨i, _, rfl⟩ := List.mem_map.mp hc; exact ⟨rfl, rfl⟩
  · rw [List.mem_singleton.mp hc]; exact ⟨rfl, rfl⟩

/-- Function `cleanup_swap_chain` appends the destruction of every
framebuffer, of every image view and of the swapchain, in this order. -/
theorem cleanup_swap_chain_steps (s : State) :
    s.steps_to ((List.range s.swap_chain_img_count).map Call.vkDestroyFramebuffer ++
        (List.range s.swap_chain_img_count).map Call.vkDestroyImageView ++
        [Call.vkDestroySwapchainKHR]) (cleanup_swap_chain s) := by
  unfold cleanup_swap_chain
  simp only [State.log_log, State.log_swap_chain_img_count]
  exact State.steps_to_log _ _

theorem resized_while_waiting_iff (env : RebuildEnv) (fuel : Nat) :
    (((env.sizes 0).1 = 0 ∨ (env.sizes 0).2 = 0) ∧ ∃ i, i < fuel ∧
      (∀ j, j < i → (env.sizes (1 + j)).1 = 0 ∨ (env.sizes (1 + j)).2 = 0) ∧
      env.resized (1 + i) = true) ↔ env.resized_while_waiting fuel := by
  unfold RebuildEnv.resized_while_waiting
  constructor
  · rintro ⟨h0, i, hi, hall, hr⟩
    refine ⟨1 + i, by omega, by omega, ?_, hr⟩
    intro j hj
    cases j with
    | zero => exact h0
    | succ j =>
      rw [show j + 1 = 1 + j by omega]
      exact hall j (by omega)
  · rintro ⟨q, hq1, hq, hall, hr⟩
    obtain ⟨i, rfl⟩ : ∃ i, q = 1 + i := ⟨q - 1, by omega⟩
    exact ⟨hall 0 (by omega), i, by omega, fun j hj => hall (1 + j) (by omega), hr⟩

/-- The shape of every run of `recreate_swap_chain`: after the entry and the
first size query come the polls of the `while` loop, size queries and event
waits only, and then, unless the window stayed empty, the rest: build calls
whose calls of the rebuild protocol are a beginning of `rebuild_protocol`,
all of it when the function returns. The rest is non-empty only after a size
query that reported a nonzero width and height. Of the variables of the frame
loop only `framebuffer_resized` is written, by the resize callback: it ends
as `b`, set exactly when it was set before or a wait ran the callback. -/
theorem recreate_swap_chain_shape (fuel : Nat) (env : RebuildEnv) (s : State) :
    ∃ (polls rest : List Call) (b : Bool),
      (s.set_framebuffer_resized b).steps_to ([Call.enter_recreate_swap_chain,
          Call.glfwGetFramebufferSize (env.sizes 0).1 (env.sizes 0).2] ++ polls ++ rest)
        (recreate_swap_chain fuel env s).state ∧
      (b = true ↔ s.framebuffer_resized = true ∨ env.resized_while_waiting fuel) ∧
      (∀ c ∈ polls, c = Call.glfwWaitEvents ∨ ∃ w h, c = Call.glfwGetFramebufferSize w h) ∧
      (∀ c ∈ rest, c.is_build_call = true) ∧
      (rest ≠ [] → ∃ w h, Call.glfwGetFramebufferSize w h ∈
        Call.glfwGetFramebufferSize (env.sizes 0).1 (env.sizes 0).2 :: polls ∧ w ≠ 0 ∧ h ≠ 0) ∧
      (∃ info, rest.filter Call.is_lifecycle <+:
        rebuild_protocol s.swap_chain_img_count info env.swap.images.length) ∧
      ((recreate_swap_chain fuel env s).ending = .returned →
        ∃ info, rest.filter Call.is_lifecycle =
          rebuild_protocol s.swap_chain_img_count info env.swap.images.length) ∧
      ((recreate_swap_chain fuel env s).ending = .stalled → rest = []) ∧
      ((recreate_swap_chain fuel env s).ending ≠ .stalled → Call.vkDeviceWaitIdle ∈ rest) ∧
      (recreate_swap_chain fuel env s).ending ≠ .hung := by
  obtain ⟨polls, b, hpolls, hb, hwait⟩ := recreate_swap_chain_wait_shape env.sizes env.resized
    fuel 1 (env.sizes 0).1 (env.sizes 0).2
    ((s.log [Call.enter_recreate_swap_chain]).log
      [Call.glfwGetFramebufferSize (env.sizes 0).1 (env.sizes 0).2])
  have hb' : b = true ↔ s.framebuffer_resized = true ∨ env.resized_while_waiting fuel := by
    rw [hb, resized_while_waiting_iff]
    rfl
  have hstate : ((((s.log [Call.enter_recreate_swap_chain]).log
      [Call.glfwGetFramebufferSize (env.sizes 0).1 (env.sizes 0).2]).log
      polls).set_framebuffer_resized b) =
      ((((s.set_framebuffer_resized b).log [Call.enter_recreate_swap_chain]).log
        [Call.glfwGetFramebufferSize (env.sizes 0).1 (env.sizes 0).2]).log polls) := rfl
  rw [hstate] at hwait
  generalize hs0 : s.set_framebuffer_resized b = s0 at hwait
  have hcount : s0.swap_chain_img_count = s.swap_chain_img_count := by
    rw [← hs0]
    rfl
  rcases hwait with ⟨hret, hnz⟩ | hst
  · obtain ⟨calls, hsteps, hbuild, hpre, hfull, hns, hnh⟩ := rebuild_tail_shape env
      (cleanup_swap_chain ((((s0.log [Call.enter_recreate_swap_chain]).log
        [Call.glfwGetFramebufferSize (env.sizes 0).1 (env.sizes 0).2]).log polls).log
        [Call.vkDeviceWaitIdle]))
    have hrec : recreate_swap_chain fuel env s =
        (create_swap_chain env.swap (cleanup_swap_chain ((((s0.log
          [Call.enter_recreate_swap_chain]).log
          [Call.glfwGetFramebufferSize (env.sizes 0).1 (env.sizes 0).2]).log polls).log
          [Call.vkDeviceWaitIdle]))).bind fun s =>
        (create_img_views env.img_view_results s).bind fun s =>
          create_framebuffers env.framebuffer_results s := by
      simp only [recreate_swap_chain, hret, Outcome.bind]
    have hclean : s0.steps_to ([Call.enter_recreate_swap_chain,
          Call.glfwGetFramebufferSize (env.sizes 0).1 (env.sizes 0).2] ++ polls ++
          ([Call.vkDeviceWaitIdle] ++
            (List.range s.swap_chain_img_count).map Call.vkDestroyFramebuffer ++
            (List.range s.swap_chain_img_count).map Call.vkDestroyImageView ++
            [Call.vkDestroySwapchainKHR]))
        (cleanup_swap_chain ((((s0.log [Call.enter_recreate_swap_chain]).log
          [Call.glfwGetFramebufferSize (env.sizes 0).1 (env.sizes 0).2]).log polls).log
          [Call.vkDeviceWaitIdle])) :=
      by
        have h := State.steps_to_trans _ _ _ _ _
          (State.steps_to_trans _ _ _ _ _
            (State.steps_to_log s0 [Call.enter_recreate_swap_chain,
              Call.glfwGetFramebufferSize (env.sizes 0).1 (env.sizes 0).2])
            (State.steps_to_log _ (polls ++ [Call.vkDeviceWaitIdle])))
          (cleanup_swap_chain_steps _)
        simp only [State.log_log, State.log_swap_chain_img_count, List.append_assoc,
          List.cons_append, List.nil_append, hcount] at h ⊢
        exact h
    have hteardown := teardown_calls s.swap_chain_img_count
    have hfilter : ∀ l : List Call,
        (([Call.vkDeviceWaitIdle] ++
          (List.range s.swap_chain_img_count).map Call.vkDestroyFramebuffer ++
          (List.range s.swap_chain_img_count).map Call.vkDestroyImageView ++
          [Call.vkDestroySwapchainKHR]) ++ l).filter Call.is_lifecycle =
        ([Call.vkDeviceWaitIdle] ++
          (List.range s.swap_chain_img_count).map Call.vkDestroyFramebuffer ++
          (List.range s.swap_chain_img_count).map Call.vkDestroyImageView ++
          [Call.vkDestroySwapchainKHR]) ++ l.filter Call.is_lifecycle := by
      intro l
      rw [List.filter_append, List.filter_eq_self.mpr (fun c hc => (hteardown c hc).1)]
    rw [hrec]
    refine ⟨polls, ([Call.vkDeviceWaitIdle] ++
          (List.range s.swap_chain_img_count).map Call.vkDestroyFramebuffer ++
          (List.range s.swap_chain_img_count).map Call.vkDestroyImageView ++
          [Call.vkDestroySwapchainKHR]) ++ calls, b, ?_, hb', hpolls, ?_, ?_, ?_, ?_, ?_, ?_,
          hnh⟩
    · have h := State.steps_to_trans _ _ _ _ _ hclean hsteps
      rw [List.append_assoc] at h
      rw [hs0]
      exact h
    · intro c hc
      rcases List.mem_append.mp hc with hc | hc
      · exact (hteardown c hc).2
      · exact hbuild c hc
    · intro _
      rcases hnz with ⟨hw, hh, _⟩ | ⟨w', h', hmem, hw, hh⟩
      · exact ⟨_, _, List.mem_cons_self _ _, hw, hh⟩
      · exact ⟨w', h', List.mem_cons_of_mem _ hmem, hw, hh⟩
    · obtain ⟨info, hinfo⟩ := hpre
      refine ⟨info, ?_⟩
      rw [hfilter, rebuild_protocol_eq]
      exact (List.prefix_append_right_inj _).mpr hinfo
    · intro hend
      obtain ⟨info, hinfo⟩ := hfull hend
      refine ⟨info, ?_⟩
      rw [hfilter, rebuild_protocol_eq, hinfo]
    · intro hend
      exact absurd hend hns
    · intro _
      simp
  · have hrec : recreate_swap_chain fuel env s =
        .stalled ((((s0.log [Call.enter_recreate_swap_chain]).log
          [Call.glfwGetFramebufferSize (env.sizes 0).1 (env.sizes 0).2]).log polls)) := by
      simp only [recreate_swap_chain, hst, Outcome.bind]
    rw [hrec]
    refine ⟨polls, [], b, by rw [hs0]; exact ⟨by simp [Outcome.state], rfl, rfl, rfl, rfl⟩,
      hb', hpolls, by simp,
      by simp, ⟨swap_chain_create_info s.queue_indices env.swap.capabilities
        { format := 0, colorSpace := 0 } 0 { width := 0, height := 0 }, by simp⟩,
      by simp [Outcome.ending], by simp, by simp [Outcome.ending], by simp [Outcome.ending]⟩

/-- Function `recreate_swap_chain` is stalled exactly when its `while` loop
is: the build after the loop never stalls. -/
theorem recreate_swap_chain_stalled_iff (fuel : Nat) (env : RebuildEnv) (s : State) :
    (recreate_swap_chain fuel env s).ending = .stalled ↔
      (recreate_swap_chain_wait env.sizes env.resized fuel 1 (env.sizes 0).1 (env.sizes 0).2
        ((s.log [Call.enter_recreate_swap_chain]).log
          [Call.glfwGetFramebufferSize (env.sizes 0).1 (env.sizes 0).2])).ending = .stalled := by
  obtain ⟨polls, b, _, _, hwait⟩ := recreate_swap_chain_wait_shape env.sizes env.resized fuel 1
    (env.sizes 0).1 (env.sizes 0).2
    ((s.log [Call.enter_recreate_swap_chain]).log
      [Call.glfwGetFramebufferSize (env.sizes 0).1 (env.sizes 0).2])
  rcases hwait with ⟨hret, _⟩ | hst
  · obtain ⟨_, _, _, _, _, hns, _⟩ := rebuild_tail_shape env
      (cleanup_swap_chain (((((s.log [Call.enter_recreate_swap_chain]).log
        [Call.glfwGetFramebufferSize (env.sizes 0).1 (env.sizes 0).2]).log
        polls).set_framebuffer_resized b).log [Call.vkDeviceWaitIdle]))
    have hrec : recreate_swap_chain fuel env s =
        (create_swap_chain env.swap (cleanup_swap_chain (((((s.log
          [Call.enter_recreate_swap_chain]).log
          [Call.glfwGetFramebufferSize (env.sizes 0).1 (env.sizes 0).2]).log
          polls).set_framebuffer_resized b).log [Call.vkDeviceWaitIdle]))).bind fun s =>
        (create_img_views env.img_view_results s).bind fun s =>
          create_framebuffers env.framebuffer_results s := by
      simp only [recreate_swap_chain, hret, Outcome.bind]
    rw [hrec, hret]
    constructor
    · intro h; exact absurd h hns
    · intro h; simp [Outcome.ending] at h
  · have hrec : recreate_swap_chain fuel env s =
        .stalled (((((s.log [Call.enter_recreate_swap_chain]).log
          [Call.glfwGetFramebufferSize (env.sizes 0).1 (env.sizes 0).2]).log
          polls).set_framebuffer_resized b)) := by
      simp only [recreate_swap_chain, hst, Outcome.bind]
    rw [hrec, hst]

/-- C10: the rebuild protocol of `recreate_swap_chain` as a property of the
calls it appends to the trace, for every sequence `env.sizes` of framebuffer
sizes and every state. (1) Every device-idle wait, destroy or create call is
preceded by a size query that reported a nonzero width and a nonzero height.
(2) On every path those calls are, in order, a beginning of: wait for device
idle, destroy every framebuffer, destroy every image view, destroy the
swapchain, create the swapchain, create the image views, create the
framebuffers; and exactly that sequence when the function returns. (3) As
long as every size reported is empty the function stays in its loop and makes
none of these calls. (4) Once a reported size is nonzero in both directions
the function leaves the loop (given fuel for that many polls) and waits for
the device to be idle. -/
theorem recreate_swap_chain_protocol (fuel : Nat) (env : RebuildEnv) (s : State) :
    (∀ pre c post, added_calls s (recreate_swap_chain fuel env s) = pre ++ c :: post →
      c.is_lifecycle = true →
      ∃ w h, Call.glfwGetFramebufferSize w h ∈ pre ∧ w ≠ 0 ∧ h ≠ 0) ∧
    (∃ info, (added_calls s (recreate_swap_chain fuel env s)).filter Call.is_lifecycle <+:
      rebuild_protocol s.swap_chain_img_count info env.swap.images.length) ∧
    ((recreate_swap_chain fuel env s).ending = .returned →
      ∃ info, (added_calls s (recreate_swap_chain fuel env s)).filter Call.is_lifecycle =
        rebuild_protocol s.swap_chain_img_count info env.swap.images.length) ∧
    ((∀ n, n ≤ fuel → (env.sizes n).1 = 0 ∨ (env.sizes n).2 = 0) →
      (recreate_swap_chain fuel env s).ending = .stalled ∧
      (added_calls s (recreate_swap_chain fuel env s)).filter Call.is_lifecycle = []) ∧
    (∀ n, n ≤ fuel → (env.sizes n).1 ≠ 0 → (env.sizes n).2 ≠ 0 →
      (recreate_swap_chain fuel env s).ending ≠ .stalled ∧
      Call.vkDeviceWaitIdle ∈ added_calls s (recreate_swap_chain fuel env s)) := by
  obtain ⟨polls, rest, b, hsteps, _, hpolls, _, hnz, hpre, hfull, hstall, hgo, _⟩ :=
    recreate_swap_chain_shape fuel env s
  have hadd := added_calls_of_append s _ _ hsteps.1
  have hhead : ∀ c ∈ [Call.enter_recreate_swap_chain,
      Call.glfwGetFramebufferSize (env.sizes 0).1 (env.sizes 0).2] ++ polls,
      c.is_lifecycle = false := by
    intro c hc
    rcases List.mem_append.mp hc with hc | hc
    · simp only [List.mem_cons, List.mem_singleton, List.not_mem_nil, or_false] at hc
      rcases hc with rfl | rfl <;> rfl
    · rcases hpolls c hc with rfl | ⟨w, h, rfl⟩ <;> rfl
  have hhead_filter : ([Call.enter_recreate_swap_chain,
      Call.glfwGetFramebufferSize (env.sizes 0).1 (env.sizes 0).2] ++ polls).filter
      Call.is_lifecycle = [] := by
    apply List.filter_eq_nil_iff.mpr
    intro c hc
    simp [hhead c hc]
  have hfilter : (added_calls s (recreate_swap_chain fuel env s)).filter Call.is_lifecycle =
      rest.filter Call.is_lifecycle := by
    rw [hadd, List.filter_append, hhead_filter, List.nil_append]
  have hquery : rest ≠ [] → ∃ w h, Call.glfwGetFramebufferSize w h ∈
      [Call.enter_recreate_swap_chain,
        Call.glfwGetFramebufferSize (env.sizes 0).1 (env.sizes 0).2] ++ polls ∧
      w ≠ 0 ∧ h ≠ 0 := by
    intro hne
    obtain ⟨w, h, hmem, hw, hh⟩ := hnz hne
    exact ⟨w, h, List.mem_cons_of_mem _ hmem, hw, hh⟩
  refine ⟨?_, ?_, ?_, ?_, ?_⟩
  · intro pre c post hsplit hc
    rw [hadd] at hsplit
    rcases List.append_eq_append_iff.mp hsplit with ⟨a', hpre', hrest⟩ | ⟨c', hhd, hpost⟩
    · obtain ⟨w, h, hmem, hw, hh⟩ := hquery (by rw [hrest]; simp)
      exact ⟨w, h, by rw [hpre']; exact List.mem_append_left _ hmem, hw, hh⟩
    · cases c' with
      | nil =>
        simp only [List.nil_append] at hpost
        obtain ⟨w, h, hmem, hw, hh⟩ := hquery (by rw [← hpost]; simp)
        exact ⟨w, h, by rw [hhd, List.append_nil] at hmem; exact hmem, hw, hh⟩
      | cons d c'' =>
        have hd : d = c := by
          have := List.head_eq_of_cons_eq hpost
          exact this.symm
        have hmem : c ∈ [Call.enter_recreate_swap_chain,
            Call.glfwGetFramebufferSize (env.sizes 0).1 (env.sizes 0).2] ++ polls := by
          rw [hhd, hd]; simp
        rw [hhead c hmem] at hc
        cases hc
  · obtain ⟨info, hinfo⟩ := hpre
    exact ⟨info, by rw [hfilter]; exact hinfo⟩
  · intro hend
    obtain ⟨info, hinfo⟩ := hfull hend
    exact ⟨info, by rw [hfilter]; exact hinfo⟩
  · intro hall
    have hst : (recreate_swap_chain fuel env s).ending = .stalled := by
      rw [recreate_swap_chain_stalled_iff]
      apply recreate_swap_chain_wait_stalls
      · exact hall 0 (Nat.zero_le _)
      · intro n hn
        exact hall (1 + n) (by omega)
    refine ⟨hst, ?_⟩
    rw [hfilter, hstall hst]
    rfl
  · intro n hn hw hh
    have hns : (recreate_swap_chain fuel env s).ending ≠ .stalled := by
      rw [Ne, recreate_swap_chain_stalled_iff]
      cases n with
      | zero =>
        rw [recreate_swap_chain_wait_nonzero env.sizes env.resized fuel 1 _ _ _ hw hh]
        simp [Outcome.ending]
      | succ n =>
        rw [recreate_swap_chain_wait_returns env.sizes env.resized fuel 1 n _ _ _ (by omega)
          (by rw [Nat.add_comm 1 n]; exact hw) (by rw [Nat.add_comm 1 n]; exact hh)]
        simp
    refine ⟨hns, ?_⟩
    rw [hadd]
    exact List.mem_append_right _ (hgo hns)

/-- C10 on a window that is minimized for two size queries and 800x600 from
the third on: the whole trace of the rebuild, and the stall of a rebuild
whose window stays minimized. -/
theorem recreate_swap_chain_protocol_witness :
    added_calls (started 0 0) (recreate_swap_chain 5 minimized_then_restored (started 0 0)) =
      [Call.enter_recreate_swap_chain,
       Call.glfwGetFramebufferSize 0 0,
       Call.glfwGetFramebufferSize 0 0, Call.glfwWaitEvents,
       Call.glfwGetFramebufferSize 800 600, Call.glfwWaitEvents,
       Call.vkDeviceWaitIdle,
       Call.vkDestroyFramebuffer 0, Call.vkDestroyFramebuffer 1, Call.vkDestroyFramebuffer 2,
       Call.vkDestroyImageView 0, Call.vkDestroyImageView 1, Call.vkDestroyImageView 2,
       Call.vkDestroySwapchainKHR,
       Call.vkGetPhysicalDeviceSurfaceCapabilitiesKHR,
       Call.vkGetPhysicalDeviceSurfaceFormatsKHR, Call.vkGetPhysicalDeviceSurfaceFormatsKHR,
       Call.vkGetPhysicalDeviceSurfacePresentModesKHR,
       Call.vkGetPhysicalDeviceSurfacePresentModesKHR,
       Call.vkCreateSwapchainKHR (swap_chain_create_info (started 0 0).queue_indices
         caps_fixed_800x600 { format := 50, colorSpace := 0 } 2 { width := 800, height := 600 }),
       Call.vkGetSwapchainImagesKHR 3 false, Call.vkGetSwapchainImagesKHR 3 true,
       Call.vkCreateImageView 0, Call.vkCreateImageView 1, Call.vkCreateImageView 2,
       Call.vkCreateFramebuffer 0, Call.vkCreateFramebuffer 1, Call.vkCreateFramebuffer 2] ∧
    ((recreate_swap_chain 5 minimized_then_restored (started 0 0)).ending ≠ .stalled ∧
      Call.vkDeviceWaitIdle ∈
        added_calls (started 0 0)
          (recreate_swap_chain 5 minimized_then_restored (started 0 0))) ∧
    ((recreate_swap_chain 5 always_minimized (started 0 0)).ending = .stalled ∧
      (added_calls (started 0 0)
        (recreate_swap_chain 5 always_minimized (started 0 0))).filter Call.is_lifecycle = []) :=
  ⟨by decide,
   (recreate_swap_chain_protocol 5 minimized_then_restored (started 0 0)).2.2.2.2 2
     (by decide) (by decide) (by decide),
   (recreate_swap_chain_protocol 5 always_minimized (started 0 0)).2.2.2.1
     (fun _ _ => Or.inl rfl)⟩

/-! ### Frame loop -/

@[simp] theorem State.set_fence_trace (s : State) (k : Nat) (f : FenceState) :
    (s.set_fence k f).trace = s.trace := rfl

@[simp] theorem State.set_fence_framebuffer_resized (s : State) (k : Nat) (f : FenceState) :
    (s.set_fence k f).framebuffer_resized = s.framebuffer_resized := rfl

@[simp] theorem State.set_fence_current_frame (s : State) (k : Nat) (f : FenceState) :
    (s.set_fence k f).current_frame = s.current_frame := rfl

@[simp] theorem State.set_fence_in_flight_fences (s : State) (k : Nat) (f : FenceState) :
    (s.set_fence k f).in_flight_fences = Function.update s.in_flight_fences k f := rfl

@[simp] theorem State.set_fence_swap_chain_extent (s : State) (k : Nat) (f : FenceState) :
    (s.set_fence k f).swap_chain_extent = s.swap_chain_extent := rfl

theorem is_build_call_not_frame_work (c : Call) (h : c.is_build_call = true) :
    c.is_frame_work = false ∧ c ≠ Call.enter_recreate_swap_chain := by
  cases c <;> simp_all [Call.is_build_call, Call.is_frame_work, Call.is_lifecycle]

/-- Function `recreate_swap_chain` records its entry, then makes build calls
only, and never hangs. Of the variables of the frame loop it writes none but
`framebuffer_resized`, which is set at its end exactly when it was set at its
entry or the resize callback ran during a wait. -/
theorem recreate_swap_chain_frame (fuel : Nat) (env : RebuildEnv) (s : State) :
    ∃ calls : List Call,
      ((recreate_swap_chain fuel env s).state.trace =
          s.trace ++ Call.enter_recreate_swap_chain :: calls ∧
        ((recreate_swap_chain fuel env s).state.framebuffer_resized = true ↔
          s.framebuffer_resized = true ∨ env.resized_while_waiting fuel) ∧
        (recreate_swap_chain fuel env s).state.current_frame = s.current_frame ∧
        (recreate_swap_chain fuel env s).state.in_flight_fences = s.in_flight_fences ∧
        (recreate_swap_chain fuel env s).state.queue_indices = s.queue_indices) ∧
      (∀ c ∈ calls, c.is_build_call = true) ∧
      (recreate_swap_chain fuel env s).ending ≠ .hung := by
  obtain ⟨polls, rest, b, hsteps, hb, hpolls, hrest, _, _, _, _, _, hnh⟩ :=
    recreate_swap_chain_shape fuel env s
  obtain ⟨htr, hflag, hcur, hfen, hq⟩ := hsteps
  refine ⟨Call.glfwGetFramebufferSize (env.sizes 0).1 (env.sizes 0).2 :: polls ++ rest,
    ⟨by rw [htr]; simp, by rw [hflag]; exact hb, hcur, hfen, hq⟩, ?_, hnh⟩
  intro c hc
  rcases List.mem_append.mp hc with hc | hc
  · rcases List.mem_cons.mp hc with rfl | hc
    · rfl
    · rcases hpolls c hc with rfl | ⟨w, h, rfl⟩ <;> rfl
  · exact hrest c hc

/-- Sequencing with the advance of `current_frame` changes neither the trace,
nor the resize flag, nor the fences, nor the way the iteration ends. -/
theorem bind_advance (o : Outcome) :
    (o.bind fun s => .returned
      { s with current_frame := (s.current_frame + 1) % MAX_FRAMES_IN_FLIGHT }).state.trace =
      o.state.trace ∧
    (o.bind fun s => .returned
      { s with current_frame := (s.current_frame + 1) % MAX_FRAMES_IN_FLIGHT }
      ).state.framebuffer_resized = o.state.framebuffer_resized ∧
    (o.bind fun s => .returned
      { s with current_frame := (s.current_frame + 1) % MAX_FRAMES_IN_FLIGHT }
      ).state.in_flight_fences = o.state.in_flight_fences ∧
    (o.bind fun s => .returned
      { s with current_frame := (s.current_frame + 1) % MAX_FRAMES_IN_FLIGHT }).ending =
      o.ending := by
  cases o <;> exact ⟨rfl, rfl, rfl, rfl⟩

/-- The calls of `draw_frame` from the fence wait to the queue submission,
for frame slot `k`. -/
theorem draw_frame_reaches_present (fuel : Nat) (env : FrameEnv) (s : State)
    (hfence : s.in_flight_fences s.current_frame ≠ .dead)
    (hacq : env.acquire_result = VK_SUCCESS ∨ env.acquire_result = VK_SUBOPTIMAL_KHR) :
    ∃ s_pre : State,
      draw_frame fuel env s = draw_frame_present fuel env env.img_index s_pre ∧
      s_pre.trace = s.trace ++ ([Call.vkWaitForFences s.current_frame,
        Call.vkAcquireNextImageKHR s.current_frame,
        Call.vkResetFences s.current_frame,
        Call.vkResetCommandBuffer s.current_frame] ++
        record_command_buffer_calls env.begin_result env.end_result s.current_frame
          env.img_index s.swap_chain_extent ++
        [Call.vkQueueSubmit s.current_frame VK_PIPELINE_STAGE_COLOR_ATTACHMENT_OUTPUT_BIT
          s.current_frame s.current_frame s.current_frame] ++
        (if env.submit_result ≠ VK_SUCCESS then [Call.fprintf Diagnostic.warning_submit]
          else [])) ∧
      s_pre.framebuffer_resized = s.framebuffer_resized ∧
      s_pre.current_frame = s.current_frame ∧
      s_pre.in_flight_fences = Function.update s.in_flight_fences s.current_frame
        (if env.submit_result ≠ VK_SUCCESS then FenceState.dead else FenceState.pending) := by
  have hood : env.acquire_result ≠ VK_ERROR_OUT_OF_DATE_KHR := by
    rcases hacq with h | h <;> rw [h] <;> decide
  have hsoft : ¬ (env.acquire_result ≠ VK_SUCCESS ∧ env.acquire_result ≠ VK_SUBOPTIMAL_KHR) := by
    rcases hacq with h | h <;> simp [h]
  refine ⟨draw_frame_record_submit env
    (((s.log [Call.vkWaitForFences s.current_frame]).set_fence s.current_frame
      FenceState.signaled).log [Call.vkAcquireNextImageKHR s.current_frame]), ?_, ?_, ?_, ?_, ?_⟩
  · simp only [draw_frame, State.log_in_flight_fences, State.log_current_frame, hfence,
      if_false, State.set_fence_current_frame, hood, hsoft]
  · by_cases hs : env.submit_result = VK_SUCCESS
    · simp [draw_frame_record_submit, record_command_buffer, hs, List.append_assoc]
    · simp [draw_frame_record_submit, record_command_buffer, hs, List.append_assoc]
  · by_cases hs : env.submit_result = VK_SUCCESS
    · simp [draw_frame_record_submit, record_command_buffer, hs]
    · simp [draw_frame_record_submit, record_command_buffer, hs]
  · by_cases hs : env.submit_result = VK_SUCCESS
    · simp [draw_frame_record_submit, record_command_buffer, hs]
    · simp [draw_frame_record_submit, record_command_buffer, hs]
  · by_cases hs : env.submit_result = VK_SUCCESS
    · simp [draw_frame_record_submit, record_command_buffer, hs]
    · simp [draw_frame_record_submit, record_command_buffer, hs]

theorem bind_advance_current_frame (o : Outcome)
    (h : (o.bind fun s => .returned
      { s with current_frame := (s.current_frame + 1) % MAX_FRAMES_IN_FLIGHT }).ending =
      .returned) :
    (o.bind fun s => .returned
      { s with current_frame := (s.current_frame + 1) % MAX_FRAMES_IN_FLIGHT }
      ).state.current_frame = (o.state.current_frame + 1) % MAX_FRAMES_IN_FLIGHT := by
  cases o <;> first | rfl | simp [Outcome.bind, Outcome.ending] at h

/-- The three ways the present step of `draw_frame` goes, from the state `s`
at the call of `vkQueuePresentKHR` for image `j`. -/
theorem draw_frame_present_cases (fuel : Nat) (env : FrameEnv) (j : Nat) (s : State) :
    ((env.present_result = VK_ERROR_OUT_OF_DATE_KHR ∨ env.present_result = VK_SUBOPTIMAL_KHR ∨
        s.framebuffer_resized = true) ∧
      ∃ calls : List Call, (∀ c ∈ calls, c.is_build_call = true) ∧
        (draw_frame_present fuel env j s).state.trace =
          s.trace ++ ([Call.vkQueuePresentKHR s.current_frame j,
            Call.enter_recreate_swap_chain] ++ calls) ∧
        ((draw_frame_present fuel env j s).state.framebuffer_resized = true ↔
          env.rebuild.resized_while_waiting fuel) ∧
        (draw_frame_present fuel env j s).state.in_flight_fences = s.in_flight_fences ∧
        (draw_frame_present fuel env j s).ending ≠ .hung ∧
        ((draw_frame_present fuel env j s).ending = .returned →
          (draw_frame_present fuel env j s).state.current_frame =
            (s.current_frame + 1) % MAX_FRAMES_IN_FLIGHT)) ∨
    (¬ (env.present_result = VK_ERROR_OUT_OF_DATE_KHR ∨
        env.present_result = VK_SUBOPTIMAL_KHR ∨ s.framebuffer_resized = true) ∧
      env.present_result ≠ VK_SUCCESS ∧
      draw_frame_present fuel env j s =
        .returned (s.log [Call.vkQueuePresentKHR s.current_frame j,
          Call.fprintf Diagnostic.warning_present])) ∨
    (¬ (env.present_result = VK_ERROR_OUT_OF_DATE_KHR ∨
        env.present_result = VK_SUBOPTIMAL_KHR ∨ s.framebuffer_resized = true) ∧
      env.present_result = VK_SUCCESS ∧
      draw_frame_present fuel env j s =
        .returned { s.log [Call.vkQueuePresentKHR s.current_frame j] with
          current_frame := (s.current_frame + 1) % MAX_FRAMES_IN_FLIGHT }) := by
  by_cases hcond : env.present_result = VK_ERROR_OUT_OF_DATE_KHR ∨
      env.present_result = VK_SUBOPTIMAL_KHR ∨ s.framebuffer_resized = true
  · left
    refine ⟨hcond, ?_⟩
    obtain ⟨calls, hsteps, hbuild, hnh⟩ := recreate_swap_chain_frame fuel env.rebuild
      { s.log [Call.vkQueuePresentKHR s.current_frame j] with framebuffer_resized := false }
    have hdef : draw_frame_present fuel env j s =
        (recreate_swap_chain fuel env.rebuild
          { s.log [Call.vkQueuePresentKHR s.current_frame j] with
            framebuffer_resized := false }).bind fun s => .returned
          { s with current_frame := (s.current_frame + 1) % MAX_FRAMES_IN_FLIGHT } := by
      simp only [draw_frame_present, State.log_framebuffer_resized, State.log_current_frame,
        hcond, if_true]
    obtain ⟨htr, hflag, hcur, hfen, _⟩ := hsteps
    obtain ⟨hbt, hbf, hbfen, hbe⟩ := bind_advance (recreate_swap_chain fuel env.rebuild
      { s.log [Call.vkQueuePresentKHR s.current_frame j] with framebuffer_resized := false })
    refine ⟨calls, hbuild, ?_, ?_, ?_, ?_, ?_⟩
    · rw [hdef, hbt, htr]
      simp
    · rw [hdef, hbf, hflag]
      simp
    · rw [hdef, hbfen, hfen]
      rfl
    · rw [hdef, hbe]
      exact hnh
    · intro hret
      rw [hdef] at hret ⊢
      rw [bind_advance_current_frame _ hret, hcur]
      rfl
  · right
    by_cases hr : env.present_result = VK_SUCCESS
    · right
      refine ⟨hcond, hr, ?_⟩
      simp only [draw_frame_present, State.log_framebuffer_resized, State.log_current_frame,
        if_neg hcond]
      simp only [hr, ne_eq, not_true_eq_false, if_false]
    · left
      refine ⟨hcond, hr, ?_⟩
      simp only [draw_frame_present, State.log_framebuffer_resized, State.log_current_frame,
        if_neg hcond]
      simp only [hr, ne_eq, not_false_eq_true, if_true, State.log_log, List.singleton_append]

theorem frame_calls_no_enter (env : FrameEnv) (k : Nat) (extent : VkExtent2D) :
    Call.enter_recreate_swap_chain ∉
      [Call.vkWaitForFences k, Call.vkAcquireNextImageKHR k, Call.vkResetFences k,
        Call.vkResetCommandBuffer k] ++
        record_command_buffer_calls env.begin_result env.end_result k env.img_index extent ++
        [Call.vkQueueSubmit k VK_PIPELINE_STAGE_COLOR_ATTACHMENT_OUTPUT_BIT k k k] ++
        (if env.submit_result ≠ VK_SUCCESS then [Call.fprintf Diagnostic.warning_submit]
          else []) := by
  unfold record_command_buffer_calls
  split_ifs <;> simp

theorem draw_frame_present_trace (fuel : Nat) (env : FrameEnv) (j : Nat) (s : State) :
    ∃ tail : List Call, (draw_frame_present fuel env j s).state.trace =
      s.trace ++ ([Call.vkQueuePresentKHR s.current_frame j] ++ tail) := by
  rcases draw_frame_present_cases fuel env j s with
    ⟨_, calls, _, htr, _⟩ | ⟨_, _, h⟩ | ⟨_, _, h⟩
  · exact ⟨Call.enter_recreate_swap_chain :: calls, by rw [htr]; simp⟩
  · exact ⟨[Call.fprintf Diagnostic.warning_present], by rw [h]; simp [Outcome.state]⟩
  · exact ⟨[], by rw [h]; simp [Outcome.state]⟩

/-- C7: the acquire step of `draw_frame`, from any state in which the wait on
the slot's fence returns. If `vkAcquireNextImageKHR` returns
`VK_ERROR_OUT_OF_DATE_KHR`, the rest of `draw_frame` is the call of
`recreate_swap_chain`: after the wait and the acquire the trace records the
entry into `recreate_swap_chain` and then no fence reset, no command buffer
reset or recording, no queue submission and no present, and the fence stays
signaled. If it returns any other result that is neither `VK_SUCCESS` nor
`VK_SUBOPTIMAL_KHR`, `draw_frame` returns after the wait, the acquire and one
warning, with no rebuild and none of those calls. If it returns `VK_SUCCESS`
or `VK_SUBOPTIMAL_KHR`, the iteration goes on to reset the fence, reset and
record the command buffer, submit and present. -/
theorem draw_frame_acquire_step (fuel : Nat) (env : FrameEnv) (s : State)
    (hfence : s.in_flight_fences s.current_frame ≠ .dead) :
    (env.acquire_result = VK_ERROR_OUT_OF_DATE_KHR →
      draw_frame fuel env s = recreate_swap_chain fuel env.rebuild
        (((s.log [Call.vkWaitForFences s.current_frame]).set_fence s.current_frame
          FenceState.signaled).log [Call.vkAcquireNextImageKHR s.current_frame]) ∧
      (∃ calls, added_calls s (draw_frame fuel env s) =
          [Call.vkWaitForFences s.current_frame, Call.vkAcquireNextImageKHR s.current_frame,
            Call.enter_recreate_swap_chain] ++ calls ∧
          ∀ c ∈ calls, c.is_frame_work = false) ∧
      (draw_frame fuel env s).state.in_flight_fences =
        Function.update s.in_flight_fences s.current_frame FenceState.signaled ∧
      (draw_frame fuel env s).state.current_frame = s.current_frame) ∧
    (env.acquire_result ≠ VK_ERROR_OUT_OF_DATE_KHR → env.acquire_result ≠ VK_SUCCESS →
      env.acquire_result ≠ VK_SUBOPTIMAL_KHR →
      (draw_frame fuel env s).ending = .returned ∧
      added_calls s (draw_frame fuel env s) =
        [Call.vkWaitForFences s.current_frame, Call.vkAcquireNextImageKHR s.current_frame,
          Call.fprintf Diagnostic.warning_acquire] ∧
      (draw_frame fuel env s).state.in_flight_fences =
        Function.update s.in_flight_fences s.current_frame FenceState.signaled ∧
      (draw_frame fuel env s).state.current_frame = s.current_frame) ∧
    (env.acquire_result = VK_SUCCESS ∨ env.acquire_result = VK_SUBOPTIMAL_KHR →
      ∃ tail, added_calls s (draw_frame fuel env s) =
        [Call.vkWaitForFences s.current_frame,
          Call.vkAcquireNextImageKHR s.current_frame,
          Call.vkResetFences s.current_frame,
          Call.vkResetCommandBuffer s.current_frame] ++
        record_command_buffer_calls env.begin_result env.end_result s.current_frame
          env.img_index s.swap_chain_extent ++
        [Call.vkQueueSubmit s.current_frame VK_PIPELINE_STAGE_COLOR_ATTACHMENT_OUTPUT_BIT
          s.current_frame s.current_frame s.current_frame] ++
        (if env.submit_result ≠ VK_SUCCESS then [Call.fprintf Diagnostic.warning_submit]
          else []) ++
        [Call.vkQueuePresentKHR s.current_frame env.img_index] ++ tail) := by
  refine ⟨?_, ?_, ?_⟩
  · intro hood
    have hdef : draw_frame fuel env s = recreate_swap_chain fuel env.rebuild
        (((s.log [Call.vkWaitForFences s.current_frame]).set_fence s.current_frame
          FenceState.signaled).log [Call.vkAcquireNextImageKHR s.current_frame]) := by
      simp only [draw_frame, State.log_in_flight_fences, State.log_current_frame, hfence,
        if_false, State.set_fence_current_frame, hood, if_true]
    obtain ⟨calls, ⟨htr, _, hcur, hfen, _⟩, hbuild, _⟩ := recreate_swap_chain_frame fuel
      env.rebuild (((s.log [Call.vkWaitForFences s.current_frame]).set_fence s.current_frame
          FenceState.signaled).log [Call.vkAcquireNextImageKHR s.current_frame])
    refine ⟨hdef, ⟨calls, ?_, fun c hc => (is_build_call_not_frame_work c (hbuild c hc)).1⟩,
      ?_, ?_⟩
    · apply added_calls_of_append
      rw [hdef, htr]
      simp
    · rw [hdef, hfen]
      rfl
    · rw [hdef, hcur]
      rfl
  · intro hood hs hsub
    have hdef : draw_frame fuel env s = .returned
        ((((s.log [Call.vkWaitForFences s.current_frame]).set_fence s.current_frame
          FenceState.signaled).log [Call.vkAcquireNextImageKHR s.current_frame]).log
          [Call.fprintf Diagnostic.warning_acquire]) := by
      simp only [draw_frame, State.log_in_flight_fences, State.log_current_frame, hfence,
        if_false, State.set_fence_current_frame, hood, hs, hsub, ne_eq, not_false_eq_true,
        and_self, if_true]
    refine ⟨by rw [hdef]; rfl, ?_, by rw [hdef]; rfl, by rw [hdef]; rfl⟩
    apply added_calls_of_append
    rw [hdef]
    simp [Outcome.state]
  · intro hacq
    obtain ⟨s_pre, hdef, htr, _, hcur, _⟩ := draw_frame_reaches_present fuel env s hfence hacq
    obtain ⟨tail, htail⟩ := draw_frame_present_trace fuel env env.img_index s_pre
    refine ⟨tail, ?_⟩
    apply added_calls_of_append
    rw [hdef, htail, htr, hcur]
    simp [List.append_assoc]

/-- C7 on an acquire that reports the swapchain out of date while the window
is 800x600 after two empty polls: the rebuild runs and the iteration makes no
frame-work call. -/
theorem draw_frame_acquire_step_witness :
    ∃ calls, added_calls (started 0 0)
        (draw_frame 5 { frame_ok 1 with acquire_result := VK_ERROR_OUT_OF_DATE_KHR }
          (started 0 0)) =
        [Call.vkWaitForFences 0, Call.vkAcquireNextImageKHR 0,
          Call.enter_recreate_swap_chain] ++ calls ∧
      ∀ c ∈ calls, c.is_frame_work = false :=
  ((draw_frame_acquire_step 5 { frame_ok 1 with acquire_result := VK_ERROR_OUT_OF_DATE_KHR }
    (started 0 0) (by decide)).1 rfl).2.1

/-- When the present step of `draw_frame` calls `recreate_swap_chain`, it has
cleared `framebuffer_resized` first. -/
theorem draw_frame_present_rebuild_eq (fuel : Nat) (env : FrameEnv) (j : Nat) (s : State)
    (hcond : env.present_result = VK_ERROR_OUT_OF_DATE_KHR ∨
      env.present_result = VK_SUBOPTIMAL_KHR ∨ s.framebuffer_resized = true) :
    draw_frame_present fuel env j s =
      (recreate_swap_chain fuel env.rebuild
        { s.log [Call.vkQueuePresentKHR s.current_frame j] with
          framebuffer_resized := false }).bind fun s => .returned
        { s with current_frame := (s.current_frame + 1) % MAX_FRAMES_IN_FLIGHT } := by
  simp only [draw_frame_present, State.log_framebuffer_resized, State.log_current_frame,
    hcond, if_true]

/-- C8 (counterexample): from the state after start-up, an iteration whose
present is suboptimal while the window is minimized, where the second
`glfwWaitEvents` of the rebuild delivers a resize. `recreate_swap_chain` is
entered, `draw_frame` returns, and `framebuffer_resized` is set in the state
it ends in. -/
theorem framebuffer_resized_set_after_rebuild :
    Call.enter_recreate_swap_chain ∈ added_calls (started 0 0)
      (draw_frame 5 { frame_ok 1 with present_result := VK_SUBOPTIMAL_KHR,
                                      rebuild := restored_with_resize } (started 0 0)) ∧
    (draw_frame 5 { frame_ok 1 with present_result := VK_SUBOPTIMAL_KHR,
                                    rebuild := restored_with_resize } (started 0 0)).ending =
      .returned ∧
    (draw_frame 5 { frame_ok 1 with present_result := VK_SUBOPTIMAL_KHR,
                                    rebuild := restored_with_resize }
      (started 0 0)).state.framebuffer_resized = true := by
  decide

/-- C8 (amended): the present step of `draw_frame`, in every iteration that
reaches it (the wait on the slot's fence returns and the acquire result is
`VK_SUCCESS` or `VK_SUBOPTIMAL_KHR`), for every present result and every
value of the resize flag. `recreate_swap_chain` is entered if and only if the
present result is `VK_ERROR_OUT_OF_DATE_KHR` or `VK_SUBOPTIMAL_KHR` or
`framebuffer_resized` is set. When it is entered, it is entered from a state
in which `framebuffer_resized` has been cleared, and in the state `draw_frame`
ends in `framebuffer_resized` is set exactly when a call of `glfwWaitEvents`
made by that rebuild ran the resize callback; so it is false there when no
such call ran the callback, and when the first size query of the rebuild
reported a nonzero size. When `recreate_swap_chain` is not entered and the
present result is not `VK_SUCCESS`, `draw_frame` returns (no exit) after
writing the present warning, with `framebuffer_resized` and `current_frame`
unchanged. -/
theorem draw_frame_present_step (fuel : Nat) (env : FrameEnv) (s : State)
    (hfence : s.in_flight_fences s.current_frame ≠ .dead)
    (hacq : env.acquire_result = VK_SUCCESS ∨ env.acquire_result = VK_SUBOPTIMAL_KHR) :
    (Call.enter_recreate_swap_chain ∈ added_calls s (draw_frame fuel env s) ↔
      (env.present_result = VK_ERROR_OUT_OF_DATE_KHR ∨
        env.present_result = VK_SUBOPTIMAL_KHR ∨ s.framebuffer_resized = true)) ∧
    (Call.enter_recreate_swap_chain ∈ added_calls s (draw_frame fuel env s) →
      (∃ s_in : State, s_in.framebuffer_resized = false ∧
        draw_frame fuel env s =
          (recreate_swap_chain fuel env.rebuild s_in).bind fun s => .returned
            { s with current_frame := (s.current_frame + 1) % MAX_FRAMES_IN_FLIGHT }) ∧
      ((draw_frame fuel env s).state.framebuffer_resized = true ↔
        env.rebuild.resized_while_waiting fuel) ∧
      ((∀ q, env.rebuild.resized q = false) →
        (draw_frame fuel env s).state.framebuffer_resized = false) ∧
      ((env.rebuild.sizes 0).1 ≠ 0 → (env.rebuild.sizes 0).2 ≠ 0 →
        (draw_frame fuel env s).state.framebuffer_resized = false)) ∧
    (Call.enter_recreate_swap_chain ∉ added_calls s (draw_frame fuel env s) →
      env.present_result ≠ VK_SUCCESS →
      (draw_frame fuel env s).ending = .returned ∧
      (added_calls s (draw_frame fuel env s)).getLast? =
        some (Call.fprintf Diagnostic.warning_present) ∧
      (draw_frame fuel env s).state.framebuffer_resized = s.framebuffer_resized ∧
      (draw_frame fuel env s).state.current_frame = s.current_frame) := by
  obtain ⟨s_pre, hdef, htr, hflag, hcur, _⟩ := draw_frame_reaches_present fuel env s hfence hacq
  have hno := frame_calls_no_enter env s.current_frame s.swap_chain_extent
  generalize [Call.vkWaitForFences s.current_frame,
      Call.vkAcquireNextImageKHR s.current_frame,
      Call.vkResetFences s.current_frame,
      Call.vkResetCommandBuffer s.current_frame] ++
    record_command_buffer_calls env.begin_result env.end_result s.current_frame
      env.img_index s.swap_chain_extent ++
    [Call.vkQueueSubmit s.current_frame VK_PIPELINE_STAGE_COLOR_ATTACHMENT_OUTPUT_BIT
          s.current_frame s.current_frame s.current_frame] ++
    (if env.submit_result ≠ VK_SUCCESS then [Call.fprintf Diagnostic.warning_submit]
      else []) = P at htr hno
  rcases draw_frame_present_cases fuel env env.img_index s_pre with
    ⟨hcond, calls, _, hptr, hpflag, _⟩ | ⟨hcond, hr, h⟩ | ⟨hcond, hr, h⟩
  · have heq := draw_frame_present_rebuild_eq fuel env env.img_index s_pre hcond
    rw [hflag] at hcond
    have hmem : Call.enter_recreate_swap_chain ∈ added_calls s (draw_frame fuel env s) := by
      rw [added_calls_of_append s (draw_frame fuel env s) _
        (by rw [hdef, hptr, htr, List.append_assoc])]
      simp
    have hiff : (draw_frame fuel env s).state.framebuffer_resized = true ↔
        env.rebuild.resized_while_waiting fuel := by
      rw [hdef]
      exact hpflag
    have hfalse : ¬ env.rebuild.resized_while_waiting fuel →
        (draw_frame fuel env s).state.framebuffer_resized = false := by
      intro hn
      cases hv : (draw_frame fuel env s).state.framebuffer_resized with
      | false => rfl
      | true => exact absurd (hiff.mp hv) hn
    refine ⟨⟨fun _ => hcond, fun _ => hmem⟩, fun _ => ⟨⟨_, rfl, hdef.trans heq⟩, hiff, ?_, ?_⟩,
      ?_⟩
    · intro hall
      apply hfalse
      rintro ⟨q, _, _, _, hq⟩
      rw [hall q] at hq
      cases hq
    · intro hw hh
      apply hfalse
      rintro ⟨q, hq1, _, hzero, _⟩
      rcases hzero 0 (by omega) with h0 | h0
      · exact hw h0
      · exact hh h0
    · intro hnot
      exact absurd hmem hnot
  · rw [hflag] at hcond
    have hadd := added_calls_of_append s (draw_frame fuel env s) _
      (show (draw_frame fuel env s).state.trace = s.trace ++ (P ++
        [Call.vkQueuePresentKHR s_pre.current_frame env.img_index,
          Call.fprintf Diagnostic.warning_present]) by
        rw [hdef, h]
        simp only [Outcome.state, State.log_trace, htr, List.append_assoc])
    have hnot : Call.enter_recreate_swap_chain ∉ added_calls s (draw_frame fuel env s) := by
      rw [hadd]
      intro hmem
      rcases List.mem_append.mp hmem with hmem | hmem
      · exact hno hmem
      · simp at hmem
    refine ⟨⟨fun hmem => absurd hmem hnot, fun hc => absurd hc hcond⟩,
      fun hmem => absurd hmem hnot, ?_⟩
    intro _ _
    refine ⟨by rw [hdef, h]; rfl, ?_, by rw [hdef, h]; exact hflag, by rw [hdef, h]; exact hcur⟩
    rw [hadd, List.getLast?_append]
    rfl
  · rw [hflag] at hcond
    have hadd := added_calls_of_append s (draw_frame fuel env s) _
      (show (draw_frame fuel env s).state.trace = s.trace ++ (P ++
        [Call.vkQueuePresentKHR s_pre.current_frame env.img_index]) by
        rw [hdef, h]
        simp only [Outcome.state, State.log_trace, htr, List.append_assoc])
    have hnot : Call.enter_recreate_swap_chain ∉ added_calls s (draw_frame fuel env s) := by
      rw [hadd]
      intro hmem
      rcases List.mem_append.mp hmem with hmem | hmem
      · exact hno hmem
      · simp at hmem
    refine ⟨⟨fun hmem => absurd hmem hnot, fun hc => absurd hc hcond⟩,
      fun hmem => absurd hmem hnot, ?_⟩
    intro _ hne
    exact absurd hr hne

/-- C8 (amended) on four iterations from the state after start-up: a present
that is suboptimal and a present after a resize notification, both with a
rebuild during which no resize is delivered, which end with the flag clear; a
suboptimal present with a rebuild whose second wait delivers a resize, which
ends with the flag set; and a present that fails with
`VK_ERROR_DEVICE_LOST`. -/
theorem draw_frame_present_step_witness :
    (Call.enter_recreate_swap_chain ∈ added_calls (started 0 0)
        (draw_frame 5 { frame_ok 1 with present_result := VK_SUBOPTIMAL_KHR } (started 0 0)) ∧
      (draw_frame 5 { frame_ok 1 with present_result := VK_SUBOPTIMAL_KHR }
        (started 0 0)).state.framebuffer_resized = false) ∧
    (Call.enter_recreate_swap_chain ∈ added_calls (handle_framebuffer_resize (started 0 0))
        (draw_frame 5 (frame_ok 1) (handle_framebuffer_resize (started 0 0))) ∧
      (draw_frame 5 (frame_ok 1)
        (handle_framebuffer_resize (started 0 0))).state.framebuffer_resized = false) ∧
    (restored_with_resize.resized_while_waiting 5 ∧
      (draw_frame 5 { frame_ok 1 with present_result := VK_SUBOPTIMAL_KHR,
                                      rebuild := restored_with_resize }
        (started 0 0)).state.framebuffer_resized = true) ∧
    ((draw_frame 5 { frame_ok 1 with present_result := VK_ERROR_DEVICE_LOST }
        (started 0 0)).ending = .returned ∧
      (draw_frame 5 { frame_ok 1 with present_result := VK_ERROR_DEVICE_LOST }
        (started 0 0)).state.current_frame = 0) :=
  have h1 := draw_frame_present_step 5 { frame_ok 1 with present_result := VK_SUBOPTIMAL_KHR }
    (started 0 0) (by decide) (Or.inl rfl)
  have h2 := draw_frame_present_step 5 (frame_ok 1) (handle_framebuffer_resize (started 0 0))
    (by decide) (Or.inl rfl)
  have h3 := draw_frame_present_step 5
    { frame_ok 1 with present_result := VK_ERROR_DEVICE_LOST } (started 0 0) (by decide)
    (Or.inl rfl)
  have h4 := draw_frame_present_step 5
    { frame_ok 1 with present_result := VK_SUBOPTIMAL_KHR, rebuild := restored_with_resize }
    (started 0 0) (by decide) (Or.inl rfl)
  ⟨⟨h1.1.mpr (Or.inr (Or.inl rfl)),
     (h1.2.1 (h1.1.mpr (Or.inr (Or.inl rfl)))).2.2.1 (fun _ => rfl)⟩,
   ⟨h2.1.mpr (Or.inr (Or.inr rfl)),
     (h2.2.1 (h2.1.mpr (Or.inr (Or.inr rfl)))).2.2.1 (fun _ => rfl)⟩,
   ⟨⟨2, by decide, by decide, by decide, rfl⟩,
    (h4.2.1 (h4.1.mpr (Or.inr (Or.inl rfl)))).2.1.mpr ⟨2, by decide, by decide, by decide, rfl⟩⟩,
   ⟨(h3.2.2 (fun hmem => absurd (h3.1.mp hmem) (by decide)) (by decide)).1,
    (h3.2.2 (fun hmem => absurd (h3.1.mp hmem) (by decide)) (by decide)).2.2.2⟩⟩

/-- The fence of the current slot after an iteration of `draw_frame` that
gets past the fence wait: signaled when the iteration is abandoned at the
acquire, pending when the submission succeeded, dead when the submission
failed. No other fence is written. -/
theorem draw_frame_fences (fuel : Nat) (env : FrameEnv) (s : State)
    (hfence : s.in_flight_fences s.current_frame ≠ .dead) :
    (draw_frame fuel env s).state.in_flight_fences =
      Function.update s.in_flight_fences s.current_frame
        (if env.acquire_result = VK_SUCCESS ∨ env.acquire_result = VK_SUBOPTIMAL_KHR then
          (if env.submit_result ≠ VK_SUCCESS then FenceState.dead else FenceState.pending)
        else FenceState.signaled) := by
  by_cases hacq : env.acquire_result = VK_SUCCESS ∨ env.acquire_result = VK_SUBOPTIMAL_KHR
  · rw [if_pos hacq]
    obtain ⟨s_pre, hdef, _, _, _, hfen⟩ := draw_frame_reaches_present fuel env s hfence hacq
    rw [hdef, ← hfen]
    rcases draw_frame_present_cases fuel env env.img_index s_pre with
      ⟨_, _, _, _, _, h, _⟩ | ⟨_, _, h⟩ | ⟨_, _, h⟩
    · exact h
    · rw [h]; rfl
    · rw [h]; rfl
  · rw [if_neg hacq]
    by_cases hood : env.acquire_result = VK_ERROR_OUT_OF_DATE_KHR
    · have hdef : draw_frame fuel env s = recreate_swap_chain fuel env.rebuild
          (((s.log [Call.vkWaitForFences s.current_frame]).set_fence s.current_frame
            FenceState.signaled).log [Call.vkAcquireNextImageKHR s.current_frame]) := by
        simp only [draw_frame, State.log_in_flight_fences, State.log_current_frame, hfence,
          if_false, State.set_fence_current_frame, hood, if_true]
      obtain ⟨_, ⟨_, _, _, hfen, _⟩, _, _⟩ := recreate_swap_chain_frame fuel
        env.rebuild (((s.log [Call.vkWaitForFences s.current_frame]).set_fence s.current_frame
            FenceState.signaled).log [Call.vkAcquireNextImageKHR s.current_frame])
      rw [hdef, hfen]
      rfl
    · have hsoft : env.acquire_result ≠ VK_SUCCESS ∧ env.acquire_result ≠ VK_SUBOPTIMAL_KHR :=
        ⟨fun h => hacq (Or.inl h), fun h => hacq (Or.inr h)⟩
      have hdef : draw_frame fuel env s = .returned
          ((((s.log [Call.vkWaitForFences s.current_frame]).set_fence s.current_frame
            FenceState.signaled).log [Call.vkAcquireNextImageKHR s.current_frame]).log
            [Call.fprintf Diagnostic.warning_acquire]) := by
        simp only [draw_frame, State.log_in_flight_fences, State.log_current_frame, hfence,
          if_false, State.set_fence_current_frame, hood, hsoft, ne_eq, not_false_eq_true,
          and_self, if_true]
      rw [hdef]
      rfl

/-- Fence discipline as far as the code keeps it: from a state with no dead
fence, an iteration of `draw_frame` leaves no fence dead unless it reached
`vkQueueSubmit` and the submission failed; in that case the fence of the
current slot is dead afterwards. -/
theorem draw_frame_fence_discipline (fuel : Nat) (env : FrameEnv) (s : State)
    (hall : ∀ i, s.in_flight_fences i ≠ .dead) :
    ((¬ (env.acquire_result = VK_SUCCESS ∨ env.acquire_result = VK_SUBOPTIMAL_KHR) ∨
        env.submit_result = VK_SUCCESS) →
      ∀ i, (draw_frame fuel env s).state.in_flight_fences i ≠ .dead) ∧
    ((env.acquire_result = VK_SUCCESS ∨ env.acquire_result = VK_SUBOPTIMAL_KHR) →
      env.submit_result ≠ VK_SUCCESS →
      (draw_frame fuel env s).state.in_flight_fences s.current_frame = .dead) := by
  rw [draw_frame_fences fuel env s (hall s.current_frame)]
  constructor
  · intro hok i
    by_cases hi : i = s.current_frame
    · subst hi
      rw [Function.update_same]
      rcases hok with hacq | hsub
      · rw [if_neg hacq]; decide
      · by_cases hacq : env.acquire_result = VK_SUCCESS ∨
            env.acquire_result = VK_SUBOPTIMAL_KHR
        · rw [if_pos hacq, if_neg (not_not.mpr hsub)]; decide
        · rw [if_neg hacq]; decide
    · rw [Function.update_noteq hi]
      exact hall i
  · intro hacq hsub
    rw [Function.update_same, if_pos hacq, if_pos hsub]

/-- C9 (evaluation at the failing input): from the state after start-up, an
iteration of `draw_frame` in which the acquire succeeds and `vkQueueSubmit`
fails. `draw_frame` returns having reported the failure, and the remaining
steps were not skipped: it presented image 1 and advanced `current_frame` to
1. The fence of slot 0, reset before the submission, is left dead. After one
more iteration, which succeeds on slot 1, the third iteration waits on slot 0
again and hangs in `vkWaitForFences`. -/
theorem draw_frame_submit_failure_leaves_fence_dead :
    (draw_frame 5 (frame_submit_fails 1) (started 0 0)).ending = .returned ∧
    Call.fprintf Diagnostic.warning_submit ∈
      added_calls (started 0 0) (draw_frame 5 (frame_submit_fails 1) (started 0 0)) ∧
    Call.vkQueuePresentKHR 0 1 ∈
      added_calls (started 0 0) (draw_frame 5 (frame_submit_fails 1) (started 0 0)) ∧
    (draw_frame 5 (frame_submit_fails 1) (started 0 0)).state.current_frame = 1 ∧
    (draw_frame 5 (frame_submit_fails 1) (started 0 0)).state.in_flight_fences 0 = .dead ∧
    (main_loop_iterations 5 [frame_submit_fails 1, frame_ok 2, frame_ok 0]
      (started 0 0)).ending = .hung := by
  decide

/-! ### Present mode -/

theorem choose_swap_present_mode_loop_some (present_modes : List Nat) (m : Nat)
    (h : choose_swap_present_mode_loop present_modes = some m) :
    m = VK_PRESENT_MODE_MAILBOX_KHR ∧ VK_PRESENT_MODE_MAILBOX_KHR ∈ present_modes := by
  induction present_modes with
  | nil => simp [choose_swap_present_mode_loop] at h
  | cons a rest ih =>
    by_cases ha : a = VK_PRESENT_MODE_MAILBOX_KHR
    · have hm : a = m := by simpa [choose_swap_present_mode_loop, ha] using h
      exact ⟨by rw [← hm, ha], by rw [ha]; exact List.mem_cons_self _ _⟩
    · have hrest : choose_swap_present_mode_loop rest = some m := by
        simpa [choose_swap_present_mode_loop, ha] using h
      exact ⟨(ih hrest).1, List.mem_cons_of_mem _ (ih hrest).2⟩

theorem choose_swap_present_mode_loop_none (present_modes : List Nat)
    (h : choose_swap_present_mode_loop present_modes = none) :
    VK_PRESENT_MODE_MAILBOX_KHR ∉ present_modes := by
  induction present_modes with
  | nil => simp
  | cons a rest ih =>
    by_cases ha : a = VK_PRESENT_MODE_MAILBOX_KHR
    · simp [choose_swap_present_mode_loop, ha] at h
    · have hrest : choose_swap_present_mode_loop rest = none := by
        simpa [choose_swap_present_mode_loop, ha] using h
      intro hmem
      rcases List.mem_cons.mp hmem with hm | hm
      · exact ha hm.symm
      · exact ih hrest hm

/-- C16: for every list of supported present modes `choose_swap_present_mode`
returns `VK_PRESENT_MODE_MAILBOX_KHR` if that mode occurs in the list and
`VK_PRESENT_MODE_FIFO_KHR` otherwise, whether or not FIFO itself is in the
list; it never returns any other mode. -/
theorem choose_swap_present_mode_spec (present_modes : List Nat) :
    (VK_PRESENT_MODE_MAILBOX_KHR ∈ present_modes →
      choose_swap_present_mode present_modes = VK_PRESENT_MODE_MAILBOX_KHR) ∧
    (VK_PRESENT_MODE_MAILBOX_KHR ∉ present_modes →
      choose_swap_present_mode present_modes = VK_PRESENT_MODE_FIFO_KHR) ∧
    (choose_swap_present_mode present_modes = VK_PRESENT_MODE_MAILBOX_KHR ∨
      choose_swap_present_mode present_modes = VK_PRESENT_MODE_FIFO_KHR) := by
  cases hloop : choose_swap_present_mode_loop present_modes with
  | some m =>
    obtain ⟨hm, hmem⟩ := choose_swap_present_mode_loop_some present_modes m hloop
    have hres : choose_swap_present_mode present_modes = VK_PRESENT_MODE_MAILBOX_KHR := by
      simp [choose_swap_present_mode, hloop, hm]
    exact ⟨fun _ => hres, fun hnot => absurd hmem hnot, Or.inl hres⟩
  | none =>
    have hnot := choose_swap_present_mode_loop_none present_modes hloop
    have hres : choose_swap_present_mode present_modes = VK_PRESENT_MODE_FIFO_KHR := by
      simp [choose_swap_present_mode, hloop]
    exact ⟨fun hmem => absurd hmem hnot, fun _ => hres, Or.inr hres⟩

/-- C16 on three lists: immediate, mailbox and FIFO give mailbox; immediate
and FIFO give FIFO; immediate and relaxed FIFO, a list without FIFO, give
FIFO as well. -/
theorem choose_swap_present_mode_spec_witness :
    choose_swap_present_mode [0, 1, 2] = VK_PRESENT_MODE_MAILBOX_KHR ∧
    choose_swap_present_mode [0, 2] = VK_PRESENT_MODE_FIFO_KHR ∧
    choose_swap_present_mode [0, 3] = VK_PRESENT_MODE_FIFO_KHR :=
  ⟨(choose_swap_present_mode_spec [0, 1, 2]).1 (by decide),
   (choose_swap_present_mode_spec [0, 2]).2.1 (by decide),
   (choose_swap_present_mode_spec [0, 3]).2.1 (by decide)⟩

/-! ### Queue family indices -/

/-- What the loop of `find_queue_indices` leaves in `graphics_index`: the
value it had when no family from `i` on has graphics capability, else the
index of the last family that has it. -/
theorem find_queue_indices_loop_graphics (families : List QueueFamily) :
    ∀ (i : Nat) (q : QueueFamilyIndices),
      ((∀ f ∈ families, ¬ f.has_graphics) ∧
        (find_queue_indices_loop families i q).graphics_index = q.graphics_index) ∨
      (∃ (k : Nat) (f : QueueFamily), families[k]? = some f ∧ f.has_graphics ∧
        (∀ (j : Nat) (f' : QueueFamily), k < j → families[j]? = some f' → ¬ f'.has_graphics) ∧
        (find_queue_indices_loop families i q).graphics_index = ((i + k : Nat) : Int)) := by
  induction families with
  | nil => intro i q; left; exact ⟨by simp, rfl⟩
  | cons f rest ih =>
    intro i q
    have hstep : ∃ q2 : QueueFamilyIndices,
        find_queue_indices_loop (f :: rest) i q = find_queue_indices_loop rest (i + 1) q2 ∧
        q2.graphics_index = if f.has_graphics then (i : Int) else q.graphics_index := by
      refine ⟨_, rfl, ?_⟩
      by_cases hg : f.has_graphics <;> by_cases hp : f.presentation_support = true <;>
        simp [hg, hp]
    obtain ⟨q2, hloop, hq2⟩ := hstep
    rw [hloop]
    rcases ih (i + 1) q2 with ⟨hnone, heq⟩ | ⟨k, f', hk, hg', hlast, heq⟩
    · by_cases hg : f.has_graphics
      · right
        refine ⟨0, f, List.getElem?_cons_zero, hg, ?_, ?_⟩
        · intro j f'' hj hget
          obtain ⟨j', rfl⟩ := Nat.exists_eq_succ_of_ne_zero (Nat.ne_of_gt hj)
          rw [List.getElem?_cons_succ] at hget
          exact hnone f'' (List.getElem?_mem hget)
        · rw [heq, hq2, if_pos hg]
          simp
      · left
        refine ⟨?_, by rw [heq, hq2, if_neg hg]⟩
        intro f'' hmem
        rcases List.mem_cons.mp hmem with rfl | hmem
        · exact hg
        · exact hnone f'' hmem
    · right
      refine ⟨k + 1, f', by rw [List.getElem?_cons_succ]; exact hk, hg', ?_, ?_⟩
      · intro j f'' hj hget
        obtain ⟨j', rfl⟩ := Nat.exists_eq_succ_of_ne_zero (by omega : j ≠ 0)
        rw [List.getElem?_cons_succ] at hget
        exact hlast j' f'' (by omega) hget
      · rw [heq]
        congr 1
        omega

/-- What the loop of `find_queue_indices` leaves in `presentation_index`. -/
theorem find_queue_indices_loop_presentation (families : List QueueFamily) :
    ∀ (i : Nat) (q : QueueFamilyIndices),
      ((∀ f ∈ families, f.presentation_support = false) ∧
        (find_queue_indices_loop families i q).presentation_index = q.presentation_index) ∨
      (∃ (k : Nat) (f : QueueFamily), families[k]? = some f ∧ f.presentation_support = true ∧
        (∀ (j : Nat) (f' : QueueFamily), k < j → families[j]? = some f' →
          f'.presentation_support = false) ∧
        (find_queue_indices_loop families i q).presentation_index = ((i + k : Nat) : Int)) := by
  induction families with
  | nil => intro i q; left; exact ⟨by simp, rfl⟩
  | cons f rest ih =>
    intro i q
    have hstep : ∃ q2 : QueueFamilyIndices,
        find_queue_indices_loop (f :: rest) i q = find_queue_indices_loop rest (i + 1) q2 ∧
        q2.presentation_index =
          if f.presentation_support = true then (i : Int) else q.presentation_index := by
      refine ⟨_, rfl, ?_⟩
      by_cases hg : f.has_graphics <;> by_cases hp : f.presentation_support = true <;>
        simp [hg, hp]
    obtain ⟨q2, hloop, hq2⟩ := hstep
    rw [hloop]
    rcases ih (i + 1) q2 with ⟨hnone, heq⟩ | ⟨k, f', hk, hg', hlast, heq⟩
    · by_cases hp : f.presentation_support = true
      · right
        refine ⟨0, f, List.getElem?_cons_zero, hp, ?_, ?_⟩
        · intro j f'' hj hget
          obtain ⟨j', rfl⟩ := Nat.exists_eq_succ_of_ne_zero (Nat.ne_of_gt hj)
          rw [List.getElem?_cons_succ] at hget
          exact hnone f'' (List.getElem?_mem hget)
        · rw [heq, hq2, if_pos hp]
          simp
      · left
        refine ⟨?_, by rw [heq, hq2, if_neg hp]⟩
        intro f'' hmem
        rcases List.mem_cons.mp hmem with rfl | hmem
        · simpa using hp
        · exact hnone f'' hmem
    · right
      refine ⟨k + 1, f', by rw [List.getElem?_cons_succ]; exact hk, hg', ?_, ?_⟩
      · intro j f'' hj hget
        obtain ⟨j', rfl⟩ := Nat.exists_eq_succ_of_ne_zero (by omega : j ≠ 0)
        rw [List.getElem?_cons_succ] at hget
        exact hlast j' f'' (by omega) hget
      · rw [heq]
        congr 1
        omega

/-- C11 (counterexample): on a device whose families 0 and 1 both have
graphics capability and presentation support, the first such index is 0 and
`find_queue_indices` leaves 1 in both fields. -/
theorem find_queue_indices_not_first :
    (∃ f, two_capable_families[0]? = some f ∧ f.has_graphics ∧
      f.presentation_support = true) ∧
    (find_queue_indices two_capable_families).graphics_index = 1 ∧
    (find_queue_indices two_capable_families).presentation_index = 1 ∧
    (find_queue_indices two_capable_families).graphics_index ≠ 0 ∧
    (find_queue_indices two_capable_families).presentation_index ≠ 0 :=
  ⟨⟨{ queueFlags := 7, presentation_support := true }, rfl, by decide, rfl⟩,
    by decide, by decide, by decide, by decide⟩

/-- C11 (amended): for every list of queue families, `find_queue_indices`
sets `graphics_index` to the last (largest) family index with graphics
capability and, independently, `presentation_index` to the last (largest)
family index with presentation support; each is -1 exactly when no family has
the respective capability. -/
theorem find_queue_indices_spec (families : List QueueFamily) :
    ((find_queue_indices families).graphics_index = -1 ↔
      ∀ f ∈ families, ¬ f.has_graphics) ∧
    (∀ k : Nat, (find_queue_indices families).graphics_index = (k : Int) ↔
      ∃ f, families[k]? = some f ∧ f.has_graphics ∧
        ∀ (j : Nat) (f' : QueueFamily), k < j → families[j]? = some f' → ¬ f'.has_graphics) ∧
    ((find_queue_indices families).presentation_index = -1 ↔
      ∀ f ∈ families, f.presentation_support = false) ∧
    (∀ k : Nat, (find_queue_indices families).presentation_index = (k : Int) ↔
      ∃ f, families[k]? = some f ∧ f.presentation_support = true ∧
        ∀ (j : Nat) (f' : QueueFamily), k < j → families[j]? = some f' →
          f'.presentation_support = false) := by
  refine ⟨?_, ?_, ?_, ?_⟩
  · rcases find_queue_indices_loop_graphics families 0
        { graphics_index := -1, presentation_index := -1 } with
      ⟨hnone, heq⟩ | ⟨k0, f0, hk0, hg0, _, heq⟩
    · exact ⟨fun _ => hnone, fun _ => heq⟩
    · constructor
      · intro h
        rw [find_queue_indices, heq] at h
        omega
      · intro hnone
        exact absurd hg0 (hnone f0 (List.getElem?_mem hk0))
  · intro k
    rcases find_queue_indices_loop_graphics families 0
        { graphics_index := -1, presentation_index := -1 } with
      ⟨hnone, heq⟩ | ⟨k0, f0, hk0, hg0, hlast0, heq⟩
    · constructor
      · intro h
        rw [find_queue_indices, heq] at h
        simp only at h
        omega
      · rintro ⟨f, hk, hg, _⟩
        exact absurd hg (hnone f (List.getElem?_mem hk))
    · have hres : (find_queue_indices families).graphics_index = (k0 : Int) := by
        rw [find_queue_indices, heq]
        simp
      rw [hres]
      constructor
      · intro h
        have hk : k0 = k := by omega
        subst hk
        exact ⟨f0, hk0, hg0, hlast0⟩
      · rintro ⟨f, hk, hg, hlast⟩
        rcases Nat.lt_trichotomy k k0 with hlt | heq' | hgt
        · exact absurd hg0 (hlast k0 f0 hlt hk0)
        · rw [heq']
        · exact absurd hg (hlast0 k f hgt hk)
  · rcases find_queue_indices_loop_presentation families 0
        { graphics_index := -1, presentation_index := -1 } with
      ⟨hnone, heq⟩ | ⟨k0, f0, hk0, hg0, _, heq⟩
    · exact ⟨fun _ => hnone, fun _ => heq⟩
    · constructor
      · intro h
        rw [find_queue_indices, heq] at h
        omega
      · intro hnone
        rw [hnone f0 (List.getElem?_mem hk0)] at hg0
        cases hg0
  · intro k
    rcases find_queue_indices_loop_presentation families 0
        { graphics_index := -1, presentation_index := -1 } with
      ⟨hnone, heq⟩ | ⟨k0, f0, hk0, hg0, hlast0, heq⟩
    · constructor
      · intro h
        rw [find_queue_indices, heq] at h
        simp only at h
        omega
      · rintro ⟨f, hk, hg, _⟩
        rw [hnone f (List.getElem?_mem hk)] at hg
        cases hg
    · have hres : (find_queue_indices families).presentation_index = (k0 : Int) := by
        rw [find_queue_indices, heq]
        simp
      rw [hres]
      constructor
      · intro h
        have hk : k0 = k := by omega
        subst hk
        exact ⟨f0, hk0, hg0, hlast0⟩
      · rintro ⟨f, hk, hg, hlast⟩
        rcases Nat.lt_trichotomy k k0 with hlt | heq' | hgt
        · rw [hlast k0 f0 hlt hk0] at hg0
          cases hg0
        · rw [heq']
        · rw [hlast0 k f hgt hk] at hg
          cases hg

/-- C11 (amended) on a device with graphics on family 0 only and presentation
on family 1 only, and on a device with neither capability. -/
theorem find_queue_indices_spec_witness :
    (find_queue_indices split_families).graphics_index = 0 ∧
    (find_queue_indices split_families).presentation_index = 1 ∧
    (find_queue_indices compute_only_families).graphics_index = -1 ∧
    (find_queue_indices compute_only_families).presentation_index = -1 :=
  ⟨((find_queue_indices_spec split_families).2.1 0).mpr
      ⟨{ queueFlags := 7, presentation_support := false }, rfl, by decide, by
        intro j f' hj hget
        have hcases : j = 1 ∨ j = 2 ∨ 3 ≤ j := by omega
        rcases hcases with rfl | rfl | h
        · cases hget; decide
        · cases hget; decide
        · rw [List.getElem?_eq_none (by simpa [split_families] using h)] at hget
          cases hget⟩,
   ((find_queue_indices_spec split_families).2.2.2 1).mpr
      ⟨{ queueFlags := 6, presentation_support := true }, rfl, rfl, by
        intro j f' hj hget
        have hcases : j = 2 ∨ 3 ≤ j := by omega
        rcases hcases with rfl | h
        · cases hget; rfl
        · rw [List.getElem?_eq_none (by simpa [split_families] using h)] at hget
          cases hget⟩,
   (find_queue_indices_spec compute_only_families).1.mpr (by decide),
   (find_queue_indices_spec compute_only_families).2.2.1.mpr (by decide)⟩

/-! ### Memory types -/

/-- The mask test `type_filter & (1 << i)` of `create_buffer` is the test of
bit `i` of the mask, for the indices `i < 32`. -/
theorem and_shift_ne_zero_iff (type_filter i : Nat) (hi : i < 32) :
    type_filter &&& ((1 <<< i) % 4294967296) ≠ 0 ↔ type_filter.testBit i = true := by
  have hlt : 2 ^ i < 4294967296 := by
    have h := Nat.pow_lt_pow_right (show 1 < 2 by decide) hi
    exact h
  rw [Nat.one_shiftLeft, Nat.mod_eq_of_lt hlt]
  constructor
  · intro h
    obtain ⟨j, hj⟩ := Nat.ne_zero_implies_bit_true h
    rw [Nat.testBit_and, Nat.testBit_two_pow] at hj
    simp only [Bool.and_eq_true, decide_eq_true_eq] at hj
    rw [hj.2]
    exact hj.1
  · intro h hzero
    have hbit : (type_filter &&& 2 ^ i).testBit i = true := by
      rw [Nat.testBit_and, h, Nat.testBit_two_pow_self]
      rfl
    rw [hzero] at hbit
    simp at hbit

theorem memory_type_matches_iff (type_filter mem_flags i propertyFlags : Nat) (hi : i < 32) :
    memory_type_matches type_filter mem_flags i propertyFlags ↔
      (type_filter.testBit i = true ∧ propertyFlags &&& mem_flags = mem_flags) := by
  unfold memory_type_matches
  rw [and_shift_ne_zero_iff type_filter i hi]

/-- The memory-type loop from index `i` on: it runs to the end exactly when no
type matches, and otherwise leaves at the first type that matches. -/
theorem find_memory_type_loop_spec (type_filter mem_flags : Nat) (types : List Nat) :
    ∀ i : Nat,
      ((find_memory_type_loop type_filter mem_flags types i = none ∧
          ∀ (k : Nat) (flags : Nat), types[k]? = some flags →
            ¬ memory_type_matches type_filter mem_flags (i + k) flags) ∨
       (∃ (k : Nat) (flags : Nat),
          find_memory_type_loop type_filter mem_flags types i = some (i + k) ∧
          types[k]? = some flags ∧ memory_type_matches type_filter mem_flags (i + k) flags ∧
          ∀ (j : Nat) (flags' : Nat), j < k → types[j]? = some flags' →
            ¬ memory_type_matches type_filter mem_flags (i + j) flags')) := by
  induction types with
  | nil =>
    intro i
    left
    exact ⟨rfl, by simp⟩
  | cons a rest ih =>
    intro i
    by_cases ha : memory_type_matches type_filter mem_flags i a
    · right
      refine ⟨0, a, by simp [find_memory_type_loop, ha], List.getElem?_cons_zero,
        by simpa using ha, ?_⟩
      intro j _ hj
      omega
    · rcases ih (i + 1) with ⟨hnone, hall⟩ | ⟨k, flags, hsome, hk, hmatch, hfirst⟩
      · left
        refine ⟨by simp [find_memory_type_loop, ha, hnone], ?_⟩
        intro k flags hget
        cases k with
        | zero =>
          rw [List.getElem?_cons_zero] at hget
          cases hget
          exact ha
        | succ k =>
          rw [List.getElem?_cons_succ] at hget
          rw [show i + (k + 1) = i + 1 + k by omega]
          exact hall k flags hget
      · right
        refine ⟨k + 1, flags, ?_, by rw [List.getElem?_cons_succ]; exact hk, ?_, ?_⟩
        · simp only [find_memory_type_loop, ha, if_false, hsome]
          congr 1
          omega
        · rw [show i + (k + 1) = i + 1 + k by omega]
          exact hmatch
        · intro j flags' hj hget
          cases j with
          | zero =>
            rw [List.getElem?_cons_zero] at hget
            cases hget
            exact ha
          | succ j =>
            rw [List.getElem?_cons_succ] at hget
            rw [show i + (j + 1) = i + 1 + j by omega]
            exact hfirst j flags' (by omega) hget

@[simp] theorem State.set_buffer_trace (s : State) (b : Buf) (v : Option (List Nat)) :
    (s.set_buffer b v).trace = s.trace := by
  cases b <;> rfl

@[simp] theorem State.set_buffer_queue_indices (s : State) (b : Buf) (v : Option (List Nat)) :
    (s.set_buffer b v).queue_indices = s.queue_indices := by
  cases b <;> rfl

@[simp] theorem State.set_buffer_current_frame (s : State) (b : Buf) (v : Option (List Nat)) :
    (s.set_buffer b v).current_frame = s.current_frame := by
  cases b <;> rfl

@[simp] theorem State.set_buffer_in_flight_fences (s : State) (b : Buf)
    (v : Option (List Nat)) : (s.set_buffer b v).in_flight_fences = s.in_flight_fences := by
  cases b <;> rfl

@[simp] theorem State.set_buffer_swap_chain_img_count (s : State) (b : Buf)
    (v : Option (List Nat)) :
    (s.set_buffer b v).swap_chain_img_count = s.swap_chain_img_count := by
  cases b <;> rfl

@[simp] theorem State.buffer_set_buffer (s : State) (b : Buf) (v : Option (List Nat)) :
    (s.set_buffer b v).buffer b = v := by
  cases b <;> rfl

theorem State.buffer_set_buffer_of_ne (s : State) (b b' : Buf) (v : Option (List Nat))
    (h : b' ≠ b) : (s.set_buffer b v).buffer b' = s.buffer b' := by
  cases b <;> cases b' <;> first | rfl | exact absurd rfl h

@[simp] theorem State.buffer_log (s : State) (c : List Call) (b : Buf) :
    (s.log c).buffer b = s.buffer b := by
  cases b <;> rfl

theorem State.log_set_buffer (s : State) (b : Buf) (v : Option (List Nat)) (c : List Call) :
    (s.set_buffer b v).log c = (s.log c).set_buffer b v := by
  cases b <;> rfl

/-- Every way `create_buffer` can end, with the state it ends in. -/
theorem create_buffer_cases (memory_types : List Nat) (env : BufferEnv)
    (size usage_flags mem_flags : Nat) (buffer : Buf) (s : State) :
    (env.create_result ≠ VK_SUCCESS ∧
      create_buffer memory_types env size usage_flags mem_flags buffer s =
        .exited 1 (s.log [Call.init (.vkCreateBuffer buffer size usage_flags),
          Call.fprintf .error_create_buffer])) ∨
    (env.create_result = VK_SUCCESS ∧
      find_memory_type env.memoryTypeBits mem_flags memory_types = none ∧
      create_buffer memory_types env size usage_flags mem_flags buffer s =
        .exited 1 (s.log [Call.init (.vkCreateBuffer buffer size usage_flags),
          Call.init (.vkGetBufferMemoryRequirements buffer),
          Call.init .vkGetPhysicalDeviceMemoryProperties,
          Call.fprintf .error_memory_type])) ∨
    (∃ i, env.create_result = VK_SUCCESS ∧
      find_memory_type env.memoryTypeBits mem_flags memory_types = some i ∧
      env.alloc_result ≠ VK_SUCCESS ∧
      create_buffer memory_types env size usage_flags mem_flags buffer s =
        .exited 1 (s.log [Call.init (.vkCreateBuffer buffer size usage_flags),
          Call.init (.vkGetBufferMemoryRequirements buffer),
          Call.init .vkGetPhysicalDeviceMemoryProperties,
          Call.init (.vkAllocateMemory buffer env.mem_size i),
          Call.fprintf .error_allocate_memory])) ∨
    (∃ i, env.create_result = VK_SUCCESS ∧
      find_memory_type env.memoryTypeBits mem_flags memory_types = some i ∧
      env.alloc_result = VK_SUCCESS ∧
      create_buffer memory_types env size usage_flags mem_flags buffer s =
        .returned ((s.log [Call.init (.vkCreateBuffer buffer size usage_flags),
          Call.init (.vkGetBufferMemoryRequirements buffer),
          Call.init .vkGetPhysicalDeviceMemoryProperties,
          Call.init (.vkAllocateMemory buffer env.mem_size i),
          Call.init (.vkBindBufferMemory buffer)]).set_buffer buffer
            (if env.bind_result = VK_SUCCESS then
              some ((List.range size).map env.initial_bytes) else none))) := by
  by_cases hc : env.create_result = VK_SUCCESS
  · right
    cases hfind : find_memory_type env.memoryTypeBits mem_flags memory_types with
    | none =>
      left
      refine ⟨hc, rfl, ?_⟩
      simp only [create_buffer, hc, hfind, State.log_log]
      simp
    | some i =>
      right
      by_cases ha : env.alloc_result = VK_SUCCESS
      · right
        refine ⟨i, hc, rfl, ha, ?_⟩
        simp only [create_buffer, hc, hfind, ha, State.log_log]
        simp
      · left
        refine ⟨i, hc, rfl, ha, ?_⟩
        simp only [create_buffer, hc, hfind, State.log_log]
        simp [ha]
  · left
    refine ⟨hc, ?_⟩
    simp [create_buffer, hc, State.log_log]

/-- C14: the memory-type selection of `create_buffer`, for every list of at
most 32 memory types, every supported-types mask `env.memoryTypeBits` and all
requested property flags, once `vkCreateBuffer` has succeeded. The index
selected is `i` exactly when `i` is below the type count, bit `i` of the mask
is set, the flags of type `i` contain the requested flags, and no smaller
index satisfies both conditions; the index selected is the one passed to
`vkAllocateMemory`; and `create_buffer` exits with the memory-type error if
and only if no index satisfies both conditions. -/
theorem memory_type_selection (memory_types : List Nat) (env : BufferEnv)
    (size usage_flags mem_flags : Nat) (buffer : Buf) (s : State)
    (hcount : memory_types.length ≤ 32) (hcreate : env.create_result = VK_SUCCESS) :
    (∀ i, find_memory_type env.memoryTypeBits mem_flags memory_types = some i ↔
      (i < memory_types.length ∧ env.memoryTypeBits.testBit i = true ∧
        (∃ flags, memory_types[i]? = some flags ∧ flags &&& mem_flags = mem_flags) ∧
        ∀ (j : Nat) (flags' : Nat), j < i → memory_types[j]? = some flags' →
          ¬ (env.memoryTypeBits.testBit j = true ∧ flags' &&& mem_flags = mem_flags))) ∧
    (∀ i, find_memory_type env.memoryTypeBits mem_flags memory_types = some i →
      Call.init (.vkAllocateMemory buffer env.mem_size i) ∈
        added_calls s (create_buffer memory_types env size usage_flags mem_flags buffer s)) ∧
    (((create_buffer memory_types env size usage_flags mem_flags buffer s).ending = .exited 1 ∧
        Call.fprintf .error_memory_type ∈
          added_calls s (create_buffer memory_types env size usage_flags mem_flags buffer s)) ↔
      ∀ (i : Nat) (flags : Nat), memory_types[i]? = some flags →
        ¬ (env.memoryTypeBits.testBit i = true ∧ flags &&& mem_flags = mem_flags)) := by
  have hlt : ∀ (k : Nat) (flags : Nat), memory_types[k]? = some flags → k < 32 := by
    intro k flags hk
    have := (List.getElem?_eq_some.mp hk).1
    omega
  have hspec := find_memory_type_loop_spec env.memoryTypeBits mem_flags memory_types 0
  simp only [Nat.zero_add] at hspec
  refine ⟨?_, ?_, ?_⟩
  · intro i
    rcases hspec with ⟨hnone, hall⟩ | ⟨k, flags, hsome, hk, hmatch, hfirst⟩
    · constructor
      · intro h
        rw [find_memory_type, hnone] at h
        cases h
      · rintro ⟨_, hbit, ⟨flags, hget, hflags⟩, _⟩
        exact absurd ((memory_type_matches_iff _ _ _ _ (hlt i flags hget)).mpr ⟨hbit, hflags⟩)
          (hall i flags hget)
    · have hres : find_memory_type env.memoryTypeBits mem_flags memory_types = some k := hsome
      rw [hres]
      constructor
      · intro h
        have hki : k = i := by simpa using h
        subst hki
        have hm := (memory_type_matches_iff _ _ _ _ (hlt k flags hk)).mp hmatch
        refine ⟨(List.getElem?_eq_some.mp hk).1, hm.1, ⟨flags, hk, hm.2⟩, ?_⟩
        intro j flags' hj hget hboth
        exact hfirst j flags' hj hget
          ((memory_type_matches_iff _ _ _ _ (hlt j flags' hget)).mpr hboth)
      · rintro ⟨_, hbit, ⟨flags', hget, hflags⟩, hsmaller⟩
        rcases Nat.lt_trichotomy i k with hlt' | heq | hgt
        · exact absurd ((memory_type_matches_iff _ _ _ _ (hlt i flags' hget)).mpr
            ⟨hbit, hflags⟩) (hfirst i flags' hlt' hget)
        · rw [heq]
        · exact absurd ((memory_type_matches_iff _ _ _ _ (hlt k flags hk)).mp hmatch)
            (hsmaller k flags hgt hk)
  · intro i hfind
    rcases create_buffer_cases memory_types env size usage_flags mem_flags buffer s with
      ⟨hc, _⟩ | ⟨_, hnone, _⟩ | ⟨i', _, hsome, _, h⟩ | ⟨i', _, hsome, _, h⟩
    · exact absurd hcreate hc
    · rw [hnone] at hfind; cases hfind
    · rw [hsome] at hfind
      cases hfind
      rw [added_calls_of_append s _ _ (by rw [h]; rfl)]
      simp
    · rw [hsome] at hfind
      cases hfind
      rw [added_calls_of_append s _ _ (by rw [h]; simp [Outcome.state]; rfl)]
      simp
  · have hnone_iff : find_memory_type env.memoryTypeBits mem_flags memory_types = none ↔
        ∀ (i : Nat) (flags : Nat), memory_types[i]? = some flags →
          ¬ (env.memoryTypeBits.testBit i = true ∧ flags &&& mem_flags = mem_flags) := by
      rcases hspec with ⟨hnone, hall⟩ | ⟨k, flags, hsome, hk, hmatch, _⟩
      · refine ⟨fun _ i flags hget hboth => hall i flags hget
          ((memory_type_matches_iff _ _ _ _ (hlt i flags hget)).mpr hboth), fun _ => hnone⟩
      · constructor
        · intro h
          rw [find_memory_type, hsome] at h
          cases h
        · intro hall
          exact absurd ((memory_type_matches_iff _ _ _ _ (hlt k flags hk)).mp hmatch)
            (hall k flags hk)
    rw [← hnone_iff]
    rcases create_buffer_cases memory_types env size usage_flags mem_flags buffer s with
      ⟨hc, _⟩ | ⟨_, hnone, h⟩ | ⟨i', _, hsome, _, h⟩ | ⟨i', _, hsome, _, h⟩
    · exact absurd hcreate hc
    · refine ⟨fun _ => hnone, fun _ => ⟨by rw [h]; rfl, ?_⟩⟩
      rw [added_calls_of_append s _ _ (by rw [h]; rfl)]
      simp
    · constructor
      · rintro ⟨_, hmem⟩
        rw [added_calls_of_append s _ _ (by rw [h]; rfl)] at hmem
        simp at hmem
      · intro hnone
        rw [hsome] at hnone
        cases hnone
    · constructor
      · rintro ⟨hend, _⟩
        rw [h] at hend
        cases hend
      · intro hnone
        rw [hsome] at hnone
        cases hnone

/-- C14 on a device with a device-local type 0 and a host-visible,
host-coherent type 1, for a buffer that may live in either: the staging
request selects type 1 and the device-local request type 0; with a mask that
allows type 0 only, the staging request finds no type and `create_buffer`
exits. -/
theorem memory_type_selection_witness :
    find_memory_type 3 (VK_MEMORY_PROPERTY_HOST_VISIBLE_BIT |||
      VK_MEMORY_PROPERTY_HOST_COHERENT_BIT) two_memory_types = some 1 ∧
    Call.init (.vkAllocateMemory .staging_buffer 80 1) ∈ added_calls program_start
      (create_buffer two_memory_types (buffer_ok 80) 80 VK_BUFFER_USAGE_TRANSFER_SRC_BIT
        (VK_MEMORY_PROPERTY_HOST_VISIBLE_BIT ||| VK_MEMORY_PROPERTY_HOST_COHERENT_BIT)
        .staging_buffer program_start) ∧
    (create_buffer two_memory_types { buffer_ok 80 with memoryTypeBits := 1 } 80
        VK_BUFFER_USAGE_TRANSFER_SRC_BIT
        (VK_MEMORY_PROPERTY_HOST_VISIBLE_BIT ||| VK_MEMORY_PROPERTY_HOST_COHERENT_BIT)
        .staging_buffer program_start).ending = .exited 1 := by
  have h := memory_type_selection two_memory_types (buffer_ok 80) 80
    VK_BUFFER_USAGE_TRANSFER_SRC_BIT
    (VK_MEMORY_PROPERTY_HOST_VISIBLE_BIT ||| VK_MEMORY_PROPERTY_HOST_COHERENT_BIT)
    .staging_buffer program_start (by decide) rfl
  have h' := memory_type_selection two_memory_types { buffer_ok 80 with memoryTypeBits := 1 } 80
    VK_BUFFER_USAGE_TRANSFER_SRC_BIT
    (VK_MEMORY_PROPERTY_HOST_VISIBLE_BIT ||| VK_MEMORY_PROPERTY_HOST_COHERENT_BIT)
    .staging_buffer program_start (by decide) rfl
  refine ⟨by decide, h.2.1 1 (by decide), (h'.2.2.mpr ?_).1⟩
  intro i flags hget
  have hcases : i = 0 ∨ i = 1 ∨ 2 ≤ i := by omega
  rcases hcases with rfl | rfl | hi
  · cases hget; decide
  · cases hget; decide
  · rw [List.getElem?_eq_none (by simpa [two_memory_types] using hi)] at hget
    cases hget

/-! ### Upload -/

theorem create_vertex_buffer_eq (vertices : List Nat) (env : UploadEnv) (s : State) :
    create_vertex_buffer vertices env s =
      upload_buffer vertices VK_BUFFER_USAGE_VERTEX_BUFFER_BIT .vertex_buffer env s := rfl

theorem create_index_buffer_eq (indices : List Nat) (env : UploadEnv) (s : State) :
    create_index_buffer indices env s =
      upload_buffer indices VK_BUFFER_USAGE_INDEX_BUFFER_BIT .index_buffer env s := rfl

theorem fill_staging_buffer_trace (map_result : Int) (data : List Nat) (n : Nat) (s : State) :
    (fill_staging_buffer map_result data n s).trace =
      s.trace ++ [Call.init (.vkMapMemory .staging_buffer n),
        Call.init (.memcpy .staging_buffer n), Call.init (.vkUnmapMemory .staging_buffer)] := by
  unfold fill_staging_buffer
  split_ifs <;> simp

theorem fill_staging_buffer_current_frame (map_result : Int) (data : List Nat) (n : Nat)
    (s : State) : (fill_staging_buffer map_result data n s).current_frame = s.current_frame := by
  unfold fill_staging_buffer
  split_ifs <;> simp

theorem copy_buffer_trace (env : CopyEnv) (src dst : Buf) (size : Nat) (s : State) :
    (copy_buffer env src dst size s).trace =
      s.trace ++ [Call.init .copy_vkAllocateCommandBuffers,
        Call.init .copy_vkBeginCommandBuffer,
        Call.init (.vkCmdCopyBuffer src dst 0 0 size), Call.init .copy_vkEndCommandBuffer,
        Call.init .copy_vkQueueSubmit, Call.init .vkQueueWaitIdle,
        Call.init .vkFreeCommandBuffers] := by
  unfold copy_buffer
  simp only [State.log_trace]
  split_ifs
  · split <;> simp
  · simp

theorem copy_buffer_current_frame (env : CopyEnv) (src dst : Buf) (size : Nat) (s : State) :
    (copy_buffer env src dst size s).current_frame = s.current_frame := by
  unfold copy_buffer
  simp only [State.log_current_frame]
  split_ifs
  · split <;> simp
  · simp

theorem store_from_zero_whole (data : List Nat) (f : Nat → Nat) :
    store_from_zero data ((List.range data.length).map f) = data := by
  simp [store_from_zero]

theorem copy_region_whole (data : List Nat) (f : Nat → Nat) :
    copy_region 0 0 data.length data ((List.range data.length).map f) = data := by
  simp [copy_region]

/-- An upload returns exactly when both calls of `create_buffer` do; then its
calls are `upload_calls`, whatever the calls whose result the program does
not read report, the staging buffer is gone, and the destination buffer holds
the data if all those calls succeeded. Otherwise it exits with code 1. -/
theorem upload_buffer_shape (data : List Nat) (target_usage : Nat) (dst : Buf)
    (hdst : dst ≠ .staging_buffer) (env : UploadEnv) (s : State) :
    ((∃ i j, env.staging.create_result = VK_SUCCESS ∧ env.staging.alloc_result = VK_SUCCESS ∧
        env.dest.create_result = VK_SUCCESS ∧ env.dest.alloc_result = VK_SUCCESS ∧
        find_memory_type env.staging.memoryTypeBits (VK_MEMORY_PROPERTY_HOST_VISIBLE_BIT |||
          VK_MEMORY_PROPERTY_HOST_COHERENT_BIT) env.memory_types = some i ∧
        find_memory_type env.dest.memoryTypeBits VK_MEMORY_PROPERTY_DEVICE_LOCAL_BIT
          env.memory_types = some j ∧
        (upload_buffer data target_usage dst env s).ending = .returned ∧
        added_calls s (upload_buffer data target_usage dst env s) =
          upload_calls dst target_usage data.length env.staging.mem_size i
            env.dest.mem_size j ∧
        (env.unread_results_succeed →
          (upload_buffer data target_usage dst env s).state.buffer dst = some data) ∧
        (upload_buffer data target_usage dst env s).state.buffer .staging_buffer = none) ∨
      ((upload_buffer data target_usage dst env s).ending = .exited 1 ∧
        ¬ (env.staging.create_result = VK_SUCCESS ∧ env.staging.alloc_result = VK_SUCCESS ∧
          env.dest.create_result = VK_SUCCESS ∧ env.dest.alloc_result = VK_SUCCESS ∧
          (find_memory_type env.staging.memoryTypeBits (VK_MEMORY_PROPERTY_HOST_VISIBLE_BIT |||
            VK_MEMORY_PROPERTY_HOST_COHERENT_BIT) env.memory_types).isSome = true ∧
          (find_memory_type env.dest.memoryTypeBits VK_MEMORY_PROPERTY_DEVICE_LOCAL_BIT
            env.memory_types).isSome = true))) := by
  rcases create_buffer_cases env.memory_types env.staging data.length
      VK_BUFFER_USAGE_TRANSFER_SRC_BIT
      (VK_MEMORY_PROPERTY_HOST_VISIBLE_BIT ||| VK_MEMORY_PROPERTY_HOST_COHERENT_BIT)
      .staging_buffer s with
    ⟨hc, h⟩ | ⟨_, hnone, h⟩ | ⟨i, _, _, ha, h⟩ | ⟨i, hc, hsome, ha, h⟩
  · right
    exact ⟨by simp only [upload_buffer, h, Outcome.bind]; rfl, fun hall => hc hall.1⟩
  · right
    refine ⟨by simp only [upload_buffer, h, Outcome.bind]; rfl, fun hall => ?_⟩
    rw [hnone] at hall
    simp at hall
  · right
    exact ⟨by simp only [upload_buffer, h, Outcome.bind]; rfl, fun hall => ha hall.2.1⟩
  · generalize hs1 : fill_staging_buffer env.map_result data data.length
        ((s.log [Call.init (.vkCreateBuffer .staging_buffer data.length
            VK_BUFFER_USAGE_TRANSFER_SRC_BIT),
          Call.init (.vkGetBufferMemoryRequirements .staging_buffer),
          Call.init .vkGetPhysicalDeviceMemoryProperties,
          Call.init (.vkAllocateMemory .staging_buffer env.staging.mem_size i),
          Call.init (.vkBindBufferMemory .staging_buffer)]).set_buffer .staging_buffer
            (if env.staging.bind_result = VK_SUCCESS then
              some ((List.range data.length).map env.staging.initial_bytes) else none)) = s1
    have hup1 : upload_buffer data target_usage dst env s =
        (create_buffer env.memory_types env.dest data.length
          (VK_BUFFER_USAGE_TRANSFER_DST_BIT ||| target_usage)
          VK_MEMORY_PROPERTY_DEVICE_LOCAL_BIT dst s1).bind fun s =>
          .returned (destroy_staging_buffer
            (copy_buffer env.copy .staging_buffer dst data.length s)) := by
      simp only [upload_buffer, h, Outcome.bind, hs1]
    rcases create_buffer_cases env.memory_types env.dest data.length
        (VK_BUFFER_USAGE_TRANSFER_DST_BIT ||| target_usage)
        VK_MEMORY_PROPERTY_DEVICE_LOCAL_BIT dst s1 with
      ⟨hc2, h2⟩ | ⟨_, hnone2, h2⟩ | ⟨j, _, _, ha2, h2⟩ | ⟨j, hc2, hsome2, ha2, h2⟩
    · right
      exact ⟨by rw [hup1, h2]; rfl, fun hall => hc2 hall.2.2.1⟩
    · right
      refine ⟨by rw [hup1, h2]; rfl, fun hall => ?_⟩
      rw [hnone2] at hall
      simp at hall
    · right
      exact ⟨by rw [hup1, h2]; rfl, fun hall => ha2 hall.2.2.2.1⟩
    · left
      rw [hup1, h2]
      refine ⟨i, j, hc, ha, hc2, ha2, hsome, hsome2, rfl, ?_, ?_, ?_⟩
      · apply added_calls_of_append
        rw [← hs1]
        simp [Outcome.bind, Outcome.state, destroy_staging_buffer, copy_buffer_trace,
          fill_staging_buffer_trace, upload_calls, List.append_assoc]
      · rintro ⟨hb1, hm, hb2, hc1, hc2', hc3, hc4, hc5⟩
        rw [← hs1]
        cases dst <;>
          simp [Outcome.bind, Outcome.state, destroy_staging_buffer, copy_buffer,
            fill_staging_buffer, State.set_buffer, State.buffer, State.log,
            store_from_zero_whole, copy_region_whole, hb1, hm, hb2, hc1, hc2', hc3, hc4,
            hc5] at hdst ⊢
      · simp [Outcome.bind, Outcome.state, destroy_staging_buffer]

theorem mem_before_of_split {α : Type} (head tail pre post : List α) (c x : α)
    (h : head ++ tail = pre ++ c :: post) (hc : c ∉ head) (hx : x ∈ head) : x ∈ pre := by
  rcases List.append_eq_append_iff.mp h with ⟨a', hpre, _⟩ | ⟨c', hhead, hpost⟩
  · rw [hpre]
    exact List.mem_append_left _ hx
  · cases c' with
    | nil =>
      rw [List.append_nil] at hhead
      rw [← hhead]
      exact hx
    | cons d c'' =>
      have hd : c = d := List.head_eq_of_cons_eq hpost
      exact absurd (by rw [hhead, hd]; simp) hc

/-- In the calls of an upload, the staging buffer is destroyed and its memory
freed only after the copy was recorded and `vkQueueWaitIdle` was called. -/
theorem upload_calls_staging_released_last (dst : Buf) (target_usage size a i b j : Nat)
    (pre post : List Call) (c : Call)
    (hsplit : upload_calls dst target_usage size a i b j = pre ++ c :: post)
    (hc : c = Call.init (.vkDestroyBuffer .staging_buffer) ∨
      c = Call.init (.vkFreeMemory .staging_buffer)) :
    Call.init (.vkCmdCopyBuffer .staging_buffer dst 0 0 size) ∈ pre ∧
    Call.init .vkQueueWaitIdle ∈ pre := by
  have hshape : upload_calls dst target_usage size a i b j =
      (upload_calls dst target_usage size a i b j).take 20 ++
        [Call.init (.vkDestroyBuffer .staging_buffer),
         Call.init (.vkFreeMemory .staging_buffer)] := by
    simp [upload_calls]
  have hhead : c ∉ (upload_calls dst target_usage size a i b j).take 20 := by
    rcases hc with rfl | rfl <;> simp [upload_calls]
  rw [hshape] at hsplit
  exact ⟨mem_before_of_split _ _ _ _ _ _ hsplit hhead (by simp [upload_calls]),
    mem_before_of_split _ _ _ _ _ _ hsplit hhead (by simp [upload_calls])⟩

/-- C15 (counterexample): the upload of the 80 bytes of `vertices` on a device
where the `vkQueueSubmit` of `copy_buffer` fails with `VK_ERROR_DEVICE_LOST`
and every other call succeeds. `create_vertex_buffer` makes every call of the
sequence and returns, and the destination buffer holds the bytes its memory
was allocated with, not the source data. -/
theorem upload_returns_without_copy :
    (create_vertex_buffer vertices_le (upload_submit_fails 80) program_start).ending =
      .returned ∧
    added_calls program_start
        (create_vertex_buffer vertices_le (upload_submit_fails 80) program_start) =
      upload_calls .vertex_buffer VK_BUFFER_USAGE_VERTEX_BUFFER_BIT 80 80 1 80 0 ∧
    (create_vertex_buffer vertices_le (upload_submit_fails 80)
      program_start).state.vertex_buffer = some (List.replicate 80 170) ∧
    (create_vertex_buffer vertices_le (upload_submit_fails 80)
      program_start).state.vertex_buffer ≠ some vertices_le := by
  decide

/-- C15 (amended): the upload of the vertex data by `create_vertex_buffer` and
of the index data by `create_index_buffer`, with buffers as byte arrays.
Whenever the function returns, its calls are `upload_calls`: the staging
buffer and the device-local destination buffer are both created with the size
of the source data, the destination with the usage transfer-destination
together with the vertex (index) usage, and the copy covers that size from
offset 0 to offset 0; afterwards the staging buffer no longer exists, and the
bytes of the destination buffer are the source data provided every call whose
result the program does not read succeeded (`vkBindBufferMemory` for both
buffers, `vkMapMemory`, and `vkAllocateCommandBuffers`,
`vkBeginCommandBuffer`, `vkEndCommandBuffer`, `vkQueueSubmit` and
`vkQueueWaitIdle` in `copy_buffer`). In that sequence the staging buffer is
destroyed and its memory freed only after `vkQueueWaitIdle`. The function
returns whenever both buffers and both allocations succeed and both
memory-type selections find a type. -/
theorem upload_round_trip (data : List Nat) (env : UploadEnv) (s : State) :
    ((create_vertex_buffer data env s).ending = .returned →
      ∃ i j, added_calls s (create_vertex_buffer data env s) =
          upload_calls .vertex_buffer VK_BUFFER_USAGE_VERTEX_BUFFER_BIT data.length
            env.staging.mem_size i env.dest.mem_size j ∧
        (env.unread_results_succeed →
          (create_vertex_buffer data env s).state.vertex_buffer = some data) ∧
        (create_vertex_buffer data env s).state.staging_buffer = none) ∧
    ((create_index_buffer data env s).ending = .returned →
      ∃ i j, added_calls s (create_index_buffer data env s) =
          upload_calls .index_buffer VK_BUFFER_USAGE_INDEX_BUFFER_BIT data.length
            env.staging.mem_size i env.dest.mem_size j ∧
        (env.unread_results_succeed →
          (create_index_buffer data env s).state.index_buffer = some data) ∧
        (create_index_buffer data env s).state.staging_buffer = none) ∧
    (∀ (dst : Buf) (target_usage a i b j : Nat) (pre post : List Call) (c : Call),
      upload_calls dst target_usage data.length a i b j = pre ++ c :: post →
      (c = Call.init (.vkDestroyBuffer .staging_buffer) ∨
        c = Call.init (.vkFreeMemory .staging_buffer)) →
      Call.init (.vkCmdCopyBuffer .staging_buffer dst 0 0 data.length) ∈ pre ∧
      Call.init .vkQueueWaitIdle ∈ pre) ∧
    (env.staging.create_result = VK_SUCCESS → env.staging.alloc_result = VK_SUCCESS →
      env.dest.create_result = VK_SUCCESS → env.dest.alloc_result = VK_SUCCESS →
      (find_memory_type env.staging.memoryTypeBits (VK_MEMORY_PROPERTY_HOST_VISIBLE_BIT |||
        VK_MEMORY_PROPERTY_HOST_COHERENT_BIT) env.memory_types).isSome = true →
      (find_memory_type env.dest.memoryTypeBits VK_MEMORY_PROPERTY_DEVICE_LOCAL_BIT
        env.memory_types).isSome = true →
      (create_vertex_buffer data env s).ending = .returned ∧
      (create_index_buffer data env s).ending = .returned) := by
  refine ⟨?_, ?_, ?_, ?_⟩
  · intro hret
    rw [create_vertex_buffer_eq] at hret ⊢
    rcases upload_buffer_shape data VK_BUFFER_USAGE_VERTEX_BUFFER_BIT .vertex_buffer
        (by decide) env s with
      ⟨i, j, _, _, _, _, _, _, _, hcalls, hdst, hst⟩ | ⟨hex, _⟩
    · exact ⟨i, j, hcalls, hdst, hst⟩
    · rw [hex] at hret
      cases hret
  · intro hret
    rw [create_index_buffer_eq] at hret ⊢
    rcases upload_buffer_shape data VK_BUFFER_USAGE_INDEX_BUFFER_BIT .index_buffer
        (by decide) env s with
      ⟨i, j, _, _, _, _, _, _, _, hcalls, hdst, hst⟩ | ⟨hex, _⟩
    · exact ⟨i, j, hcalls, hdst, hst⟩
    · rw [hex] at hret
      cases hret
  · intro dst target_usage a i b j pre post c hsplit hc
    exact upload_calls_staging_released_last dst target_usage data.length a i b j pre post c
      hsplit hc
  · intro h1 h2 h3 h4 h5 h6
    constructor
    · rw [create_vertex_buffer_eq]
      rcases upload_buffer_shape data VK_BUFFER_USAGE_VERTEX_BUFFER_BIT .vertex_buffer
          (by decide) env s with
        ⟨_, _, _, _, _, _, _, _, hret, _⟩ | ⟨_, hnot⟩
      · exact hret
      · exact absurd ⟨h1, h2, h3, h4, h5, h6⟩ hnot
    · rw [create_index_buffer_eq]
      rcases upload_buffer_shape data VK_BUFFER_USAGE_INDEX_BUFFER_BIT .index_buffer
          (by decide) env s with
        ⟨_, _, _, _, _, _, _, _, hret, _⟩ | ⟨_, hnot⟩
      · exact hret
      · exact absurd ⟨h1, h2, h3, h4, h5, h6⟩ hnot

/-- C15 (amended) on the two arrays of the program as a little-endian machine
lays them out, on a device where every call succeeds: the 80 bytes of
`vertices` and the 12 bytes of `indices` arrive unchanged in the device-local
buffers. -/
theorem upload_round_trip_witness :
    (upload_ok 80).unread_results_succeed ∧
    ((create_vertex_buffer vertices_le (upload_ok 80) program_start).ending = .returned ∧
      (create_vertex_buffer vertices_le (upload_ok 80) program_start).state.vertex_buffer =
        some vertices_le ∧
      added_calls program_start (create_vertex_buffer vertices_le (upload_ok 80) program_start) =
        upload_calls .vertex_buffer VK_BUFFER_USAGE_VERTEX_BUFFER_BIT 80 80 1 80 0) ∧
    ((create_index_buffer indices_le (upload_ok 12) program_start).ending = .returned ∧
      (create_index_buffer indices_le (upload_ok 12) program_start).state.index_buffer =
        some indices_le) := by
  have hv := upload_round_trip vertices_le (upload_ok 80) program_start
  have hi := upload_round_trip indices_le (upload_ok 12) program_start
  have hvr := (hv.2.2.2 rfl rfl rfl rfl (by decide) (by decide)).1
  have hir := (hi.2.2.2 rfl rfl rfl rfl (by decide) (by decide)).2
  obtain ⟨_, _, _, hvb, _⟩ := hv.1 hvr
  obtain ⟨_, _, _, hib, _⟩ := hi.2.1 hir
  exact ⟨⟨rfl, rfl, rfl, rfl, rfl, rfl, rfl, rfl⟩,
    ⟨hvr, hvb ⟨rfl, rfl, rfl, rfl, rfl, rfl, rfl, rfl⟩, by decide⟩,
    ⟨hir, hib ⟨rfl, rfl, rfl, rfl, rfl, rfl, rfl, rfl⟩⟩⟩

/-! ### Start-up: queue families and the failure policy -/

/-- `init_vulkan` does not depend on the queue families of the device: no
function it calls reads them. -/
theorem init_vulkan_ignores_queue_families (env : InitEnv) (families : List QueueFamily)
    (s : State) :
    init_vulkan { env with queue_families := families } s = init_vulkan env s :=
  rfl

/-- The two guards of `create_logical_device` are fatal on an index below
zero, before any call is made. -/
theorem create_logical_device_guards (result : Int) (s : State)
    (h : s.queue_indices.graphics_index < 0 ∨ s.queue_indices.presentation_index < 0) :
    (create_logical_device result s).ending = .exited 1 ∧
    ∀ g p, Call.init (.vkCreateDevice g p) ∉
      added_calls s (create_logical_device result s) := by
  unfold create_logical_device
  by_cases hg : s.queue_indices.graphics_index < 0
  · simp [hg, Outcome.ending, added_calls, Outcome.state, State.log]
  · have hp : s.queue_indices.presentation_index < 0 := h.resolve_left hg
    simp [hg, hp, Outcome.ending, added_calls, Outcome.state, State.log]

/-- Past its guards, `create_logical_device` returns whatever `vkCreateDevice`
reports: a failure adds the error line between the creation call and the two
`vkGetDeviceQueue` calls and nothing else. -/
theorem create_logical_device_returns (result : Int) (s : State)
    (hg : 0 ≤ s.queue_indices.graphics_index) (hp : 0 ≤ s.queue_indices.presentation_index) :
    (create_logical_device result s).ending = .returned ∧
    added_calls s (create_logical_device result s) =
      [Call.init (.vkCreateDevice (to_u32 s.queue_indices.graphics_index)
        (to_u32 s.queue_indices.presentation_index))] ++
      (if result ≠ VK_SUCCESS then [Call.fprintf .error_create_device] else []) ++
      [Call.init (.vkGetDeviceQueue (to_u32 s.queue_indices.graphics_index)),
       Call.init (.vkGetDeviceQueue (to_u32 s.queue_indices.presentation_index))] := by
  unfold create_logical_device
  have hg' : ¬ s.queue_indices.graphics_index < 0 := by omega
  have hp' : ¬ s.queue_indices.presentation_index < 0 := by omega
  by_cases hr : result = VK_SUCCESS
  · simp [hg', hp', hr, Outcome.ending, added_calls, Outcome.state, State.log]
  · simp [hg', hp', hr, Outcome.ending, added_calls, Outcome.state, State.log]

/-- C12 (evaluation at the failing input): on a device whose only queue family
has neither the graphics bit nor presentation support, `find_queue_indices`
would give `-1` for both indices and `create_logical_device` would be fatal on
them; `init_vulkan` never calls `find_queue_indices`, so `queue_indices` is
still `{0, 0}` from program start, both guards pass, `vkCreateDevice` is
called for family 0 twice, no error is reported and start-up returns. -/
theorem init_vulkan_without_capable_family :
    (∀ f ∈ compute_only_families, ¬ f.has_graphics ∧ f.presentation_support = false) ∧
    find_queue_indices compute_only_families =
      { graphics_index := -1, presentation_index := -1 } ∧
    (create_logical_device VK_SUCCESS
      { program_start with
        queue_indices := find_queue_indices compute_only_families }).ending = .exited 1 ∧
    (init_vulkan (init_ok compute_only_families) program_start).ending = .returned ∧
    (init_vulkan (init_ok compute_only_families) program_start).state.queue_indices =
      { graphics_index := 0, presentation_index := 0 } ∧
    Call.init (.vkCreateDevice 0 0) ∈
      added_calls program_start (init_vulkan (init_ok compute_only_families) program_start) ∧
    (∀ c ∈ added_calls program_start
        (init_vulkan (init_ok compute_only_families) program_start),
      c.is_diagnostic = false) := by
  refine ⟨by decide, by decide, by decide, by decide, by decide, by decide, by decide⟩

/-- C13 (evaluation at the failing input): when `vkCreateDevice` fails and
every other call succeeds, `create_logical_device` reports the failure and
goes on: the two `vkGetDeviceQueue` calls and every later step of start-up
follow, start-up returns, and `main` ends with exit code 0 after the frame
loop. A failing `vkCreateInstance`, in contrast, ends the process with exit
code 1 right after its error line, and a run with no failure ends with exit
code 0. -/
theorem create_device_failure_is_not_fatal :
    (init_vulkan
      { init_ok two_capable_families with device_result := VK_ERROR_INITIALIZATION_FAILED }
      program_start).ending = .returned ∧
    (added_calls program_start (init_vulkan
      { init_ok two_capable_families with device_result := VK_ERROR_INITIALIZATION_FAILED }
      program_start)).take 9 =
      [.init .vkCreateInstance, .init .glfwCreateWindowSurface,
       .init .vkEnumeratePhysicalDevices, .init .vkEnumeratePhysicalDevices,
       .init (.vkCreateDevice 0 0), .fprintf .error_create_device,
       .init (.vkGetDeviceQueue 0), .init (.vkGetDeviceQueue 0),
       .vkGetPhysicalDeviceSurfaceCapabilitiesKHR] ∧
    Call.init (.vkCreateFence 1) ∈ added_calls program_start (init_vulkan
      { init_ok two_capable_families with device_result := VK_ERROR_INITIALIZATION_FAILED }
      program_start) ∧
    (main 3
      { init_ok two_capable_families with device_result := VK_ERROR_INITIALIZATION_FAILED }
      [frame_ok 0, frame_ok 1]).exit_code = some 0 ∧
    (init_vulkan
      { init_ok two_capable_families with instance_result := VK_ERROR_INITIALIZATION_FAILED }
      program_start).exit_code = some 1 ∧
    added_calls program_start (init_vulkan
      { init_ok two_capable_families with instance_result := VK_ERROR_INITIALIZATION_FAILED }
      program_start) = [.init .vkCreateInstance, .fprintf .error_create_instance] ∧
    (main 3 (init_ok two_capable_families) [frame_ok 0, frame_ok 1]).exit_code = some 0 := by
  refine ⟨by decide, by decide, by decide, by decide, by decide, by decide, by decide⟩

/-- The creation steps of start-up that consist of one call are fatal on
failure: the error line follows the call and the process exits with code 1. -/
theorem single_call_creation_steps_exit (result : Int) (s : State)
    (h : result ≠ VK_SUCCESS) :
    create_instance result s =
      .exited 1 (s.log [.init .vkCreateInstance, .fprintf .error_create_instance]) ∧
    create_surface result s =
      .exited 1 (s.log [.init .glfwCreateWindowSurface, .fprintf .error_create_surface]) ∧
    create_render_pass result s =
      .exited 1 (s.log [.init .vkCreateRenderPass, .fprintf .error_create_render_pass]) ∧
    create_command_pool result s =
      .exited 1 (s.log [.init (.vkCreateCommandPool (to_u32 s.queue_indices.graphics_index)),
        .fprintf .error_create_command_pool]) ∧
    create_command_buffers result s =
      .exited 1 (s.log [.init (.vkAllocateCommandBuffers MAX_FRAMES_IN_FLIGHT),
        .fprintf .error_allocate_command_buffers]) := by
  refine ⟨?_, ?_, ?_, ?_, ?_⟩
  · simp [create_instance, h, State.log_log]
  · simp [create_surface, h, State.log_log]
  · simp [create_render_pass, h, State.log_log]
  · simp [create_command_pool, h, State.log_log]
  · simp [create_command_buffers, h, State.log_log]

/-! ### The frame-slot index -/

theorem Outcome.bind_current_frame (o : Outcome) (f : State → Outcome)
    (h : ∀ s, (f s).state.current_frame = s.current_frame) :
    (o.bind f).state.current_frame = o.state.current_frame := by
  cases o <;> first | exact h _ | rfl

theorem create_swap_chain_current_frame (env : SwapEnv) (s : State) :
    (create_swap_chain env s).state.current_frame = s.current_frame := by
  rcases create_swap_chain_cases env s with
    ⟨_, h⟩ | ⟨_, _, h⟩ | ⟨_, _, f, s1, _, _, _, _, hcur, _, _, _, _, h⟩
  · rw [h]; rfl
  · rw [h]; rfl
  · rcases h with ⟨_, h⟩ | ⟨_, _, h⟩ | ⟨_, _, h⟩ <;> rw [h] <;> exact hcur

theorem create_img_views_current_frame (results : Nat → Int) (s : State) :
    (create_img_views results s).state.current_frame = s.current_frame := by
  obtain ⟨calls, k, _, _, _, h⟩ := create_img_views_steps results s
  rcases h with ⟨h, _⟩ | h <;> rw [h] <;> rfl

theorem create_framebuffers_current_frame (results : Nat → Int) (s : State) :
    (create_framebuffers results s).state.current_frame = s.current_frame := by
  obtain ⟨calls, k, _, _, _, h⟩ := create_framebuffers_steps results s
  rcases h with ⟨h, _⟩ | h <;> rw [h] <;> rfl

theorem create_buffer_current_frame (memory_types : List Nat) (env : BufferEnv)
    (size usage_flags mem_flags : Nat) (buffer : Buf) (s : State) :
    (create_buffer memory_types env size usage_flags mem_flags buffer s).state.current_frame =
      s.current_frame := by
  rcases create_buffer_cases memory_types env size usage_flags mem_flags buffer s with
    ⟨_, h⟩ | ⟨_, _, h⟩ | ⟨i, _, _, _, h⟩ | ⟨i, _, _, _, h⟩ <;> rw [h] <;>
    simp [Outcome.state]

theorem upload_buffer_current_frame (data : List Nat) (target_usage : Nat) (dst : Buf)
    (env : UploadEnv) (s : State) :
    (upload_buffer data target_usage dst env s).state.current_frame = s.current_frame := by
  unfold upload_buffer
  rw [Outcome.bind_current_frame, create_buffer_current_frame]
  intro s1
  rw [Outcome.bind_current_frame, create_buffer_current_frame]
  · exact fill_staging_buffer_current_frame _ _ _ _
  · intro s2
    simp [Outcome.state, destroy_staging_buffer, copy_buffer_current_frame]

theorem create_sync_prims_loop_current_frame (env : SyncEnv) (n : Nat) :
    ∀ (i : Nat) (s : State),
      (create_sync_prims_loop env n i s).state.current_frame = s.current_frame := by
  induction n with
  | zero => intro i s; rfl
  | succ n ih =>
    intro i s
    unfold create_sync_prims_loop
    simp only []
    split_ifs
    · rfl
    · rfl
    · rfl
    · rw [ih]
      rfl

/-- No step of `init_vulkan` writes `current_frame`. -/
theorem init_vulkan_current_frame (env : InitEnv) (s : State) :
    (init_vulkan env s).state.current_frame = s.current_frame := by
  unfold init_vulkan
  have h14 : ∀ s, (create_sync_prims env.sync s).state.current_frame = s.current_frame :=
    fun s => create_sync_prims_loop_current_frame env.sync _ 0 s
  have h13 : ∀ s, ((create_command_buffers env.command_buffers_result s).bind fun s =>
      create_sync_prims env.sync s).state.current_frame = s.current_frame := by
    intro s
    rw [Outcome.bind_current_frame _ _ h14]
    unfold create_command_buffers
    simp only []
    split_ifs <;> rfl
  have h12 : ∀ s, ((create_index_buffer env.indices env.index_upload s).bind fun s =>
      (create_command_buffers env.command_buffers_result s).bind fun s =>
      create_sync_prims env.sync s).state.current_frame = s.current_frame := by
    intro s
    rw [Outcome.bind_current_frame _ _ h13, create_index_buffer_eq,
      upload_buffer_current_frame]
  have h11 : ∀ s, ((create_vertex_buffer env.vertices env.vertex_upload s).bind fun s =>
      (create_index_buffer env.indices env.index_upload s).bind fun s =>
      (create_command_buffers env.command_buffers_result s).bind fun s =>
      create_sync_prims env.sync s).state.current_frame = s.current_frame := by
    intro s
    rw [Outcome.bind_current_frame _ _ h12, create_vertex_buffer_eq,
      upload_buffer_current_frame]
  rw [Outcome.bind_current_frame]
  · unfold create_instance
    simp only []
    split_ifs <;> rfl
  intro s
  rw [Outcome.bind_current_frame]
  · unfold create_surface
    simp only []
    split_ifs <;> rfl
  intro s
  rw [Outcome.bind_current_frame]
  · unfold select_physical_device
    simp only []
    split_ifs <;> rfl
  intro s
  rw [Outcome.bind_current_frame]
  · unfold create_logical_device
    simp only []
    split_ifs <;> rfl
  intro s
  rw [Outcome.bind_current_frame, create_swap_chain_current_frame]
  intro s
  rw [Outcome.bind_current_frame, create_img_views_current_frame]
  intro s
  rw [Outcome.bind_current_frame]
  · unfold create_render_pass
    simp only []
    split_ifs <;> rfl
  intro s
  rw [Outcome.bind_current_frame]
  · unfold create_graphics_pipeline
    simp only []
    split_ifs <;> rfl
  intro s
  rw [Outcome.bind_current_frame, create_framebuffers_current_frame]
  intro s
  rw [Outcome.bind_current_frame _ _ h11]
  unfold create_command_pool
  simp only []
  split_ifs <;> rfl

theorem bind_advance_current_frame_cases (o : Outcome) :
    ((o.bind fun s => .returned
        { s with current_frame := (s.current_frame + 1) % MAX_FRAMES_IN_FLIGHT }).ending =
        .returned ∧
      (o.bind fun s => .returned
        { s with current_frame := (s.current_frame + 1) % MAX_FRAMES_IN_FLIGHT }
        ).state.current_frame = (o.state.current_frame + 1) % MAX_FRAMES_IN_FLIGHT) ∨
    ((o.bind fun s => .returned
        { s with current_frame := (s.current_frame + 1) % MAX_FRAMES_IN_FLIGHT }).ending ≠
        .returned ∧
      (o.bind fun s => .returned
        { s with current_frame := (s.current_frame + 1) % MAX_FRAMES_IN_FLIGHT }
        ).state.current_frame = o.state.current_frame) := by
  cases o
  · left; exact ⟨rfl, rfl⟩
  all_goals right; exact ⟨by simp [Outcome.bind, Outcome.ending], rfl⟩

/-- What the present step of `draw_frame` does to `current_frame`: it is left
as it was, or it is advanced, and then the step returned after a present with
`VK_SUCCESS` or after a rebuild. -/
theorem draw_frame_present_current_frame (fuel : Nat) (env : FrameEnv) (j : Nat) (s : State) :
    (draw_frame_present fuel env j s).state.current_frame = s.current_frame ∨
    ((draw_frame_present fuel env j s).state.current_frame =
        (s.current_frame + 1) % MAX_FRAMES_IN_FLIGHT ∧
      (draw_frame_present fuel env j s).ending = .returned ∧
      (env.present_result = VK_SUCCESS ∨ env.present_result = VK_ERROR_OUT_OF_DATE_KHR ∨
        env.present_result = VK_SUBOPTIMAL_KHR ∨ s.framebuffer_resized = true)) := by
  by_cases hcond : env.present_result = VK_ERROR_OUT_OF_DATE_KHR ∨
      env.present_result = VK_SUBOPTIMAL_KHR ∨ s.framebuffer_resized = true
  · obtain ⟨calls, hsteps, _, _⟩ := recreate_swap_chain_frame fuel env.rebuild
      { s.log [Call.vkQueuePresentKHR s.current_frame j] with framebuffer_resized := false }
    have hdef : draw_frame_present fuel env j s =
        (recreate_swap_chain fuel env.rebuild
          { s.log [Call.vkQueuePresentKHR s.current_frame j] with
            framebuffer_resized := false }).bind fun s => .returned
          { s with current_frame := (s.current_frame + 1) % MAX_FRAMES_IN_FLIGHT } := by
      simp only [draw_frame_present, State.log_framebuffer_resized, State.log_current_frame,
        hcond, if_true]
    obtain ⟨_, _, hcur, _, _⟩ := hsteps
    have hcur' : (recreate_swap_chain fuel env.rebuild
          { s.log [Call.vkQueuePresentKHR s.current_frame j] with
            framebuffer_resized := false }).state.current_frame = s.current_frame := by
      rw [hcur]
      rfl
    rcases bind_advance_current_frame_cases (recreate_swap_chain fuel env.rebuild
      { s.log [Call.vkQueuePresentKHR s.current_frame j] with framebuffer_resized := false })
      with ⟨hret, hadv⟩ | ⟨_, hsame⟩
    · right
      refine ⟨?_, ?_, Or.inr hcond⟩
      · rw [hdef, hadv, hcur']
      · rw [hdef]
        exact hret
    · left
      rw [hdef, hsame, hcur']
  · rcases draw_frame_present_cases fuel env j s with ⟨hc, _⟩ | ⟨_, _, h⟩ | ⟨_, hr, h⟩
    · exact absurd hc hcond
    · left
      rw [h]
      rfl
    · right
      rw [h]
      exact ⟨rfl, rfl, Or.inl hr⟩

/-- What one call of `draw_frame` does to `current_frame`: it is left as it
was, or it is advanced, and then the iteration got past the fence wait and the
acquire and returned after a present with `VK_SUCCESS` or after a rebuild. -/
theorem draw_frame_current_frame (fuel : Nat) (env : FrameEnv) (s : State) :
    (draw_frame fuel env s).state.current_frame = s.current_frame ∨
    ((draw_frame fuel env s).state.current_frame =
        (s.current_frame + 1) % MAX_FRAMES_IN_FLIGHT ∧
      s.in_flight_fences s.current_frame ≠ .dead ∧
      (env.acquire_result = VK_SUCCESS ∨ env.acquire_result = VK_SUBOPTIMAL_KHR) ∧
      (draw_frame fuel env s).ending = .returned ∧
      (env.present_result = VK_SUCCESS ∨ env.present_result = VK_ERROR_OUT_OF_DATE_KHR ∨
        env.present_result = VK_SUBOPTIMAL_KHR ∨ s.framebuffer_resized = true)) := by
  by_cases hfence : s.in_flight_fences s.current_frame = .dead
  · left
    have hdef : draw_frame fuel env s = .hung (s.log [Call.vkWaitForFences s.current_frame]) := by
      simp only [draw_frame, State.log_in_flight_fences, State.log_current_frame, hfence,
        if_true]
    rw [hdef]
    rfl
  by_cases hacq : env.acquire_result = VK_SUCCESS ∨ env.acquire_result = VK_SUBOPTIMAL_KHR
  · obtain ⟨s_pre, hdef, _, hflag, hcur, _⟩ := draw_frame_reaches_present fuel env s hfence hacq
    rcases draw_frame_present_current_frame fuel env env.img_index s_pre with
      h | ⟨hadv, hret, hpres⟩
    · left
      rw [hdef, h, hcur]
    · right
      rw [hflag] at hpres
      rw [hcur] at hadv
      exact ⟨by rw [hdef, hadv], hfence, hacq, by rw [hdef]; exact hret, hpres⟩
  · left
    by_cases hood : env.acquire_result = VK_ERROR_OUT_OF_DATE_KHR
    · have hdef : draw_frame fuel env s = recreate_swap_chain fuel env.rebuild
          (((s.log [Call.vkWaitForFences s.current_frame]).set_fence s.current_frame
            FenceState.signaled).log [Call.vkAcquireNextImageKHR s.current_frame]) := by
        simp only [draw_frame, State.log_in_flight_fences, State.log_current_frame, hfence,
          if_false, State.set_fence_current_frame, hood, if_true]
      obtain ⟨_, ⟨_, _, hcur, _, _⟩, _, _⟩ := recreate_swap_chain_frame fuel
        env.rebuild (((s.log [Call.vkWaitForFences s.current_frame]).set_fence s.current_frame
            FenceState.signaled).log [Call.vkAcquireNextImageKHR s.current_frame])
      rw [hdef, hcur]
      rfl
    · have hsoft : env.acquire_result ≠ VK_SUCCESS ∧ env.acquire_result ≠ VK_SUBOPTIMAL_KHR :=
        ⟨fun h => hacq (Or.inl h), fun h => hacq (Or.inr h)⟩
      have hdef : draw_frame fuel env s = .returned
          ((((s.log [Call.vkWaitForFences s.current_frame]).set_fence s.current_frame
            FenceState.signaled).log [Call.vkAcquireNextImageKHR s.current_frame]).log
            [Call.fprintf Diagnostic.warning_acquire]) := by
        simp only [draw_frame, State.log_in_flight_fences, State.log_current_frame, hfence,
          if_false, State.set_fence_current_frame, hood, hsoft, ne_eq, not_false_eq_true,
          and_self, if_true]
      rw [hdef]
      rfl

theorem draw_frame_current_frame_lt (fuel : Nat) (env : FrameEnv) (s : State)
    (hk : s.current_frame < MAX_FRAMES_IN_FLIGHT) :
    (draw_frame fuel env s).state.current_frame < MAX_FRAMES_IN_FLIGHT := by
  rcases draw_frame_current_frame fuel env s with h | ⟨h, _⟩
  · rw [h]
    exact hk
  · rw [h]
    exact Nat.mod_lt _ (by decide)

/-- The frame loop keeps `current_frame` below `MAX_FRAMES_IN_FLIGHT`, after
any number of iterations and however the last one ends. -/
theorem main_loop_iterations_current_frame_lt (fuel : Nat) (frames : List FrameEnv) :
    ∀ s : State, s.current_frame < MAX_FRAMES_IN_FLIGHT →
      (main_loop_iterations fuel frames s).state.current_frame < MAX_FRAMES_IN_FLIGHT := by
  induction frames with
  | nil => intro s hk; exact hk
  | cons env envs ih =>
    intro s hk
    have hstep : (main_loop_iteration fuel env s).state.current_frame <
        MAX_FRAMES_IN_FLIGHT := by
      unfold main_loop_iteration
      apply draw_frame_current_frame_lt
      split_ifs
      · exact hk
      · exact hk
    unfold main_loop_iterations
    cases h : main_loop_iteration fuel env s with
    | returned s1 =>
      rw [h] at hstep
      exact ih s1 hstep
    | exited c s1 => rw [h] at hstep; exact hstep
    | aborted s1 => rw [h] at hstep; exact hstep
    | stalled s1 => rw [h] at hstep; exact hstep
    | hung s1 => rw [h] at hstep; exact hstep

theorem main_current_frame_lt (fuel : Nat) (init : InitEnv) (frames : List FrameEnv) :
    (main fuel init frames).state.current_frame < MAX_FRAMES_IN_FLIGHT := by
  have h0 := init_vulkan_current_frame init program_start
  unfold main
  cases h : init_vulkan init program_start with
  | returned s1 =>
    rw [h] at h0
    exact main_loop_iterations_current_frame_lt fuel frames s1 (by
      have h1 : s1.current_frame = 0 := h0
      rw [h1]
      decide)
  | exited c s1 => rw [h] at h0; exact (show s1.current_frame < 2 by
      have h1 : s1.current_frame = 0 := h0
      omega)
  | aborted s1 => rw [h] at h0; exact (show s1.current_frame < 2 by
      have h1 : s1.current_frame = 0 := h0
      omega)
  | stalled s1 => rw [h] at h0; exact (show s1.current_frame < 2 by
      have h1 : s1.current_frame = 0 := h0
      omega)
  | hung s1 => rw [h] at h0; exact (show s1.current_frame < 2 by
      have h1 : s1.current_frame = 0 := h0
      omega)

/-- C17: the frame-slot index. `current_frame` is 0 when `main` starts and no
step of `init_vulkan` writes it, so the first `draw_frame` finds 0. From every
state with `current_frame = k < MAX_FRAMES_IN_FLIGHT`, after `draw_frame`
`current_frame` is again below `MAX_FRAMES_IN_FLIGHT`, however `draw_frame`
ends; an iteration that gets past the acquire and returns after a present with
`VK_SUCCESS` or after a rebuild has set it to `(k + 1) % MAX_FRAMES_IN_FLIGHT`;
an iteration abandoned at an out-of-date acquire, at an acquire soft failure
or at a present soft failure leaves it at `k`. So it is below
`MAX_FRAMES_IN_FLIGHT` after any number of iterations of the frame loop and
throughout every run of `main`. -/
theorem current_frame_invariant (fuel : Nat) (env : FrameEnv) (s : State)
    (hk : s.current_frame < MAX_FRAMES_IN_FLIGHT) :
    program_start.current_frame = 0 ∧
    (∀ init : InitEnv, (init_vulkan init program_start).state.current_frame = 0) ∧
    (draw_frame fuel env s).state.current_frame < MAX_FRAMES_IN_FLIGHT ∧
    (s.in_flight_fences s.current_frame ≠ .dead →
      (env.acquire_result = VK_SUCCESS ∨ env.acquire_result = VK_SUBOPTIMAL_KHR) →
      (draw_frame fuel env s).ending = .returned →
      (env.present_result = VK_SUCCESS ∨ env.present_result = VK_ERROR_OUT_OF_DATE_KHR ∨
        env.present_result = VK_SUBOPTIMAL_KHR ∨ s.framebuffer_resized = true) →
      (draw_frame fuel env s).state.current_frame =
        (s.current_frame + 1) % MAX_FRAMES_IN_FLIGHT) ∧
    (env.acquire_result = VK_ERROR_OUT_OF_DATE_KHR →
      (draw_frame fuel env s).state.current_frame = s.current_frame) ∧
    (env.acquire_result ≠ VK_ERROR_OUT_OF_DATE_KHR → env.acquire_result ≠ VK_SUCCESS →
      env.acquire_result ≠ VK_SUBOPTIMAL_KHR →
      (draw_frame fuel env s).state.current_frame = s.current_frame) ∧
    ((env.acquire_result = VK_SUCCESS ∨ env.acquire_result = VK_SUBOPTIMAL_KHR) →
      env.present_result ≠ VK_SUCCESS → env.present_result ≠ VK_ERROR_OUT_OF_DATE_KHR →
      env.present_result ≠ VK_SUBOPTIMAL_KHR → s.framebuffer_resized = false →
      (draw_frame fuel env s).state.current_frame = s.current_frame) ∧
    (∀ frames : List FrameEnv,
      (main_loop_iterations fuel frames s).state.current_frame < MAX_FRAMES_IN_FLIGHT) ∧
    (∀ (init : InitEnv) (frames : List FrameEnv),
      (main fuel init frames).state.current_frame < MAX_FRAMES_IN_FLIGHT) := by
  refine ⟨rfl, fun init => init_vulkan_current_frame init program_start,
    draw_frame_current_frame_lt fuel env s hk, ?_, ?_, ?_, ?_,
    fun frames => main_loop_iterations_current_frame_lt fuel frames s hk,
    fun init frames => main_current_frame_lt fuel init frames⟩
  · intro hfence hacq hret hpres
    obtain ⟨s_pre, hdef, _, hflag, hcur, _⟩ := draw_frame_reaches_present fuel env s hfence hacq
    rw [hdef] at hret ⊢
    rcases draw_frame_present_cases fuel env env.img_index s_pre with
      ⟨_, _, _, _, _, _, _, hadv⟩ | ⟨hcond, hr, _⟩ | ⟨_, _, h⟩
    · rw [hadv hret, hcur]
    · rw [hflag] at hcond
      rcases hpres with h | h
      · exact absurd h hr
      · exact absurd h hcond
    · rw [h, ← hcur]
      rfl
  · intro hood
    rcases draw_frame_current_frame fuel env s with h | ⟨_, _, hacq, _⟩
    · exact h
    · rcases hacq with h | h <;> rw [h] at hood <;> exact absurd hood (by decide)
  · intro _ hs hsub
    rcases draw_frame_current_frame fuel env s with h | ⟨_, _, hacq, _⟩
    · exact h
    · rcases hacq with h | h
      · exact absurd h hs
      · exact absurd h hsub
  · intro _ hs hood hsub hflag
    rcases draw_frame_current_frame fuel env s with h | ⟨_, _, _, _, hpres⟩
    · exact h
    · rcases hpres with h | h | h | h
      · exact absurd h hs
      · exact absurd h hood
      · exact absurd h hsub
      · rw [hflag] at h
        exact absurd h (by decide)

/-- C17 from the state after start-up, with slot 0 current: a frame that is
presented with `VK_SUCCESS` moves the index to 1, and a frame whose present
fails with `VK_ERROR_DEVICE_LOST` leaves it at 0. -/
theorem current_frame_invariant_witness :
    (started 0 0).current_frame < MAX_FRAMES_IN_FLIGHT ∧
    (draw_frame 5 (frame_ok 1) (started 0 0)).state.current_frame = 1 ∧
    (draw_frame 5 { frame_ok 1 with present_result := VK_ERROR_DEVICE_LOST }
      (started 0 0)).state.current_frame = 0 :=
  ⟨by decide,
   (current_frame_invariant 5 (frame_ok 1) (started 0 0) (by decide)).2.2.2.1
     (by decide) (Or.inl rfl) (by decide) (Or.inl rfl),
   (current_frame_invariant 5 { frame_ok 1 with present_result := VK_ERROR_DEVICE_LOST }
     (started 0 0) (by decide)).2.2.2.2.2.2.1 (Or.inl rfl) (by decide) (by decide)
     (by decide) rfl⟩

/-! ### Slot index and image index -/

theorem is_build_call_slot_indices (c : Call) (h : c.is_build_call = true) :
    c.slot_indices = [] := by
  cases c <;> first | rfl | simp [Call.is_build_call, Call.is_lifecycle] at h

theorem record_command_buffer_calls_slot (begin_result end_result : Int) (k j : Nat)
    (extent : VkExtent2D) :
    ∀ c ∈ record_command_buffer_calls begin_result end_result k j extent,
      (∀ i ∈ c.slot_indices, i = k) ∧
      (∀ cb fb ext, c = Call.vkCmdBeginRenderPass cb fb ext → cb = k ∧ fb = j) ∧
      (∀ w img, c ≠ Call.vkQueuePresentKHR w img) ∧
      (∀ w stage cb sig f, c ≠ Call.vkQueueSubmit w stage cb sig f) := by
  intro c hc
  unfold record_command_buffer_calls at hc
  split_ifs at hc <;> simp at hc <;> rcases hc with hc | hc <;> try subst hc
  all_goals first
    | (rcases hc with rfl | rfl | rfl | rfl | rfl | rfl | rfl | rfl | rfl | rfl <;>
        simp [Call.slot_indices])
    | simp [Call.slot_indices]

/-- The calls of an iteration of `draw_frame` that reaches the present step:
the frame work for slot `k` and image `j`, the present, and then nothing, the
present warning, or a rebuild. -/
theorem draw_frame_reaching_present_calls (fuel : Nat) (env : FrameEnv) (s : State)
    (hfence : s.in_flight_fences s.current_frame ≠ .dead)
    (hacq : env.acquire_result = VK_SUCCESS ∨ env.acquire_result = VK_SUBOPTIMAL_KHR) :
    ∃ tail : List Call,
      added_calls s (draw_frame fuel env s) =
        [Call.vkWaitForFences s.current_frame,
          Call.vkAcquireNextImageKHR s.current_frame,
          Call.vkResetFences s.current_frame,
          Call.vkResetCommandBuffer s.current_frame] ++
        record_command_buffer_calls env.begin_result env.end_result s.current_frame
          env.img_index s.swap_chain_extent ++
        [Call.vkQueueSubmit s.current_frame VK_PIPELINE_STAGE_COLOR_ATTACHMENT_OUTPUT_BIT
          s.current_frame s.current_frame s.current_frame] ++
        (if env.submit_result ≠ VK_SUCCESS then [Call.fprintf Diagnostic.warning_submit]
          else []) ++
        [Call.vkQueuePresentKHR s.current_frame env.img_index] ++ tail ∧
      ∀ c ∈ tail, c = Call.enter_recreate_swap_chain ∨ c.is_build_call = true := by
  obtain ⟨s_pre, hdef, htr, _, hcur, _⟩ := draw_frame_reaches_present fuel env s hfence hacq
  rcases draw_frame_present_cases fuel env env.img_index s_pre with
    ⟨_, calls, hbuild, hptr, _⟩ | ⟨_, _, h⟩ | ⟨_, _, h⟩
  · refine ⟨Call.enter_recreate_swap_chain :: calls, ?_, ?_⟩
    · apply added_calls_of_append
      rw [hdef, hptr, htr, hcur]
      simp [List.append_assoc]
    · intro c hc
      rcases List.mem_cons.mp hc with rfl | hc
      · exact Or.inl rfl
      · exact Or.inr (hbuild c hc)
  · refine ⟨[Call.fprintf Diagnostic.warning_present], ?_, ?_⟩
    · apply added_calls_of_append
      rw [hdef, h]
      simp [Outcome.state, htr, hcur, List.append_assoc]
    · intro c hc
      rcases List.mem_singleton.mp hc with rfl
      exact Or.inr rfl
  · refine ⟨[], ?_, ?_⟩
    · apply added_calls_of_append
      rw [hdef, h]
      simp [Outcome.state, htr, hcur, List.append_assoc]
    · intro c hc
      cases hc

/-- In an iteration of `draw_frame` that reaches the present step, every call
is given objects of slot `k` only, and the calls that take an image index take
`j`. -/
theorem draw_frame_call_indices (fuel : Nat) (env : FrameEnv) (s : State)
    (hfence : s.in_flight_fences s.current_frame ≠ .dead)
    (hacq : env.acquire_result = VK_SUCCESS ∨ env.acquire_result = VK_SUBOPTIMAL_KHR) :
    ∀ c ∈ added_calls s (draw_frame fuel env s),
      (∀ i ∈ c.slot_indices, i = s.current_frame) ∧
      (∀ cb fb ext, c = Call.vkCmdBeginRenderPass cb fb ext →
        cb = s.current_frame ∧ fb = env.img_index) ∧
      (∀ w img, c = Call.vkQueuePresentKHR w img →
        w = s.current_frame ∧ img = env.img_index) ∧
      (∀ w stage cb sig f, c = Call.vkQueueSubmit w stage cb sig f →
        w = s.current_frame ∧ stage = VK_PIPELINE_STAGE_COLOR_ATTACHMENT_OUTPUT_BIT ∧
        cb = s.current_frame ∧ sig = s.current_frame ∧ f = s.current_frame) := by
  obtain ⟨tail, hadd, htail⟩ := draw_frame_reaching_present_calls fuel env s hfence hacq
  intro c hc
  rw [hadd] at hc
  simp only [List.mem_append] at hc
  rcases hc with ((((hc | hc) | hc) | hc) | hc) | hc
  · simp at hc
    rcases hc with rfl | rfl | rfl | rfl <;> simp [Call.slot_indices]
  · obtain ⟨h1, h2, h3, h4⟩ := record_command_buffer_calls_slot _ _ _ _ _ c hc
    exact ⟨h1, h2, fun w img h => absurd h (h3 w img),
      fun w stage cb sig f h => absurd h (h4 w stage cb sig f)⟩
  · rcases List.mem_singleton.mp hc with rfl
    simp only [Call.slot_indices]
    refine ⟨by simp, by simp, by simp, ?_⟩
    intro w stage cb sig f h
    cases h
    exact ⟨rfl, rfl, rfl, rfl, rfl⟩
  · split_ifs at hc
    · rcases List.mem_singleton.mp hc with rfl
      simp [Call.slot_indices]
    · cases hc
  · rcases List.mem_singleton.mp hc with rfl
    simp [Call.slot_indices]
  · rcases htail c hc with rfl | hb
    · simp [Call.slot_indices]
    · refine ⟨by rw [is_build_call_slot_indices c hb]; simp, ?_, ?_, ?_⟩
      · intro cb fb ext h
        subst h
        simp [Call.is_build_call, Call.is_lifecycle] at hb
      · intro w img h
        subst h
        simp [Call.is_build_call, Call.is_lifecycle] at hb
      · intro w stage cb sig f h
        subst h
        simp [Call.is_build_call, Call.is_lifecycle] at hb

/-- C18: slot index and image index in one iteration of `draw_frame` that
acquires an image, with `k = current_frame` on entry and `j` the image index
acquired. The calls of the iteration are, in order: the wait on fence `k`,
the acquire with image-available semaphore `k`, the reset of fence `k`, the
reset of command buffer `k`, the recording into command buffer `k` with
framebuffer `j`, the submission that waits on image-available semaphore `k` at
the color-attachment-output stage, executes command buffer `k`, signals
render-finished semaphore `k` and is given fence `k`, and the present that
waits on render-finished semaphore `k` and presents image `j`; what follows
the present is given no per-slot object. Every call of the iteration is given
per-slot objects of index `k` only; every render pass begun is recorded into
command buffer `k` on framebuffer `j`, and one is begun when
`vkBeginCommandBuffer` succeeds; every present is of image `j`; and every
reset of a command buffer is a reset of command buffer `k` that comes after
the wait on fence `k`. -/
theorem slot_index_versus_image_index (fuel : Nat) (env : FrameEnv) (s : State)
    (hfence : s.in_flight_fences s.current_frame ≠ .dead)
    (hacq : env.acquire_result = VK_SUCCESS ∨ env.acquire_result = VK_SUBOPTIMAL_KHR) :
    (∃ tail : List Call,
      added_calls s (draw_frame fuel env s) =
        [Call.vkWaitForFences s.current_frame,
          Call.vkAcquireNextImageKHR s.current_frame,
          Call.vkResetFences s.current_frame,
          Call.vkResetCommandBuffer s.current_frame] ++
        record_command_buffer_calls env.begin_result env.end_result s.current_frame
          env.img_index s.swap_chain_extent ++
        [Call.vkQueueSubmit s.current_frame VK_PIPELINE_STAGE_COLOR_ATTACHMENT_OUTPUT_BIT
          s.current_frame s.current_frame s.current_frame] ++
        (if env.submit_result ≠ VK_SUCCESS then [Call.fprintf Diagnostic.warning_submit]
          else []) ++
        [Call.vkQueuePresentKHR s.current_frame env.img_index] ++ tail ∧
      ∀ c ∈ tail, c.slot_indices = []) ∧
    (∀ c ∈ added_calls s (draw_frame fuel env s), ∀ i ∈ c.slot_indices,
      i = s.current_frame) ∧
    (∀ cb fb ext, Call.vkCmdBeginRenderPass cb fb ext ∈ added_calls s (draw_frame fuel env s) →
      cb = s.current_frame ∧ fb = env.img_index) ∧
    (env.begin_result = VK_SUCCESS →
      Call.vkCmdBeginRenderPass s.current_frame env.img_index s.swap_chain_extent ∈
        added_calls s (draw_frame fuel env s)) ∧
    (∀ w img, Call.vkQueuePresentKHR w img ∈ added_calls s (draw_frame fuel env s) →
      w = s.current_frame ∧ img = env.img_index) ∧
    (∀ w stage cb sig f,
      Call.vkQueueSubmit w stage cb sig f ∈ added_calls s (draw_frame fuel env s) →
      w = s.current_frame ∧ stage = VK_PIPELINE_STAGE_COLOR_ATTACHMENT_OUTPUT_BIT ∧
      cb = s.current_frame ∧ sig = s.current_frame ∧ f = s.current_frame) ∧
    (∀ pre post cb,
      added_calls s (draw_frame fuel env s) = pre ++ Call.vkResetCommandBuffer cb :: post →
      cb = s.current_frame ∧ Call.vkWaitForFences s.current_frame ∈ pre) := by
  have hall := draw_frame_call_indices fuel env s hfence hacq
  obtain ⟨tail, hadd, htail⟩ := draw_frame_reaching_present_calls fuel env s hfence hacq
  refine ⟨⟨tail, hadd, ?_⟩, fun c hc => (hall c hc).1,
    fun cb fb ext hc => (hall _ hc).2.1 cb fb ext rfl, ?_,
    fun w img hc => (hall _ hc).2.2.1 w img rfl,
    fun w stage cb sig f hc => (hall _ hc).2.2.2 w stage cb sig f rfl, ?_⟩
  · intro c hc
    rcases htail c hc with rfl | hb
    · rfl
    · exact is_build_call_slot_indices c hb
  · intro hb
    rw [hadd]
    simp [record_command_buffer_calls, hb]
  · intro pre post cb hsplit
    have hcb : cb = s.current_frame :=
      (hall (Call.vkResetCommandBuffer cb) (by rw [hsplit]; simp)).1 cb (by
        simp [Call.slot_indices])
    refine ⟨hcb, ?_⟩
    rw [hadd] at hsplit
    cases pre with
    | nil => simp at hsplit
    | cons x pre1 =>
      simp only [List.cons_append, List.append_assoc, List.cons.injEq] at hsplit
      rw [← hsplit.1]
      exact List.mem_cons_self _ _

/-- C18 from the state after start-up, slot 0 current, image 1 acquired: the
render pass is recorded into command buffer 0 on framebuffer 1, the present
waits on render-finished semaphore 0 and presents image 1, and no call is
given an object of slot 1. -/
theorem slot_index_versus_image_index_witness :
    (started 0 0).in_flight_fences (started 0 0).current_frame ≠ .dead ∧
    Call.vkCmdBeginRenderPass 0 1 (started 0 0).swap_chain_extent ∈
      added_calls (started 0 0) (draw_frame 5 (frame_ok 1) (started 0 0)) ∧
    (∀ w img, Call.vkQueuePresentKHR w img ∈
        added_calls (started 0 0) (draw_frame 5 (frame_ok 1) (started 0 0)) →
      w = 0 ∧ img = 1) ∧
    (∀ c ∈ added_calls (started 0 0) (draw_frame 5 (frame_ok 1) (started 0 0)),
      ∀ i ∈ c.slot_indices, i = 0) :=
  ⟨by decide,
   (slot_index_versus_image_index 5 (frame_ok 1) (started 0 0) (by decide)
     (Or.inl rfl)).2.2.2.1 rfl,
   (slot_index_versus_image_index 5 (frame_ok 1) (started 0 0) (by decide)
     (Or.inl rfl)).2.2.2.2.1,
   (slot_index_versus_image_index 5 (frame_ok 1) (started 0 0) (by decide)
     (Or.inl rfl)).2.1⟩

end VulkanTemplate
